import Mathlib

/-!
# uStepper-mbed: three-axis stepper controller

A shallow embedding of `lib/MotorController.cpp` (the per-axis step-pulse
generator) and `src/Stepper.cpp` (the command handlers, the homing poll and the
main loop), followed by theorems about them.

Modelling conventions
* A `float` is an IEEE 754 binary32 value (`CFloat`): NaN, an infinity or a
  finite value given as a rational. Every product and quotient is rounded to
  the nearest binary32 value, ties to even (`f32Round`), a comparison with NaN
  is false, and a nonzero value divided by zero is an infinity. The sign of a
  zero is not modelled: a zero is `+0`, the only zero a stored period or a
  step count can be. A float literal denotes the binary32 value nearest to its
  decimal, so `0.0027f` is 2899103/1073741824 and `0.27f` is 9059697/33554432.
* `static_cast<int>` of a float is truncation toward zero when the truncated
  value fits a 32-bit `int`; for NaN, an infinity or a value out of range the
  conversion is undefined in C++ and the model records `none`.
* An `int` is 32 bits wide (the target is a 32-bit Arm core).
* A `DigitalOut`/`DigitalIn` level is a `Bool` (`true` = reads 1, `false` = reads 0).
* A `Ticker` is `none` when detached and `some ..` when attached; attaching an
  attached ticker replaces its callback.
* The three `MotorController` globals and the `Stepper` global have static
  storage, so every member the constructors leave untouched starts at zero.
* A handler returns the new state together with the frame it sends.
* A sensor level is an input of the handler or callback that reads it, one
  level per `read()` call of the source: `detectFallingEdge` reads the port
  pin twice in mode PORT and takes the two levels as separate inputs.
* A handler or a timer callback is one step of the run relation `runStep`. The
  source has no critical section, and a timer callback is an interrupt that can
  also fire between two statements of a handler; such an interleaving is not a
  run of `runStep`. The theorems about runs and about `GenReachable` are about
  executions in which no callback preempts a handler; `runStepperXPreempted`
  and `runStepperPollAfterRun` give, statement by statement, two executions of
  `runStepper` with the homing poll firing inside it.
-/

namespace UStepper

/-! ## Enumerations (the headers are not part of the sources) -/

/-- Modelled from the spec: the axis motion state enumeration of
`MotorController.h`, spec section 3 `AxisMotionState: enum {IDLE, RUNNING}`;
`IDLE` is the value 0 that `getAxisState() == 0` tests. -/
inductive AxisState where
  | IDLE
  | RUNNING
deriving DecidableEq, Repr

/-- Modelled from the spec: the board state enumeration of `Stepper.h`, spec
section 3 `BoardState: enum {WAIT_FOR_CONNECTION, CONNECTED, IDLE, PUMP_RUNNING}`. -/
inductive BoardState where
  | WAIT_FOR_CONNECTION
  | CONNECTED
  | IDLE
  | PUMP_RUNNING
deriving DecidableEq, Repr

/-- Modelled from the spec: the homing flag enumeration of `Stepper.h`, spec
section 3 `HomingMode: enum {HOME, PORT}`. -/
inductive HomingMode where
  | HOME
  | PORT
deriving DecidableEq, Repr

/-- Modelled from the spec: the reply status codes of `Stepper.h`, spec section 6
`OK, INVALID_AXIS, INVALID_PARAMETER, FLOW_NOT_CONFIGURED, NOT_SUPPORTED`. -/
inductive MsgError where
  | MSG_OK
  | MSG_ERROR_INVALID_AXIS
  | MSG_ERROR_INVALID_PARAMETER
  | MSG_ERROR_FLOW_NOT_CONFIGURED
  | MSG_ERROR_NOT_SUPPORTED
deriving DecidableEq, Repr

/-- The member function a `Ticker` of the `Stepper` object is attached to. -/
inductive TickerCallback where
  | flipRedLED
  | detectFallingEdge
deriving DecidableEq, Repr

/-- Modelled from the spec: the axis identifiers of `Stepper.h`, spec section 3
`AxisId: enum {X, Y, Z}` carried on the wire as 0, 1, 2. -/
def AXIS_X : Int := 0

/-- Modelled from the spec: see `AXIS_X`. -/
def AXIS_Y : Int := 1

/-- Modelled from the spec: see `AXIS_X`. -/
def AXIS_Z : Int := 2

/-- Modelled from the spec: the state constant `AXIS_RUNNING` that
`detectFallingEdge` compares the cached axis state with; it denotes the same
value as the generator's `RUNNING`. -/
def AXIS_RUNNING : AxisState := AxisState.RUNNING

/-- Modelled from the spec: the command identifiers of `Stepper.h`. Spec section 6
lists them in the order of the `comMessages` table; they are numbered from 0
in that order, as `getComFromHeader` indexes the table by the identifier. -/
def FID_GET_STATUS : Nat := 0

/-- Modelled from the spec: see `FID_GET_STATUS`. -/
def FID_RUN_STEPPER : Nat := 1

/-- Modelled from the spec: see `FID_GET_STATUS`. -/
def FID_STOP_STEPPER : Nat := 2

/-- Modelled from the spec: see `FID_GET_STATUS`. -/
def FID_RETURN_HOME : Nat := 3

/-- Modelled from the spec: see `FID_GET_STATUS`. -/
def FID_RUN_TO_NEXT : Nat := 4

/-- Modelled from the spec: see `FID_GET_STATUS`. -/
def FID_RUN_TO_PREVIOUS : Nat := 5

/-- Modelled from the spec: see `FID_GET_STATUS`. -/
def FID_GET_SYS_INFO : Nat := 6

/-- Modelled from the spec: see `FID_GET_STATUS`. -/
def FID_SET_CONFIG : Nat := 7

/-- A value of the C++ type `float` (IEEE 754 binary32): NaN, an infinity
(`neg` tells its sign) or a finite value. A frame read from the socket can
carry any bit pattern, so a period on the wire can be any of them. -/
inductive CFloat where
  | nan
  | inf (neg : Bool)
  | val (q : ℚ)
deriving DecidableEq

/-- Rounding of a rational to the nearest integer, a tie going to the even one. -/
def roundHalfEven (x : ℚ) : ℤ :=
  if x - ⌊x⌋ < 1 / 2 then ⌊x⌋
  else if 1 / 2 < x - ⌊x⌋ then ⌊x⌋ + 1
  else if ⌊x⌋ % 2 = 0 then ⌊x⌋
  else ⌊x⌋ + 1

/-- The binary exponent binary32 represents `x` with: the `e` with
`2 ^ e ≤ |x| < 2 ^ (e + 1)`, and -126 for the subnormal values and zero. -/
def f32Exponent (x : ℚ) : ℤ :=
  max (Int.log 2 |x|) (-126)

/-- Rounding of a real result to binary32: the nearest multiple of the unit in
the last of the 24 significand bits, ties to even, and an infinity when the
rounded magnitude reaches `2 ^ 128`. -/
def f32Round (x : ℚ) : CFloat :=
  let u : ℚ := (2 : ℚ) ^ (f32Exponent x - 23)
  let r : ℚ := (roundHalfEven (x / u) : ℚ) * u
  if (2 : ℚ) ^ (128 : ℤ) ≤ |r| then CFloat.inf (decide (x < 0)) else CFloat.val r

/-- The comparison `a <= b` of two floats: false when either is NaN. -/
def CFloat.le : CFloat → CFloat → Bool
  | CFloat.val a, CFloat.val b => decide (a ≤ b)
  | CFloat.val _, CFloat.inf t => !t
  | CFloat.inf s, CFloat.val _ => s
  | CFloat.inf s, CFloat.inf t => s || !t
  | _, _ => false

/-- The comparison `a > b` of two floats: false when either is NaN. -/
def CFloat.gt : CFloat → CFloat → Bool
  | CFloat.val a, CFloat.val b => decide (a > b)
  | CFloat.val _, CFloat.inf t => t
  | CFloat.inf s, CFloat.val _ => !s
  | CFloat.inf s, CFloat.inf t => !s && t
  | _, _ => false

/-- The product `a * b` of two floats, rounded to binary32: NaN when either is
NaN or when an infinity meets a zero. -/
def CFloat.mul : CFloat → CFloat → CFloat
  | CFloat.val a, CFloat.val b => f32Round (a * b)
  | CFloat.val a, CFloat.inf t =>
      if a = 0 then CFloat.nan else CFloat.inf (xor (decide (a < 0)) t)
  | CFloat.inf s, CFloat.val b =>
      if b = 0 then CFloat.nan else CFloat.inf (xor s (decide (b < 0)))
  | CFloat.inf s, CFloat.inf t => CFloat.inf (xor s t)
  | _, _ => CFloat.nan

/-- The quotient `a / b` of two floats, rounded to binary32: a nonzero value
divided by zero is an infinity, a finite value divided by an infinity is zero,
and NaN comes from NaN, from `0 / 0` and from an infinity divided by one. -/
def CFloat.div : CFloat → CFloat → CFloat
  | CFloat.val a, CFloat.val b =>
      if b = 0 then
        if a = 0 then CFloat.nan else CFloat.inf (decide (a < 0))
      else f32Round (a / b)
  | CFloat.val _, CFloat.inf _ => CFloat.val 0
  | CFloat.inf s, CFloat.val b => CFloat.inf (xor s (decide (b < 0)))
  | _, _ => CFloat.nan

/-- Conversion of an `int` to `float`: the nearest binary32 value. -/
def CFloat.ofInt (n : Int) : CFloat :=
  f32Round (n : ℚ)

/-- The binary32 value of the literal `0.0027f`, the lower limit of the period. -/
def f32_0_0027 : ℚ := mkRat 2899103 1073741824

/-- The binary32 value of the literal `0.27f`, the upper limit of the period. -/
def f32_0_27 : ℚ := mkRat 9059697 33554432

/-- The binary32 value nearest to 0.01, a period of 10 ms as a client sends it. -/
def f32_0_01 : ℚ := mkRat 5368709 536870912

/-- The binary32 value nearest to 0.005, a period of 5 ms as a client sends it. -/
def f32_0_005 : ℚ := mkRat 5368709 1073741824

/-- The binary32 value nearest to 0.001, a period of 1 ms as a client sends it. -/
def f32_0_001 : ℚ := mkRat 8589935 8589934592

/-- Modelled from the spec: the `STEPS_PER_ML` macro and the three `sizeof`
values of the absent `Stepper.h`, taken as parameters. The spec gives the
supplied volume as `stepsPerformed / StepsPerMl` with 1000 steps at 200 steps/ml
reading 5.0, a quotient by a fixed steps-per-volume constant, so the macro is a
`float` constant and the divisions of `getStatus` are `float` divisions. -/
structure Consts where
  msgHeaderLength : Nat
  sizeofSystemStatus : Nat
  sizeofSystemInfo : Nat
  STEPS_PER_ML : ℚ
deriving DecidableEq

/-! ## lib/MotorController.cpp -/

/-- Members of `MotorController`. `tickerMotor` is `none` when the ticker is
detached and `some t` when it is attached, `t` being the interval in
milliseconds, or `none` when the conversion that computes it is undefined.
Modelled from the spec: the member `_stepsPerformed` is declared in the absent
header; spec section 3 gives `stepsPerformed: unsigned counter`, taken as an
unsigned 32-bit value, so `stepsPerformed` is below `2 ^ 32` and an increment
wraps. -/
structure MotorController where
  step : Bool
  dir : Bool
  flowConfigured : Bool
  stepPeriod : CFloat
  axisState : AxisState
  stepsPerformed : Nat
  tickerMotor : Option (Option Int)
deriving DecidableEq

/-- Conversion `static_cast<int>` of a real value: truncation toward zero. -/
def truncToInt (q : ℚ) : Int :=
  Int.tdiv q.num (q.den : Int)

/-- Conversion `static_cast<int>` of a float: the value truncated toward zero
when that fits a 32-bit `int`; `none` where the conversion is undefined in C++
(NaN, an infinity, a truncated value out of range). -/
def CFloat.toInt : CFloat → Option Int
  | CFloat.val q =>
      if -2147483648 ≤ truncToInt q ∧ truncToInt q ≤ 2147483647 then some (truncToInt q)
      else none
  | _ => none

/-- Constructor `MotorController::MotorController` run on zero-initialised
static storage: `_step = 0; _dir = 0; _flowConfigured = false;`. -/
def MotorController.new : MotorController :=
  { step := false
    dir := false
    flowConfigured := false
    stepPeriod := CFloat.val 0
    axisState := AxisState.IDLE
    stepsPerformed := 0
    tickerMotor := none }

/-- Source `MotorController::setAxisState`. -/
def MotorController.setAxisState (m : MotorController) (state : AxisState) : MotorController :=
  { m with axisState := state }

/-- Source `MotorController::setFlowConfig`. -/
def MotorController.setFlowConfig (m : MotorController) (stepPeriod : CFloat) :
    MotorController :=
  { m with stepPeriod := stepPeriod, flowConfigured := true }

/-- Source `MotorController::setMotorDirection`: a `DigitalOut` written with an
`int` is high iff the value is nonzero. -/
def MotorController.setMotorDirection (m : MotorController) (direction : Int) : MotorController :=
  { m with dir := decide (direction ≠ 0) }

/-- Source `MotorController::runMotor`: the returned flag and the new state. -/
def MotorController.runMotor (m : MotorController) : Bool × MotorController :=
  if !m.flowConfigured then
    (false, m)
  else if m.axisState = AxisState.RUNNING then
    (true, m)
  else
    let m1 := { m with stepsPerformed := 0 }
    let m2 :=
      { m1 with
        tickerMotor :=
          some (CFloat.toInt
            (CFloat.div (CFloat.mul m1.stepPeriod (CFloat.val 1000)) (CFloat.val 2))) }
    (true, m2.setAxisState AxisState.RUNNING)

/-- The first two statements of the last path of `MotorController::runMotor`
(lines 36 and 37): `_stepsPerformed = 0;` and `_tickerMotor.attach(..)`. The
state between this and the `setAxisState(RUNNING)` that follows is the one a
timer interrupt sees when it fires there. -/
def MotorController.runMotorAttach (m : MotorController) : MotorController :=
  let m1 := { m with stepsPerformed := 0 }
  { m1 with
    tickerMotor :=
      some (CFloat.toInt
        (CFloat.div (CFloat.mul m1.stepPeriod (CFloat.val 1000)) (CFloat.val 2))) }

/-- Source `MotorController::stopMotor`. -/
def MotorController.stopMotor (m : MotorController) : MotorController :=
  let m1 := { m with tickerMotor := none }
  let m2 := m1.setAxisState AxisState.IDLE
  { m2 with step := false }

/-- Source `MotorController::flipStepPin`, the callback of `_tickerMotor`; the
increment of the 32-bit counter wraps. -/
def MotorController.flipStepPin (m : MotorController) : MotorController :=
  let m1 := { m with step := !m.step }
  if m1.step = true then { m1 with stepsPerformed := (m1.stepsPerformed + 1) % 4294967296 }
  else m1

/-- Source `MotorController::getStepsPerformed`: the counter converted to the
return type `int`, a value from `2 ^ 31` on reading as the negative number
congruent to it modulo `2 ^ 32`. -/
def MotorController.getStepsPerformed (m : MotorController) : Int :=
  if m.stepsPerformed < 2147483648 then (m.stepsPerformed : Int)
  else (m.stepsPerformed : Int) - 4294967296

/-- Source `MotorController::getStepPeriod`. -/
def MotorController.getStepPeriod (m : MotorController) : CFloat :=
  m.stepPeriod

/-- Source `MotorController::getAxisState`. -/
def MotorController.getAxisState (m : MotorController) : AxisState :=
  m.axisState

/-! ## src/Stepper.cpp: frames -/

/-- Modelled from the spec: the frame header of spec section 6 (`packetLength`,
`fid`, `error`); the struct is declared in the absent `Stepper.h`, and the
length and the identifier are taken to be unsigned fields. -/
structure MessageHeader where
  packetLength : Nat
  fid : Nat
  error : MsgError
deriving DecidableEq

/-- The receive buffer as the handlers read it: the header, the `axis` member of
`SetMotorSelect`/`SetMotorConfig` and the `stepPeriod` member of `SetMotorConfig`. -/
structure Frame where
  header : MessageHeader
  axis : Int
  stepPeriod : CFloat
deriving DecidableEq

/-- Reply structure `SystemStatus`. -/
structure SystemStatus where
  header : MessageHeader
  axisState : AxisState
  boardState : BoardState
  home : Bool
  port : Bool
  suppliedVolume_ml : CFloat
  flowRate_mlmin : CFloat
deriving DecidableEq

/-- What a handler writes to the socket: a bare header (`comReturn`), the
status structure or the system information structure (its strings come from
the network layer and are left out). -/
inductive Reply where
  | header (h : MessageHeader)
  | status (st : SystemStatus)
  | sysInfo (h : MessageHeader)
deriving DecidableEq

/-- Header of a reply. -/
def Reply.hdr : Reply → MessageHeader
  | Reply.header h => h
  | Reply.status st => st.header
  | Reply.sysInfo h => h

/-! ## src/Stepper.cpp: the controller -/

/-- Members of `Stepper` together with the three axis globals and the
function-local static `status` of `getStatus`. `setMotorSelect` is the axis
stored in `_setMotorSelect`; `tickerStepper` holds the attached callback and
its interval in milliseconds; `stepsPerformed` receives the `int` that the
accessor of a generator returns. -/
structure Stepper where
  AxisX : MotorController
  AxisY : MotorController
  AxisZ : MotorController
  enable : Bool
  redLED : Bool
  flowConfigured : Bool
  axisStarted : Bool
  stepsPerformed : Int
  stepPeriod : CFloat
  axisState : AxisState
  boardState : BoardState
  flag : HomingMode
  positionSignal : Bool
  setMotorSelect : Int
  tickerStepper : Option (TickerCallback × Nat)
  status : SystemStatus
deriving DecidableEq

/-- Constructor `Stepper::Stepper` run on zero-initialised static storage, with
the three axis globals freshly constructed. -/
def Stepper.new : Stepper :=
  { AxisX := MotorController.new
    AxisY := MotorController.new
    AxisZ := MotorController.new
    enable := false
    redLED := false
    flowConfigured := false
    axisStarted := false
    stepsPerformed := 0
    stepPeriod := CFloat.val 0
    axisState := AxisState.IDLE
    boardState := BoardState.WAIT_FOR_CONNECTION
    flag := HomingMode.HOME
    positionSignal := false
    setMotorSelect := 0
    tickerStepper := none
    status :=
      { header := { packetLength := 0, fid := 0, error := MsgError.MSG_OK }
        axisState := AxisState.IDLE
        boardState := BoardState.WAIT_FOR_CONNECTION
        home := false
        port := false
        suppliedVolume_ml := CFloat.val 0
        flowRate_mlmin := CFloat.val 0 } }

/-- Source `Stepper::comReturn`: the header of the received frame is sent back
with the header length and the error code filled in. -/
def Stepper.comReturn (c : Consts) (data : Frame) (errorCode : MsgError) : Reply :=
  Reply.header { data.header with packetLength := c.msgHeaderLength, error := errorCode }

/-- Source `Stepper::setBoardState`; the `default` branch is not reachable for
a value of the enumeration. -/
def Stepper.setBoardState (s : Stepper) (state : BoardState) : Stepper :=
  let s1 := { s with boardState := state }
  match state with
  | BoardState.WAIT_FOR_CONNECTION =>
      { s1 with tickerStepper := some (TickerCallback.flipRedLED, 500) }
  | BoardState.CONNECTED => s1
  | BoardState.IDLE => { s1 with tickerStepper := none, redLED := false }
  | BoardState.PUMP_RUNNING => s1

/-- Source `Stepper::flipRedLED`. -/
def Stepper.flipRedLED (s : Stepper) : Stepper :=
  { s with redLED := !s.redLED }

/-- Source `Stepper::setStepperDirection`. -/
def Stepper.setStepperDirection (s : Stepper) (axis : Int) (direction : Int) : Stepper :=
  if axis = AXIS_X then { s with AxisX := s.AxisX.setMotorDirection direction }
  else if axis = AXIS_Y then { s with AxisY := s.AxisY.setMotorDirection direction }
  else if axis = AXIS_Z then { s with AxisZ := s.AxisZ.setMotorDirection direction }
  else s

/-- Source `Stepper::getAxisState`: caches the selected axis state in `_axisState`. -/
def Stepper.getAxisState (s : Stepper) (axis : Int) : Stepper :=
  if axis = AXIS_X then { s with axisState := s.AxisX.getAxisState }
  else if axis = AXIS_Y then { s with axisState := s.AxisY.getAxisState }
  else if axis = AXIS_Z then { s with axisState := s.AxisZ.getAxisState }
  else s

/-- The `switch` that `runStepper`, `returnToHome`, `runToNext` and
`runToPrevious` each contain: `_flowConfigured = AxisN.runMotor()`. -/
def Stepper.switchRunMotor (s : Stepper) (axis : Int) : Stepper :=
  if axis = AXIS_X then
    { s with flowConfigured := s.AxisX.runMotor.1, AxisX := s.AxisX.runMotor.2 }
  else if axis = AXIS_Y then
    { s with flowConfigured := s.AxisY.runMotor.1, AxisY := s.AxisY.runMotor.2 }
  else if axis = AXIS_Z then
    { s with flowConfigured := s.AxisZ.runMotor.1, AxisZ := s.AxisZ.runMotor.2 }
  else s

/-- The `switch` that `stopStepper` and `detectFallingEdge` each contain:
`AxisN.stopMotor(); setStepperDirection(.., 0);`. -/
def Stepper.switchStopMotor (s : Stepper) (axis : Int) : Stepper :=
  if axis = AXIS_X then
    Stepper.setStepperDirection { s with AxisX := s.AxisX.stopMotor } axis 0
  else if axis = AXIS_Y then
    Stepper.setStepperDirection { s with AxisY := s.AxisY.stopMotor } axis 0
  else if axis = AXIS_Z then
    Stepper.setStepperDirection { s with AxisZ := s.AxisZ.stopMotor } axis 0
  else s

/-- The test `AxisX.getAxisState() == 0 && AxisY.getAxisState() == 0 &&
AxisZ.getAxisState() == 0` of `stopStepper` and `detectFallingEdge`. -/
def Stepper.allAxesIdle (s : Stepper) : Bool :=
  decide (s.AxisX.getAxisState = AxisState.IDLE) &&
  decide (s.AxisY.getAxisState = AxisState.IDLE) &&
  decide (s.AxisZ.getAxisState = AxisState.IDLE)

/-- Source `Stepper::getStatus`. -/
def Stepper.getStatus (c : Consts) (s : Stepper) (data : Frame) (home port : Bool) :
    Stepper × Reply :=
  let st0 : SystemStatus :=
    { s.status with
      header := { s.status.header with packetLength := c.sizeofSystemStatus, fid := FID_GET_STATUS } }
  if data.axis < 0 ∨ data.axis > 2 then
    let st1 : SystemStatus :=
      { st0 with header := { st0.header with error := MsgError.MSG_ERROR_INVALID_AXIS } }
    ({ s with status := st1 }, Reply.status st1)
  else
    let s1 := s.getAxisState data.axis
    let s2 : Stepper :=
      if data.axis = AXIS_X then
        { s1 with stepsPerformed := s1.AxisX.getStepsPerformed, stepPeriod := s1.AxisX.getStepPeriod }
      else if data.axis = AXIS_Y then
        { s1 with stepsPerformed := s1.AxisY.getStepsPerformed, stepPeriod := s1.AxisY.getStepPeriod }
      else if data.axis = AXIS_Z then
        { s1 with stepsPerformed := s1.AxisZ.getStepsPerformed, stepPeriod := s1.AxisZ.getStepPeriod }
      else s1
    let st2 : SystemStatus :=
      { st0 with
        axisState := s2.axisState
        boardState := s2.boardState
        home := home
        port := port
        suppliedVolume_ml :=
          CFloat.div (CFloat.ofInt s2.stepsPerformed) (CFloat.val c.STEPS_PER_ML)
        flowRate_mlmin :=
          if s2.boardState = BoardState.PUMP_RUNNING then
            CFloat.div (CFloat.div (CFloat.val 60) s2.stepPeriod) (CFloat.val c.STEPS_PER_ML)
          else CFloat.val 0 }
    ({ s2 with status := st2 }, Reply.status st2)

/-- Source `Stepper::setMotorConfig`; the literals `0.0027f` and `0.27f` are the
binary32 values `f32_0_0027` and `f32_0_27`. -/
def Stepper.setMotorConfig (c : Consts) (s : Stepper) (data : Frame) (_home _port : Bool) :
    Stepper × Reply :=
  if CFloat.le data.stepPeriod (CFloat.val f32_0_0027) ||
      CFloat.gt data.stepPeriod (CFloat.val f32_0_27) then
    (s, Stepper.comReturn c data MsgError.MSG_ERROR_INVALID_PARAMETER)
  else if data.axis < 0 ∨ data.axis > 2 then
    (s, Stepper.comReturn c data MsgError.MSG_ERROR_INVALID_AXIS)
  else
    let s1 := { s with stepPeriod := data.stepPeriod }
    let s2 : Stepper :=
      if data.axis = AXIS_X then { s1 with AxisX := s1.AxisX.setFlowConfig s1.stepPeriod }
      else if data.axis = AXIS_Y then { s1 with AxisY := s1.AxisY.setFlowConfig s1.stepPeriod }
      else if data.axis = AXIS_Z then { s1 with AxisZ := s1.AxisZ.setFlowConfig s1.stepPeriod }
      else s1
    (s2, Stepper.comReturn c data MsgError.MSG_OK)

/-- Source `Stepper::runStepper`. -/
def Stepper.runStepper (c : Consts) (s : Stepper) (data : Frame) (_home _port : Bool) :
    Stepper × Reply :=
  if data.axis < 0 ∨ data.axis > 2 then
    ({ s with axisStarted := false }, Stepper.comReturn c data MsgError.MSG_ERROR_INVALID_AXIS)
  else
    let s1 := s.switchRunMotor data.axis
    if !s1.flowConfigured then
      ({ s1 with axisStarted := false },
        Stepper.comReturn c data MsgError.MSG_ERROR_FLOW_NOT_CONFIGURED)
    else
      let s2 := s1.setBoardState BoardState.PUMP_RUNNING
      ({ s2 with axisStarted := true }, Stepper.comReturn c data MsgError.MSG_OK)

/-- Source `Stepper::stopStepper`. -/
def Stepper.stopStepper (c : Consts) (s : Stepper) (data : Frame) (_home _port : Bool) :
    Stepper × Reply :=
  if data.axis < 0 ∨ data.axis > 2 then
    (s, Stepper.comReturn c data MsgError.MSG_ERROR_INVALID_AXIS)
  else
    let s1 := s.switchStopMotor data.axis
    let s2 := if s1.allAxesIdle then s1.setBoardState BoardState.IDLE else s1
    ({ s2 with stepsPerformed := 0 }, Stepper.comReturn c data MsgError.MSG_OK)

/-- Source `Stepper::returnToHome`. -/
def Stepper.returnToHome (c : Consts) (s : Stepper) (data : Frame) (home port : Bool) :
    Stepper × Reply :=
  if data.axis < 0 ∨ data.axis > 2 then
    (s, Stepper.comReturn c data MsgError.MSG_ERROR_INVALID_AXIS)
  else if !(home == false && port == false) then
    let s1 := { s with setMotorSelect := data.axis }
    let s2 := s1.setStepperDirection s1.setMotorSelect 1
    let s3 := s2.switchRunMotor data.axis
    if !s3.flowConfigured then
      (s3.setStepperDirection s3.setMotorSelect 0,
        Stepper.comReturn c data MsgError.MSG_ERROR_FLOW_NOT_CONFIGURED)
    else
      let s4 := s3.setBoardState BoardState.PUMP_RUNNING
      let s5 := { s4 with flag := HomingMode.HOME }
      let s6 := { s5 with positionSignal := true }
      ({ s6 with tickerStepper := some (TickerCallback.detectFallingEdge, 100) },
        Stepper.comReturn c data MsgError.MSG_OK)
  else
    (s, Stepper.comReturn c data MsgError.MSG_OK)

/-- Source `Stepper::runToNext`. -/
def Stepper.runToNext (c : Consts) (s : Stepper) (data : Frame) (_home port : Bool) :
    Stepper × Reply :=
  if data.axis < 0 ∨ data.axis > 2 then
    (s, Stepper.comReturn c data MsgError.MSG_ERROR_INVALID_AXIS)
  else
    let s1 := s.switchRunMotor data.axis
    if !s1.flowConfigured then
      (s1, Stepper.comReturn c data MsgError.MSG_ERROR_FLOW_NOT_CONFIGURED)
    else
      let s2 := { s1 with setMotorSelect := data.axis }
      let s3 := s2.setBoardState BoardState.PUMP_RUNNING
      let s4 := { s3 with flag := HomingMode.PORT }
      let s5 := { s4 with positionSignal := port }
      ({ s5 with tickerStepper := some (TickerCallback.detectFallingEdge, 100) },
        Stepper.comReturn c data MsgError.MSG_OK)

/-- Source `Stepper::runToPrevious`. -/
def Stepper.runToPrevious (c : Consts) (s : Stepper) (data : Frame) (_home port : Bool) :
    Stepper × Reply :=
  if data.axis < 0 ∨ data.axis > 2 then
    (s, Stepper.comReturn c data MsgError.MSG_ERROR_INVALID_AXIS)
  else
    let s1 := { s with setMotorSelect := data.axis }
    let s2 := s1.setStepperDirection s1.setMotorSelect 1
    let s3 := s2.switchRunMotor data.axis
    if !s3.flowConfigured then
      (s3.setStepperDirection s3.setMotorSelect 0,
        Stepper.comReturn c data MsgError.MSG_ERROR_FLOW_NOT_CONFIGURED)
    else
      let s4 := s3.setBoardState BoardState.PUMP_RUNNING
      let s5 := { s4 with flag := HomingMode.PORT }
      let s6 := { s5 with positionSignal := port }
      ({ s6 with tickerStepper := some (TickerCallback.detectFallingEdge, 100) },
        Stepper.comReturn c data MsgError.MSG_OK)

/-- Source `Stepper::detectFallingEdge`, the callback of the homing poll. `home`
and `port` are the levels the two `read()` calls of the edge test return
(lines 313 and 317), `port2` the level the second `_port.read()` of the PORT
branch returns (line 319). -/
def Stepper.detectFallingEdge (s : Stepper) (home port port2 : Bool) : Stepper :=
  let edgeDetected : Bool :=
    match s.flag with
    | HomingMode.HOME => home == false && port == false
    | HomingMode.PORT => s.positionSignal == true && port == false
  let s1 : Stepper :=
    match s.flag with
    | HomingMode.HOME => s
    | HomingMode.PORT => { s with positionSignal := port2 }
  let s2 := s1.getAxisState s1.setMotorSelect
  let s3 := if s2.axisState ≠ AXIS_RUNNING then { s2 with tickerStepper := none } else s2
  if edgeDetected then
    let s4 := { s3 with tickerStepper := none }
    let s5 := s4.switchStopMotor s4.setMotorSelect
    if s5.allAxesIdle then s5.setBoardState BoardState.IDLE else s5
  else s3

/-- Source `Stepper::runStepper` with the homing poll firing inside
`AxisX.runMotor()` (line 132) between its `attach` and its
`setAxisState(RUNNING)`: the statements of the handler and of `runMotor` in
their order, the callback in between. `runMotor` reaches its `attach` when the
frame selects axis X and the generator of X is configured and IDLE; for every
other input the handler runs as `runStepper`. -/
def Stepper.runStepperXPreempted (c : Consts) (s : Stepper) (data : Frame)
    (home port port2 : Bool) : Stepper × Reply :=
  if data.axis = AXIS_X ∧ s.AxisX.flowConfigured = true ∧
      s.AxisX.axisState = AxisState.IDLE then
    let s1 := { s with AxisX := s.AxisX.runMotorAttach }
    let s2 := s1.detectFallingEdge home port port2
    let s3 :=
      { s2 with flowConfigured := true, AxisX := s2.AxisX.setAxisState AxisState.RUNNING }
    let s4 := s3.setBoardState BoardState.PUMP_RUNNING
    ({ s4 with axisStarted := true }, Stepper.comReturn c data MsgError.MSG_OK)
  else Stepper.runStepper c s data home port

/-- Source `Stepper::runStepper` with the homing poll firing between the `switch`
that runs the generator (lines 130 to 140) and the test of `_flowConfigured`
that follows it: the statements of the handler in their order, the callback
in between. -/
def Stepper.runStepperPollAfterRun (c : Consts) (s : Stepper) (data : Frame)
    (home port port2 : Bool) : Stepper × Reply :=
  if data.axis < 0 ∨ data.axis > 2 then
    ({ s with axisStarted := false }, Stepper.comReturn c data MsgError.MSG_ERROR_INVALID_AXIS)
  else
    let s1 := (s.switchRunMotor data.axis).detectFallingEdge home port port2
    if !s1.flowConfigured then
      ({ s1 with axisStarted := false },
        Stepper.comReturn c data MsgError.MSG_ERROR_FLOW_NOT_CONFIGURED)
    else
      let s2 := s1.setBoardState BoardState.PUMP_RUNNING
      ({ s2 with axisStarted := true }, Stepper.comReturn c data MsgError.MSG_OK)

/-- Source `Stepper::getSysInfo`: the static reply structure keeps the
zero-initialised error field. -/
def Stepper.getSysInfo (c : Consts) (s : Stepper) (_data : Frame) (_home _port : Bool) :
    Stepper × Reply :=
  (s, Reply.sysInfo
    { packetLength := c.sizeofSystemInfo, fid := FID_GET_SYS_INFO, error := MsgError.MSG_OK })

/-! ## src/Stepper.cpp: dispatch and main loop -/

/-- Type `messageHandlerFunc` of a handler, applied to the constants, the
controller, the receive buffer and the two sensor levels. -/
abbrev MessageHandlerFunc : Type :=
  Consts → Stepper → Frame → Bool → Bool → Stepper × Reply

/-- Table row `ComMessage`; an absent `replyFunc` is a null function pointer. -/
structure ComMessage where
  fid : Nat
  replyFunc : Option MessageHandlerFunc

/-- Table `Stepper::comMessages`. -/
def comMessages : List ComMessage :=
  [ { fid := FID_GET_STATUS, replyFunc := some Stepper.getStatus },
    { fid := FID_RUN_STEPPER, replyFunc := some Stepper.runStepper },
    { fid := FID_STOP_STEPPER, replyFunc := some Stepper.stopStepper },
    { fid := FID_RETURN_HOME, replyFunc := some Stepper.returnToHome },
    { fid := FID_RUN_TO_NEXT, replyFunc := some Stepper.runToNext },
    { fid := FID_RUN_TO_PREVIOUS, replyFunc := some Stepper.runToPrevious },
    { fid := FID_GET_SYS_INFO, replyFunc := some Stepper.getSysInfo },
    { fid := FID_SET_CONFIG, replyFunc := some Stepper.setMotorConfig } ]

/-- Source `Stepper::getComFromHeader` over a table: `_fidCount` is the number
of rows, and `none` is the null pointer. -/
def Stepper.getComFromHeader (table : List ComMessage) (header : MessageHeader) :
    Option ComMessage :=
  if header.fid ≥ table.length then none else table.get? header.fid

/-- The dispatch of `Stepper::run` over a table: the body of the inner loop
once a frame has been received. -/
def Stepper.dispatchTable (table : List ComMessage) (c : Consts) (s : Stepper) (data : Frame)
    (home port : Bool) : Stepper × Reply :=
  match Stepper.getComFromHeader table data.header with
  | some comMessage =>
      match comMessage.replyFunc with
      | some replyFunc => replyFunc c s data home port
      | none => (s, Stepper.comReturn c data MsgError.MSG_ERROR_NOT_SUPPORTED)
  | none => (s, Stepper.comReturn c data MsgError.MSG_ERROR_NOT_SUPPORTED)

/-- The dispatch of `Stepper::run` with the table `comMessages`. -/
def Stepper.dispatch (c : Consts) (s : Stepper) (data : Frame) (home port : Bool) :
    Stepper × Reply :=
  Stepper.dispatchTable comMessages c s data home port

/-- Axis selector of a step-timer event. -/
inductive AxisId where
  | X
  | Y
  | Z
deriving DecidableEq, Repr

/-- Where the main loop of `Stepper::run` is blocked: in `accept` or in `recv`. -/
inductive Phase where
  | accepting
  | connected
deriving DecidableEq, Repr

/-- The controller together with the control point of `Stepper::run`. -/
structure Sys where
  stepper : Stepper
  phase : Phase
deriving DecidableEq

/-- What can happen next: a client is accepted, a frame arrives (with the sensor
levels seen while it is handled), the client disconnects, the step ticker of
an axis fires, or the ticker of the controller fires (with the levels its
callback reads: the home pin, the port pin, and the port pin read a second
time). -/
inductive Event where
  | accept
  | frame (data : Frame) (home port : Bool)
  | disconnect
  | stepTick (axis : AxisId)
  | stepperTick (home port port2 : Bool)
deriving DecidableEq

/-- State of `Stepper::run` when it first blocks in `accept`: the constructor,
`setBoardState(WAIT_FOR_CONNECTION)` before `initEthernet` and once more at the
top of the outer loop. -/
def Stepper.boot : Sys :=
  { stepper :=
      (Stepper.new.setBoardState BoardState.WAIT_FOR_CONNECTION).setBoardState
        BoardState.WAIT_FOR_CONNECTION
    phase := Phase.accepting }

/-- The step ticker of one axis fires: enabled only while it is attached. -/
def Stepper.stepTick (s : Stepper) (axis : AxisId) : Option Stepper :=
  match axis with
  | AxisId.X =>
      if s.AxisX.tickerMotor.isSome then some { s with AxisX := s.AxisX.flipStepPin } else none
  | AxisId.Y =>
      if s.AxisY.tickerMotor.isSome then some { s with AxisY := s.AxisY.flipStepPin } else none
  | AxisId.Z =>
      if s.AxisZ.tickerMotor.isSome then some { s with AxisZ := s.AxisZ.flipStepPin } else none

/-- The ticker `_tickerStepper` fires: enabled only while it is attached, and
runs the callback it is attached to. -/
def Stepper.stepperTick (s : Stepper) (home port port2 : Bool) : Option Stepper :=
  match s.tickerStepper with
  | some (TickerCallback.flipRedLED, _) => some s.flipRedLED
  | some (TickerCallback.detectFallingEdge, _) => some (s.detectFallingEdge home port port2)
  | none => none

/-- One step of `Stepper::run` interleaved with the timer callbacks, each handler
and each callback running to its end before the next event; `none` when the
event cannot happen in the state. -/
def Stepper.runStep (c : Consts) (y : Sys) (e : Event) : Option Sys :=
  match e with
  | Event.accept =>
      match y.phase with
      | Phase.accepting =>
          some { stepper := y.stepper.setBoardState BoardState.IDLE, phase := Phase.connected }
      | Phase.connected => none
  | Event.frame data home port =>
      match y.phase with
      | Phase.connected =>
          some { y with stepper := (Stepper.dispatch c y.stepper data home port).1 }
      | Phase.accepting => none
  | Event.disconnect =>
      match y.phase with
      | Phase.connected =>
          some
            { stepper :=
                (y.stepper.setBoardState BoardState.WAIT_FOR_CONNECTION).setBoardState
                  BoardState.WAIT_FOR_CONNECTION
              phase := Phase.accepting }
      | Phase.accepting => none
  | Event.stepTick axis => (Stepper.stepTick y.stepper axis).map (fun s => { y with stepper := s })
  | Event.stepperTick home port port2 =>
      (Stepper.stepperTick y.stepper home port port2).map (fun s => { y with stepper := s })

/-- Source `Stepper::run` as a run over a list of events from a given state. -/
def Stepper.runFrom (c : Consts) : Sys → List Event → Option Sys
  | y, [] => some y
  | y, e :: es =>
      match Stepper.runStep c y e with
      | some y1 => Stepper.runFrom c y1 es
      | none => none

/-- Source `Stepper::run`: the states the controller reaches from startup. -/
def Stepper.run (c : Consts) (es : List Event) : Option Sys :=
  Stepper.runFrom c Stepper.boot es

/-- A controller state is reachable when some run from startup ends in it: a
run in which no timer callback preempts a handler. -/
def Reachable (c : Consts) (y : Sys) : Prop :=
  ∃ es, Stepper.run c es = some y

/-- States of one generator reachable through its constructor, `setFlowConfig`,
`setMotorDirection`, `runMotor`, `stopMotor` and the callback of its attached
ticker, each operation running to its end before the next one starts. -/
inductive GenReachable : MotorController → Prop where
  | new : GenReachable MotorController.new
  | setFlowConfig (m : MotorController) (p : CFloat) :
      GenReachable m → GenReachable (m.setFlowConfig p)
  | setMotorDirection (m : MotorController) (d : Int) :
      GenReachable m → GenReachable (m.setMotorDirection d)
  | runMotor (m : MotorController) : GenReachable m → GenReachable m.runMotor.2
  | stopMotor (m : MotorController) : GenReachable m → GenReachable m.stopMotor
  | flipStepPin (m : MotorController) :
      GenReachable m → m.tickerMotor.isSome = true → GenReachable m.flipStepPin

/-- Wire value of an axis selector. -/
def AxisId.code : AxisId → Int
  | AxisId.X => AXIS_X
  | AxisId.Y => AXIS_Y
  | AxisId.Z => AXIS_Z

/-- The generator global that an axis selector names. -/
def Stepper.axis (s : Stepper) : AxisId → MotorController
  | AxisId.X => s.AxisX
  | AxisId.Y => s.AxisY
  | AxisId.Z => s.AxisZ

/-- At least one of the three generators is RUNNING. -/
def Stepper.anyAxisRunning (s : Stepper) : Prop :=
  s.AxisX.axisState = AxisState.RUNNING ∨
  s.AxisY.axisState = AxisState.RUNNING ∨
  s.AxisZ.axisState = AxisState.RUNNING

/-- The motion states of the three generators. -/
def Stepper.axisStates (s : Stepper) : AxisState × AxisState × AxisState :=
  (s.AxisX.axisState, s.AxisY.axisState, s.AxisZ.axisState)

/-- A request frame with the given identifier, axis and period. -/
def mkFrame (fid : Nat) (axis : Int) (stepPeriod : CFloat) : Frame :=
  { header := { packetLength := 0, fid := fid, error := MsgError.MSG_OK }
    axis := axis
    stepPeriod := stepPeriod }

/-- Neither a motion state nor the board state changes. -/
def Neutral (s s1 : Stepper) : Prop :=
  s1.axisStates = s.axisStates ∧ s1.boardState = s.boardState

/-- An axis was started (or found running): the board is PUMP_RUNNING, some axis
is RUNNING and every axis that was RUNNING still is. -/
def Started (s s1 : Stepper) : Prop :=
  s1.boardState = BoardState.PUMP_RUNNING ∧ s1.anyAxisRunning ∧
  (s.AxisX.axisState = AxisState.RUNNING → s1.AxisX.axisState = AxisState.RUNNING) ∧
  (s.AxisY.axisState = AxisState.RUNNING → s1.AxisY.axisState = AxisState.RUNNING) ∧
  (s.AxisZ.axisState = AxisState.RUNNING → s1.AxisZ.axisState = AxisState.RUNNING)

/-- An axis was stopped: no axis was started, the board is IDLE when all
three axes are IDLE afterwards and unchanged otherwise. -/
def Stopped (s s1 : Stepper) : Prop :=
  (s1.AxisX.axisState = AxisState.RUNNING → s.AxisX.axisState = AxisState.RUNNING) ∧
  (s1.AxisY.axisState = AxisState.RUNNING → s.AxisY.axisState = AxisState.RUNNING) ∧
  (s1.AxisZ.axisState = AxisState.RUNNING → s.AxisZ.axisState = AxisState.RUNNING) ∧
  (s1.allAxesIdle = true → s1.boardState = BoardState.IDLE) ∧
  (s1.allAxesIdle = false → s1.boardState = s.boardState)

/-- All three generators are in states their own operations can reach. -/
def AxesReachable (s : Stepper) : Prop :=
  GenReachable s.AxisX ∧ GenReachable s.AxisY ∧ GenReachable s.AxisZ

/-- Sample values for the constants of the absent headers, used to run the
model on concrete inputs. -/
def demoConsts : Consts :=
  { msgHeaderLength := 4
    sizeofSystemStatus := 20
    sizeofSystemInfo := 68
    STEPS_PER_ML := 200 }

/-- A generator that has been configured with the period `0.01f` and is running
with its ticker attached at 5 ms, three pulses into the run with the line high. -/
def demoRunningAxis : MotorController :=
  { step := true
    dir := false
    flowConfigured := true
    stepPeriod := CFloat.val f32_0_01
    axisState := AxisState.RUNNING
    stepsPerformed := 3
    tickerMotor := some (some 5) }

/-- A controller whose board is PUMP_RUNNING, with axis X running at a period of
`0.01f` after 1100 steps and axis Y configured with `0.01f`, idle after 1000 steps. -/
def demoPumpingStepper : Stepper :=
  { Stepper.new with
    AxisX := { demoRunningAxis with stepsPerformed := 1100 }
    AxisY :=
      { MotorController.new with
        flowConfigured := true
        stepPeriod := CFloat.val f32_0_01
        stepsPerformed := 1000 }
    boardState := BoardState.PUMP_RUNNING }

/-- The state of the main loop once the first client has been accepted. -/
def demoConnected : Sys :=
  { stepper := Stepper.boot.stepper.setBoardState BoardState.IDLE
    phase := Phase.connected }

/-- Invariant of every reachable state: a PUMP_RUNNING board has a RUNNING
axis, and while the main loop waits in `accept` the board is
WAIT_FOR_CONNECTION with the indicator blink attached. -/
def BoardInv (y : Sys) : Prop :=
  (y.stepper.boardState = BoardState.PUMP_RUNNING → y.stepper.anyAxisRunning) ∧
  (y.phase = Phase.accepting →
    y.stepper.boardState = BoardState.WAIT_FOR_CONNECTION ∧
    y.stepper.tickerStepper = some (TickerCallback.flipRedLED, 500))

/-- What every step other than a disconnect with an axis RUNNING keeps: a RUNNING
axis means a connected client and a PUMP_RUNNING board. -/
def RunningInv (y : Sys) : Prop :=
  y.stepper.anyAxisRunning →
    y.stepper.boardState = BoardState.PUMP_RUNNING ∧ y.phase = Phase.connected

/-- Whether, along the run of the events from the state, the all-idle test of the
source holds in every state in which the client disconnects. -/
def Stepper.quietDisconnects (c : Consts) : Sys → List Event → Bool
  | _, [] => true
  | y, e :: es =>
      (match e with
        | Event.disconnect => y.stepper.allAxesIdle
        | _ => true) &&
        match Stepper.runStep c y e with
        | some y1 => Stepper.quietDisconnects c y1 es
        | none => true

/-- A run that accepts a client, configures axis X with `0.01f` and starts it. -/
def demoRunTrace : List Event :=
  [ Event.accept,
    Event.frame (mkFrame FID_SET_CONFIG 0 (CFloat.val f32_0_01)) true true,
    Event.frame (mkFrame FID_RUN_STEPPER 0 (CFloat.val 0)) true true ]

/-- A run in which a client connects and disconnects with every axis idle, and a
second client then configures axis X with `0.01f` and starts it. -/
def demoReconnectTrace : List Event :=
  [Event.accept, Event.disconnect] ++ demoRunTrace

/-- The run `demoRunTrace` followed by the client disconnecting. -/
def demoDisconnectTrace : List Event :=
  demoRunTrace ++ [Event.disconnect]

/-- The run `demoRunTrace` followed by two step callbacks on X and STOP(X). -/
def demoStopTrace : List Event :=
  demoRunTrace ++
    [ Event.stepTick AxisId.X, Event.stepTick AxisId.X,
      Event.frame (mkFrame FID_STOP_STEPPER 0 (CFloat.val 0)) true true ]

/-- What a handler other than `setMotorConfig` may do to the configuration of a
generator: the configured flag and the period stay, and the direction stays, is
reset to forward, or belongs to a configured generator. -/
def AxisKeep (m m1 : MotorController) : Prop :=
  m1.flowConfigured = m.flowConfigured ∧ m1.stepPeriod = m.stepPeriod ∧
  (m1.dir = m.dir ∨ m1.dir = false ∨ m1.flowConfigured = true)

/-- The relation `AxisKeep` on all three generators. -/
def AxesKeep (s s1 : Stepper) : Prop :=
  AxisKeep s.AxisX s1.AxisX ∧ AxisKeep s.AxisY s1.AxisY ∧ AxisKeep s.AxisZ s1.AxisZ

/-- Invariant of a generator inside the controller: an unconfigured generator
points forward, and a configured one holds a period that passed the guard of
`setMotorConfig`, that is NaN or a finite value above `0.0027f` and at most
`0.27f`. -/
def AxisCfgInv (m : MotorController) : Prop :=
  (m.flowConfigured = false → m.dir = false) ∧
  (m.flowConfigured = true →
    m.stepPeriod = CFloat.nan ∨
    ∃ p : ℚ, m.stepPeriod = CFloat.val p ∧ f32_0_0027 < p ∧ p ≤ f32_0_27)

/-- The invariant `AxisCfgInv` on all three generators. -/
def AxesCfgInv (s : Stepper) : Prop :=
  AxisCfgInv s.AxisX ∧ AxisCfgInv s.AxisY ∧ AxisCfgInv s.AxisZ

/-- A run that accepts a client, configures axis X with `0.01f` and sends
RUN_TO_NEXT(X) while both sensors read high. -/
def demoHomingTrace : List Event :=
  [ Event.accept,
    Event.frame (mkFrame FID_SET_CONFIG 0 (CFloat.val f32_0_01)) true true,
    Event.frame (mkFrame FID_RUN_TO_NEXT 0 (CFloat.val 0)) true true ]

/-- A run that accepts a client, configures axis X with `0.01f` and sends
RETURN_HOME(X) while both sensors read high. -/
def demoHomeTrace : List Event :=
  [ Event.accept,
    Event.frame (mkFrame FID_SET_CONFIG 0 (CFloat.val f32_0_01)) true true,
    Event.frame (mkFrame FID_RETURN_HOME 0 (CFloat.val 0)) true true ]

/-- A run that accepts a client, configures axes X and Y with `0.01f`, starts Y,
sends RETURN_HOME(X) while both sensors read high and then STOP(X). -/
def demoRaceTrace : List Event :=
  [ Event.accept,
    Event.frame (mkFrame FID_SET_CONFIG 0 (CFloat.val f32_0_01)) true true,
    Event.frame (mkFrame FID_SET_CONFIG 1 (CFloat.val f32_0_01)) true true,
    Event.frame (mkFrame FID_RUN_STEPPER 1 (CFloat.val 0)) true true,
    Event.frame (mkFrame FID_RETURN_HOME 0 (CFloat.val 0)) true true,
    Event.frame (mkFrame FID_STOP_STEPPER 0 (CFloat.val 0)) true true ]

/-- A controller with a homing session in mode HOME on axis X, which runs in
reverse, while axis Y is configured and idle. -/
def demoHomeSession : Stepper :=
  { demoPumpingStepper with
    AxisX := { demoRunningAxis with dir := true }
    flag := HomingMode.HOME
    positionSignal := true
    setMotorSelect := 0
    tickerStepper := some (TickerCallback.detectFallingEdge, 100) }

/-! ## Theorems: binary32 arithmetic -/

/-- Rounding to the nearest integer moves a value by at most one half. -/
theorem roundHalfEven_abs_sub_le (x : ℚ) : |(roundHalfEven x : ℚ) - x| ≤ 1 / 2 := by
  have h1 := Int.floor_le x
  have h2 := Int.lt_floor_add_one x
  unfold roundHalfEven
  split_ifs with a b c
  · rw [abs_le]; constructor <;> linarith
  · rw [abs_le]; push_cast; constructor <;> linarith
  · rw [abs_le]; constructor <;> linarith
  · rw [abs_le]; push_cast; constructor <;> linarith

/-- An integer nearer than one half to a value is what the value rounds to. -/
theorem roundHalfEven_eq (x : ℚ) (n : ℤ) (h : |x - n| < 1 / 2) : roundHalfEven x = n := by
  rw [abs_lt] at h
  obtain ⟨h1, h2⟩ := h
  have hf := Int.floor_le x
  have hl := Int.lt_floor_add_one x
  have hcases : ⌊x⌋ = n ∨ ⌊x⌋ = n - 1 := by
    have a1 : n - 1 ≤ ⌊x⌋ := by
      rw [Int.le_floor]; push_cast; linarith
    have a2 : ⌊x⌋ < n + 1 := by
      rw [Int.floor_lt]; push_cast; linarith
    omega
  unfold roundHalfEven
  rcases hcases with hc | hc
  · have : x - ⌊x⌋ < 1 / 2 := by rw [hc]; linarith
    rw [if_pos this, hc]
  · have e : ((⌊x⌋ : ℤ) : ℚ) = (n : ℚ) - 1 := by rw [hc]; push_cast; ring
    have a : ¬ (x - ⌊x⌋ < 1 / 2) := by rw [e]; linarith
    have b : 1 / 2 < x - ⌊x⌋ := by rw [e]; linarith
    rw [if_neg a, if_pos b, hc]; ring

/-- The binary exponent of a value between two consecutive powers of two. -/
theorem f32Exponent_eq (x : ℚ) (e : ℤ) (hmin : -126 ≤ e) (h1 : (2 : ℚ) ^ e ≤ |x|)
    (h2 : |x| < (2 : ℚ) ^ (e + 1)) : f32Exponent x = e := by
  have hpos : (0 : ℚ) < |x| := lt_of_lt_of_le (by positivity) h1
  have a1 : e ≤ Int.log 2 |x| := by
    rw [← Int.zpow_le_iff_le_log (by norm_num) hpos]
    exact_mod_cast h1
  have a2 : Int.log 2 |x| < e + 1 := by
    rw [← Int.lt_zpow_iff_log_lt (by norm_num) hpos]
    exact_mod_cast h2
  unfold f32Exponent
  omega

/-- The binary32 rounding of a value whose exponent and nearest significand are given. -/
theorem f32Round_eq (x : ℚ) (e n : ℤ) (hmin : -126 ≤ e) (h1 : (2 : ℚ) ^ e ≤ |x|)
    (h2 : |x| < (2 : ℚ) ^ (e + 1)) (hn : |x / (2 : ℚ) ^ (e - 23) - n| < 1 / 2)
    (hfin : |(n : ℚ) * (2 : ℚ) ^ (e - 23)| < (2 : ℚ) ^ (128 : ℤ)) :
    f32Round x = CFloat.val ((n : ℚ) * (2 : ℚ) ^ (e - 23)) := by
  unfold f32Round
  simp only [f32Exponent_eq x e hmin h1 h2, roundHalfEven_eq _ n hn]
  rw [if_neg (not_le.mpr hfin)]

/-- In the normal range the binary32 rounding is a finite value within a relative
error of `2 ^ -24`. -/
theorem f32Round_error (x : ℚ) (hlo : (2 : ℚ) ^ (-126 : ℤ) ≤ |x|)
    (hhi : |x| ≤ (2 : ℚ) ^ (127 : ℤ)) :
    ∃ r : ℚ, f32Round x = CFloat.val r ∧ |r - x| ≤ |x| / 2 ^ 24 := by
  have hpos : (0 : ℚ) < |x| := lt_of_lt_of_le (by positivity) hlo
  have hle : (2 : ℚ) ^ (Int.log 2 |x|) ≤ |x| := by
    have := Int.zpow_log_le_self (b := 2) (by norm_num) hpos
    exact_mod_cast this
  have hmin : -126 ≤ Int.log 2 |x| := by
    rw [← Int.zpow_le_iff_le_log (by norm_num) hpos]
    exact_mod_cast hlo
  have hexp : f32Exponent x = Int.log 2 |x| := by
    unfold f32Exponent
    omega
  set e := Int.log 2 |x| with he
  have hupos : (0 : ℚ) < (2 : ℚ) ^ (e - 23) := by positivity
  have hu : (2 : ℚ) ^ (e - 23) = (2 : ℚ) ^ e / 2 ^ 23 := by
    rw [zpow_sub₀ (by norm_num)]
    norm_num
  have hr := roundHalfEven_abs_sub_le (x / (2 : ℚ) ^ (e - 23))
  have herr : |(roundHalfEven (x / (2 : ℚ) ^ (e - 23)) : ℚ) * (2 : ℚ) ^ (e - 23) - x| ≤
      |x| / 2 ^ 24 := by
    have e1 : (roundHalfEven (x / (2 : ℚ) ^ (e - 23)) : ℚ) * (2 : ℚ) ^ (e - 23) - x =
        ((roundHalfEven (x / (2 : ℚ) ^ (e - 23)) : ℚ) - x / (2 : ℚ) ^ (e - 23)) *
          (2 : ℚ) ^ (e - 23) := by
      field_simp
    rw [e1, abs_mul, abs_of_pos hupos]
    calc |(roundHalfEven (x / (2 : ℚ) ^ (e - 23)) : ℚ) - x / (2 : ℚ) ^ (e - 23)| *
          (2 : ℚ) ^ (e - 23)
        ≤ 1 / 2 * (2 : ℚ) ^ (e - 23) := by
          exact mul_le_mul_of_nonneg_right hr (le_of_lt hupos)
      _ = (2 : ℚ) ^ e / 2 ^ 24 := by rw [hu]; ring
      _ ≤ |x| / 2 ^ 24 := by
          apply div_le_div_of_nonneg_right hle (by positivity)
  refine ⟨(roundHalfEven (x / (2 : ℚ) ^ (e - 23)) : ℚ) * (2 : ℚ) ^ (e - 23), ?_, herr⟩
  unfold f32Round
  simp only [hexp]
  rw [if_neg]
  rw [not_le]
  have h3 := abs_sub_abs_le_abs_sub
    ((roundHalfEven (x / (2 : ℚ) ^ (e - 23)) : ℚ) * (2 : ℚ) ^ (e - 23)) x
  have h4 : (2 : ℚ) ^ (127 : ℤ) + (2 : ℚ) ^ (127 : ℤ) / 2 ^ 24 < (2 : ℚ) ^ (128 : ℤ) := by
    norm_num
  have h5 : |x| / 2 ^ 24 ≤ (2 : ℚ) ^ (127 : ℤ) / 2 ^ 24 :=
    div_le_div_of_nonneg_right hhi (by positivity)
  linarith

/-- The ticker interval `runMotor` computes from the period `0.01f`: the product
rounds to `10.0f`, so the interval is 5 ms. -/
theorem interval_0_01 :
    CFloat.toInt (CFloat.div (CFloat.mul (CFloat.val f32_0_01) (CFloat.val 1000)) (CFloat.val 2)) =
      some 5 := by
  have h1 : CFloat.mul (CFloat.val f32_0_01) (CFloat.val 1000) = CFloat.val 10 := by
    have h := f32Round_eq (f32_0_01 * 1000) 3 10485760 (by norm_num)
      (by rw [abs_of_pos (by norm_num [f32_0_01, Rat.mkRat_eq_div])]; norm_num [f32_0_01, Rat.mkRat_eq_div])
      (by rw [abs_of_pos (by norm_num [f32_0_01, Rat.mkRat_eq_div])]; norm_num [f32_0_01, Rat.mkRat_eq_div])
      (by rw [abs_lt]; constructor <;> norm_num [f32_0_01, Rat.mkRat_eq_div])
      (by rw [abs_of_pos (by norm_num)]; norm_num)
    simp only [CFloat.mul]
    rw [h]
    norm_num
  have h2 : CFloat.div (CFloat.val 10) (CFloat.val 2) = CFloat.val 5 := by
    have h := f32Round_eq (10 / 2) 2 10485760 (by norm_num)
      (by rw [abs_of_pos (by norm_num)]; norm_num)
      (by rw [abs_of_pos (by norm_num)]; norm_num)
      (by rw [abs_lt]; constructor <;> norm_num)
      (by rw [abs_of_pos (by norm_num)]; norm_num)
    simp only [CFloat.div]
    rw [if_neg (by norm_num), h]
    norm_num
  rw [h1, h2]
  have : truncToInt 5 = 5 := by decide
  simp only [CFloat.toInt, this]
  decide

/-- Truncation toward zero of a nonnegative real is its floor. -/
theorem truncToInt_eq_floor (q : ℚ) (h : 0 ≤ q) : truncToInt q = ⌊q⌋ := by
  unfold truncToInt
  rw [Rat.floor_def, Int.tdiv_eq_ediv (Rat.num_nonneg.mpr h) (Int.ofNat_nonneg _)]

/-- The binary32 constants as fractions. -/
theorem f32_literals :
    f32_0_0027 = (2899103 : ℚ) / 1073741824 ∧ f32_0_27 = (9059697 : ℚ) / 33554432 ∧
    f32_0_01 = (5368709 : ℚ) / 536870912 ∧ f32_0_005 = (5368709 : ℚ) / 1073741824 ∧
    f32_0_001 = (8589935 : ℚ) / 8589934592 := by
  refine ⟨?_, ?_, ?_, ?_, ?_⟩ <;>
    simp only [f32_0_0027, f32_0_27, f32_0_01, f32_0_005, f32_0_001, Rat.mkRat_eq_div] <;>
    norm_num

/-- The binary32 rounding of a value from 1 up, as two-sided bounds. -/
theorem f32Round_pos_bounds (x : ℚ) (hlo : (1 : ℚ) ≤ x) (hhi : x ≤ 2 ^ 100) :
    ∃ r : ℚ, f32Round x = CFloat.val r ∧ x * (1 - 1 / 2 ^ 24) ≤ r ∧ r ≤ x * (1 + 1 / 2 ^ 24) := by
  have hx : |x| = x := abs_of_pos (by linarith)
  obtain ⟨r, h1, h2⟩ := f32Round_error x
    (by rw [hx]; exact le_trans (by norm_num) hlo)
    (by rw [hx]; exact le_trans hhi (by norm_num))
  rw [hx, abs_le] at h2
  exact ⟨r, h1, by linarith [h2.1], by linarith [h2.2]⟩

/-- The ticker interval `runMotor` computes from a period that passed the guard of
`setMotorConfig`: the conversion is defined, the interval is between 1 and 135
and the float it truncates is within a relative `2 ^ -22` of `p * 500`. -/
theorem interval_in_range (p : ℚ) (hlo : f32_0_0027 < p) (hhi : p ≤ f32_0_27) :
    ∃ r : ℚ,
      CFloat.div (CFloat.mul (CFloat.val p) (CFloat.val 1000)) (CFloat.val 2) = CFloat.val r ∧
      p * 500 * (1 - 1 / 2 ^ 22) ≤ r ∧ r ≤ p * 500 * (1 + 1 / 2 ^ 22) ∧
      CFloat.toInt (CFloat.val r) = some ⌊r⌋ ∧ 1 ≤ ⌊r⌋ ∧ ⌊r⌋ ≤ 135 := by
  rw [f32_literals.1] at hlo
  rw [f32_literals.2.1] at hhi
  obtain ⟨r1, e1, l1, u1⟩ := f32Round_pos_bounds (p * 1000) (by linarith)
    (le_trans (by linarith) (by norm_num : (271 : ℚ) ≤ 2 ^ 100))
  have hr1lo : (2 : ℚ) ≤ r1 := by linarith
  have hr1hi : r1 ≤ 271 := by linarith
  obtain ⟨r2, e2, l2, u2⟩ := f32Round_pos_bounds (r1 / 2) (by linarith)
    (le_trans (by linarith) (by norm_num : (271 : ℚ) ≤ 2 ^ 100))
  have hlow : p * 500 * (1 - 1 / 2 ^ 22) ≤ r2 := by
    have a : p * 1000 * (1 - 1 / 2 ^ 24) / 2 * (1 - 1 / 2 ^ 24) ≤ r2 := by
      refine le_trans ?_ l2
      apply mul_le_mul_of_nonneg_right _ (by norm_num)
      linarith
    have b : p * 500 * (1 - 1 / 2 ^ 22) ≤ p * 1000 * (1 - 1 / 2 ^ 24) / 2 * (1 - 1 / 2 ^ 24) := by
      have : p * 1000 * (1 - 1 / 2 ^ 24) / 2 * (1 - 1 / 2 ^ 24) =
          p * 500 * ((1 - 1 / 2 ^ 24) * (1 - 1 / 2 ^ 24)) := by ring
      rw [this]
      apply mul_le_mul_of_nonneg_left (by norm_num) (by linarith)
    linarith
  have hupp : r2 ≤ p * 500 * (1 + 1 / 2 ^ 22) := by
    have a : r2 ≤ p * 1000 * (1 + 1 / 2 ^ 24) / 2 * (1 + 1 / 2 ^ 24) := by
      refine le_trans u2 ?_
      apply mul_le_mul_of_nonneg_right _ (by norm_num)
      linarith
    have b : p * 1000 * (1 + 1 / 2 ^ 24) / 2 * (1 + 1 / 2 ^ 24) ≤ p * 500 * (1 + 1 / 2 ^ 22) := by
      have : p * 1000 * (1 + 1 / 2 ^ 24) / 2 * (1 + 1 / 2 ^ 24) =
          p * 500 * ((1 + 1 / 2 ^ 24) * (1 + 1 / 2 ^ 24)) := by ring
      rw [this]
      apply mul_le_mul_of_nonneg_left (by norm_num) (by linarith)
    linarith
  have h1 : (1 : ℚ) ≤ r2 := by
    have : (1 : ℚ) ≤ 2899103 / 1073741824 * 500 * (1 - 1 / 2 ^ 22) := by norm_num
    have : (2899103 : ℚ) / 1073741824 * 500 * (1 - 1 / 2 ^ 22) ≤ p * 500 * (1 - 1 / 2 ^ 22) := by
      apply mul_le_mul_of_nonneg_right _ (by norm_num)
      linarith
    linarith
  have h136 : r2 < 136 := by
    have : (9059697 : ℚ) / 33554432 * 500 * (1 + 1 / 2 ^ 22) < 136 := by norm_num
    have : p * 500 * (1 + 1 / 2 ^ 22) ≤ (9059697 : ℚ) / 33554432 * 500 * (1 + 1 / 2 ^ 22) := by
      apply mul_le_mul_of_nonneg_right _ (by norm_num)
      linarith
    linarith
  have hf1 : 1 ≤ ⌊r2⌋ := by
    rw [Int.le_floor]; exact_mod_cast h1
  have hf2 : ⌊r2⌋ ≤ 135 := by
    have : ⌊r2⌋ < 136 := by
      rw [Int.floor_lt]; exact_mod_cast h136
    omega
  refine ⟨r2, ?_, hlow, hupp, ?_, hf1, hf2⟩
  · simp only [CFloat.mul, e1, CFloat.div]
    rw [if_neg (by norm_num), e2]
  · have ht : truncToInt r2 = ⌊r2⌋ := truncToInt_eq_floor r2 (by linarith)
    simp only [CFloat.toInt, ht]
    rw [if_pos]
    constructor <;> omega

/-- The binary32 constants are the roundings of the decimals they are written with. -/
theorem f32_literal_values :
    f32Round (27 / 10000) = CFloat.val f32_0_0027 ∧ f32Round (27 / 100) = CFloat.val f32_0_27 ∧
    f32Round (1 / 100) = CFloat.val f32_0_01 ∧ f32Round (5 / 1000) = CFloat.val f32_0_005 ∧
    f32Round (1 / 1000) = CFloat.val f32_0_001 := by
  refine ⟨?_, ?_, ?_, ?_, ?_⟩
  · rw [f32Round_eq (27 / 10000) (-9) 11596412 (by norm_num)
      (by rw [abs_of_pos (by norm_num)]; norm_num)
      (by rw [abs_of_pos (by norm_num)]; norm_num)
      (by rw [abs_lt]; constructor <;> norm_num)
      (by rw [abs_of_pos (by norm_num)]; norm_num), f32_literals.1]
    norm_num
  · rw [f32Round_eq (27 / 100) (-2) 9059697 (by norm_num)
      (by rw [abs_of_pos (by norm_num)]; norm_num)
      (by rw [abs_of_pos (by norm_num)]; norm_num)
      (by rw [abs_lt]; constructor <;> norm_num)
      (by rw [abs_of_pos (by norm_num)]; norm_num), f32_literals.2.1]
    norm_num
  · rw [f32Round_eq (1 / 100) (-7) 10737418 (by norm_num)
      (by rw [abs_of_pos (by norm_num)]; norm_num)
      (by rw [abs_of_pos (by norm_num)]; norm_num)
      (by rw [abs_lt]; constructor <;> norm_num)
      (by rw [abs_of_pos (by norm_num)]; norm_num), f32_literals.2.2.1]
    norm_num
  · rw [f32Round_eq (5 / 1000) (-8) 10737418 (by norm_num)
      (by rw [abs_of_pos (by norm_num)]; norm_num)
      (by rw [abs_of_pos (by norm_num)]; norm_num)
      (by rw [abs_lt]; constructor <;> norm_num)
      (by rw [abs_of_pos (by norm_num)]; norm_num), f32_literals.2.2.2.1]
    norm_num
  · rw [f32Round_eq (1 / 1000) (-10) 8589935 (by norm_num)
      (by rw [abs_of_pos (by norm_num)]; norm_num)
      (by rw [abs_of_pos (by norm_num)]; norm_num)
      (by rw [abs_lt]; constructor <;> norm_num)
      (by rw [abs_of_pos (by norm_num)]; norm_num), f32_literals.2.2.2.2]
    norm_num

/-- The ticker interval `runMotor` computes from the period `0.005f`: the product
rounds to `5.0f`, half of it is `2.5f`, so the interval is 2 ms. -/
theorem interval_0_005 :
    CFloat.toInt (CFloat.div (CFloat.mul (CFloat.val f32_0_005) (CFloat.val 1000)) (CFloat.val 2)) =
      some 2 := by
  have h1 : CFloat.mul (CFloat.val f32_0_005) (CFloat.val 1000) = CFloat.val 5 := by
    have h := f32Round_eq (f32_0_005 * 1000) 2 10485760 (by norm_num)
      (by rw [abs_of_pos (by norm_num [f32_0_005, Rat.mkRat_eq_div])]; norm_num [f32_0_005, Rat.mkRat_eq_div])
      (by rw [abs_of_pos (by norm_num [f32_0_005, Rat.mkRat_eq_div])]; norm_num [f32_0_005, Rat.mkRat_eq_div])
      (by rw [abs_lt]; constructor <;> norm_num [f32_0_005, Rat.mkRat_eq_div])
      (by rw [abs_of_pos (by norm_num)]; norm_num)
    simp only [CFloat.mul]
    rw [h]
    norm_num
  have h2 : CFloat.div (CFloat.val 5) (CFloat.val 2) = CFloat.val (5 / 2) := by
    have h := f32Round_eq (5 / 2) 1 10485760 (by norm_num)
      (by rw [abs_of_pos (by norm_num)]; norm_num)
      (by rw [abs_of_pos (by norm_num)]; norm_num)
      (by rw [abs_lt]; constructor <;> norm_num)
      (by rw [abs_of_pos (by norm_num)]; norm_num)
    simp only [CFloat.div]
    rw [if_neg (by norm_num), h]
    norm_num
  rw [h1, h2]
  have : truncToInt (5 / 2) = 2 := by
    rw [truncToInt_eq_floor _ (by norm_num), Int.floor_eq_iff]
    constructor <;> norm_num
  simp only [CFloat.toInt, this]
  decide

/-- The callback touches only the line level and the step count. -/
theorem flipStepPin_frame (m : MotorController) :
    m.flipStepPin.tickerMotor = m.tickerMotor ∧
    m.flipStepPin.axisState = m.axisState ∧
    m.flipStepPin.stepPeriod = m.stepPeriod ∧
    m.flipStepPin.flowConfigured = m.flowConfigured ∧
    m.flipStepPin.dir = m.dir := by
  cases h : m.step <;> simp [MotorController.flipStepPin, h]

/-- Outcome of `runMotor` on an unconfigured generator. -/
theorem runMotor_unconfigured (m : MotorController) (hc : m.flowConfigured = false) :
    m.runMotor = (false, m) := by
  simp [MotorController.runMotor, hc]

/-- Outcome of `runMotor` on a configured generator that is RUNNING. -/
theorem runMotor_running (m : MotorController) (hc : m.flowConfigured = true)
    (hr : m.axisState = AxisState.RUNNING) : m.runMotor = (true, m) := by
  simp [MotorController.runMotor, hc, hr]

/-- Outcome of `runMotor` on a configured generator that is IDLE. -/
theorem runMotor_idle (m : MotorController) (hc : m.flowConfigured = true)
    (hi : m.axisState = AxisState.IDLE) :
    m.runMotor.1 = true ∧
    m.runMotor.2.stepsPerformed = 0 ∧
    m.runMotor.2.tickerMotor =
      some (CFloat.toInt
        (CFloat.div (CFloat.mul m.stepPeriod (CFloat.val 1000)) (CFloat.val 2))) ∧
    m.runMotor.2.axisState = AxisState.RUNNING ∧
    m.runMotor.2.step = m.step ∧
    m.runMotor.2.dir = m.dir ∧
    m.runMotor.2.stepPeriod = m.stepPeriod ∧
    m.runMotor.2.flowConfigured = true := by
  simp [MotorController.runMotor, hc, hi, MotorController.setAxisState]

/-- A motion state is IDLE or RUNNING. -/
theorem axisState_cases (m : MotorController) :
    m.axisState = AxisState.IDLE ∨ m.axisState = AxisState.RUNNING := by
  cases m.axisState <;> simp

/-- The configuration a generator keeps through `runMotor`, and the flag it returns. -/
theorem runMotor_config (m : MotorController) :
    m.runMotor.1 = m.flowConfigured ∧
    m.runMotor.2.flowConfigured = m.flowConfigured ∧
    m.runMotor.2.stepPeriod = m.stepPeriod ∧
    m.runMotor.2.dir = m.dir := by
  cases hc : m.flowConfigured with
  | false =>
      rw [runMotor_unconfigured m hc]
      exact ⟨rfl, hc, rfl, rfl⟩
  | true =>
      rcases axisState_cases m with hs | hs
      · obtain ⟨r1, _, _, _, _, r6, r7, r8⟩ := runMotor_idle m hc hs
        exact ⟨r1, r8, r7, r6⟩
      · rw [runMotor_running m hc hs]
        exact ⟨rfl, hc, rfl, rfl⟩

/-- Invariant of one generator: while IDLE the ticker is detached and the line
is low, while RUNNING the ticker is attached and the generator is configured. -/
theorem gen_reachable_inv (m : MotorController) (h : GenReachable m) :
    (m.axisState = AxisState.IDLE → m.tickerMotor = none ∧ m.step = false) ∧
    (m.axisState = AxisState.RUNNING → m.tickerMotor.isSome = true ∧ m.flowConfigured = true) := by
  induction h with
  | new => simp [MotorController.new]
  | setFlowConfig m p _ ih =>
      obtain ⟨h1, h2⟩ := ih
      refine ⟨fun h => h1 h, fun h => ⟨(h2 h).1, rfl⟩⟩
  | setMotorDirection m d _ ih => exact ih
  | runMotor m _ ih =>
      obtain ⟨h1, h2⟩ := ih
      by_cases hc : m.flowConfigured = true
      · by_cases hs : m.axisState = AxisState.RUNNING
        · rw [runMotor_running m hc hs]
          exact ⟨h1, h2⟩
        · have hi : m.axisState = AxisState.IDLE := by
            cases hm : m.axisState with
            | IDLE => rfl
            | RUNNING => exact absurd hm hs
          have hr := runMotor_idle m hc hi
          constructor
          · intro h
            rw [hr.2.2.2.1] at h
            cases h
          · intro _
            refine ⟨?_, hr.2.2.2.2.2.2.2⟩
            rw [hr.2.2.1]
            rfl
      · have hc2 : m.flowConfigured = false := by simpa using hc
        rw [runMotor_unconfigured m hc2]
        exact ⟨h1, h2⟩
  | stopMotor m _ _ => simp [MotorController.stopMotor, MotorController.setAxisState]
  | flipStepPin m _ harmed ih =>
      obtain ⟨h1, h2⟩ := ih
      obtain ⟨htk, hst, _, hfc, _⟩ := flipStepPin_frame m
      rw [hst, htk, hfc]
      refine ⟨fun h => ?_, h2⟩
      have := (h1 h).1
      rw [this] at harmed
      simp at harmed

/-- C8: on a configured generator that is already RUNNING, `runMotor` returns
true and changes nothing: the step count (not reset to 0), the line level, the
period, the motion state and the attached ticker are all as before. -/
theorem C8_run_when_running_is_noop (m : MotorController)
    (hc : m.flowConfigured = true) (hr : m.axisState = AxisState.RUNNING) :
    m.runMotor.1 = true ∧ m.runMotor.2 = m ∧
    m.runMotor.2.stepsPerformed = m.stepsPerformed ∧
    m.runMotor.2.step = m.step ∧
    m.runMotor.2.stepPeriod = m.stepPeriod ∧
    m.runMotor.2.axisState = AxisState.RUNNING ∧
    m.runMotor.2.tickerMotor = m.tickerMotor := by
  have h : m.runMotor = (true, m) := by
    simp [MotorController.runMotor, hc, hr]
  rw [h]
  exact ⟨rfl, rfl, rfl, rfl, rfl, hr, rfl⟩

/-- Witness of C8 on a running generator three pulses into its run: the count
stays 3. -/
theorem C8_run_when_running_is_noop_witness :
    demoRunningAxis.runMotor.1 = true ∧ demoRunningAxis.runMotor.2 = demoRunningAxis ∧
    demoRunningAxis.runMotor.2.stepsPerformed = 3 :=
  ⟨(C8_run_when_running_is_noop demoRunningAxis rfl rfl).1,
    (C8_run_when_running_is_noop demoRunningAxis rfl rfl).2.1,
    (C8_run_when_running_is_noop demoRunningAxis rfl rfl).2.2.1⟩

/-- C9: from every generator state, `stopMotor` leaves the ticker detached, the
line low and the motion state IDLE, and stopping twice is the same as stopping
once. -/
theorem C9_stop_disarms_and_is_idempotent (m : MotorController) :
    m.stopMotor.tickerMotor = none ∧
    m.stopMotor.step = false ∧
    m.stopMotor.axisState = AxisState.IDLE ∧
    m.stopMotor.stopMotor = m.stopMotor := by
  simp [MotorController.stopMotor, MotorController.setAxisState]

/-- Dispatch of each supported identifier runs the handler of its table row. -/
theorem dispatch_supported (c : Consts) (s : Stepper) (data : Frame) (home port : Bool) :
    (data.header.fid = FID_GET_STATUS →
      Stepper.dispatch c s data home port = Stepper.getStatus c s data home port) ∧
    (data.header.fid = FID_RUN_STEPPER →
      Stepper.dispatch c s data home port = Stepper.runStepper c s data home port) ∧
    (data.header.fid = FID_STOP_STEPPER →
      Stepper.dispatch c s data home port = Stepper.stopStepper c s data home port) ∧
    (data.header.fid = FID_RETURN_HOME →
      Stepper.dispatch c s data home port = Stepper.returnToHome c s data home port) ∧
    (data.header.fid = FID_RUN_TO_NEXT →
      Stepper.dispatch c s data home port = Stepper.runToNext c s data home port) ∧
    (data.header.fid = FID_RUN_TO_PREVIOUS →
      Stepper.dispatch c s data home port = Stepper.runToPrevious c s data home port) ∧
    (data.header.fid = FID_GET_SYS_INFO →
      Stepper.dispatch c s data home port = Stepper.getSysInfo c s data home port) ∧
    (data.header.fid = FID_SET_CONFIG →
      Stepper.dispatch c s data home port = Stepper.setMotorConfig c s data home port) := by
  refine ⟨?_, ?_, ?_, ?_, ?_, ?_, ?_, ?_⟩ <;> intro h <;>
    simp [Stepper.dispatch, Stepper.dispatchTable, Stepper.getComFromHeader, comMessages, h,
      FID_GET_STATUS, FID_RUN_STEPPER, FID_STOP_STEPPER, FID_RETURN_HOME, FID_RUN_TO_NEXT,
      FID_RUN_TO_PREVIOUS, FID_GET_SYS_INFO, FID_SET_CONFIG]

/-- Dispatch of an identifier beyond the table replies NOT_SUPPORTED and keeps the state. -/
theorem dispatch_unsupported (c : Consts) (s : Stepper) (data : Frame) (home port : Bool)
    (h : 8 ≤ data.header.fid) :
    Stepper.dispatch c s data home port =
      (s, Stepper.comReturn c data MsgError.MSG_ERROR_NOT_SUPPORTED) := by
  have : comMessages.length = 8 := rfl
  simp [Stepper.dispatch, Stepper.dispatchTable, Stepper.getComFromHeader, this, h]

/-- The two period literals lie just above the decimals they are written with. -/
theorem period_bounds : (27 : ℚ) / 10000 < f32_0_0027 ∧ (27 : ℚ) / 100 < f32_0_27 := by
  rw [f32_literals.1, f32_literals.2.1]
  constructor <;> norm_num

/-- The period guard of `setMotorConfig`: NaN passes it, an infinity is rejected,
and a finite period is rejected exactly when it is at most `0.0027f` or above
`0.27f`. -/
theorem setMotorConfig_guard (x : CFloat) :
    (x = CFloat.nan →
      (CFloat.le x (CFloat.val f32_0_0027) || CFloat.gt x (CFloat.val f32_0_27)) = false) ∧
    (∀ neg : Bool, x = CFloat.inf neg →
      (CFloat.le x (CFloat.val f32_0_0027) || CFloat.gt x (CFloat.val f32_0_27)) = true) ∧
    (∀ p : ℚ, x = CFloat.val p →
      ((CFloat.le x (CFloat.val f32_0_0027) || CFloat.gt x (CFloat.val f32_0_27)) = true ↔
        (p ≤ f32_0_0027 ∨ f32_0_27 < p))) := by
  refine ⟨?_, ?_, ?_⟩
  · intro h
    subst h
    rfl
  · intro neg h
    subst h
    cases neg <;> rfl
  · intro p h
    subst h
    simp only [CFloat.le, CFloat.gt, Bool.or_eq_true, decide_eq_true_eq, gt_iff_lt]

/-- C2 fails as stated: the period `0.27f`, the binary32 value 9059697/33554432 of
the literal the guard compares with, is above 0.27, and SET_CONFIG for axis X
with it is answered OK and stores it. -/
theorem C2_counterexample_upper_literal_accepted :
    (27 : ℚ) / 100 < f32_0_27 ∧
    (Stepper.dispatch demoConsts demoConnected.stepper
      (mkFrame FID_SET_CONFIG 0 (CFloat.val f32_0_27)) true true).2.hdr.error = MsgError.MSG_OK ∧
    (Stepper.dispatch demoConsts demoConnected.stepper
      (mkFrame FID_SET_CONFIG 0 (CFloat.val f32_0_27)) true true).1.AxisX.stepPeriod =
        CFloat.val f32_0_27 ∧
    (Stepper.dispatch demoConsts demoConnected.stepper
      (mkFrame FID_SET_CONFIG 0 (CFloat.val f32_0_27)) true true).1.AxisX.flowConfigured =
        true := by
  refine ⟨period_bounds.2, ?_, ?_, ?_⟩ <;> decide

/-- C2 as amended: for every period that is an infinity or a finite `p` with
`p ≤ 0.0027f` or `p > 0.27f`, the bounds being the binary32 values of the two
literals, and for every axis value, valid or not, SET_CONFIG replies
INVALID_PARAMETER (the period is checked before the axis) and leaves the
controller unchanged, in particular the stored period and the configured flag
of all three axes. The two bounds lie above 0.0027 and 0.27, so every
`p ≤ 0.0027` is covered, and every `p > 0.27` except those up to `0.27f`. -/
theorem C2_set_config_rejects_bad_period (c : Consts) (s : Stepper) (data : Frame)
    (home port : Bool) (hfid : data.header.fid = FID_SET_CONFIG)
    (hbad : (∃ p : ℚ, data.stepPeriod = CFloat.val p ∧ (p ≤ f32_0_0027 ∨ f32_0_27 < p)) ∨
      ∃ neg : Bool, data.stepPeriod = CFloat.inf neg) :
    (Stepper.dispatch c s data home port).2.hdr.error = MsgError.MSG_ERROR_INVALID_PARAMETER ∧
    (Stepper.dispatch c s data home port).1 = s ∧
    (∀ a : AxisId,
      ((Stepper.dispatch c s data home port).1.axis a).stepPeriod = (s.axis a).stepPeriod ∧
      ((Stepper.dispatch c s data home port).1.axis a).flowConfigured =
        (s.axis a).flowConfigured) ∧
    (∀ p : ℚ, p ≤ 27 / 10000 → p ≤ f32_0_0027) ∧
    (∀ p : ℚ, f32_0_27 < p → 27 / 100 < p) := by
  have hd := (dispatch_supported c s data home port).2.2.2.2.2.2.2 hfid
  have hg : (CFloat.le data.stepPeriod (CFloat.val f32_0_0027) ||
      CFloat.gt data.stepPeriod (CFloat.val f32_0_27)) = true := by
    rcases hbad with ⟨p, hper, hp⟩ | ⟨neg, hper⟩
    · exact ((setMotorConfig_guard data.stepPeriod).2.2 p hper).mpr hp
    · exact (setMotorConfig_guard data.stepPeriod).2.1 neg hper
  have hr : Stepper.setMotorConfig c s data home port =
      (s, Stepper.comReturn c data MsgError.MSG_ERROR_INVALID_PARAMETER) := by
    unfold Stepper.setMotorConfig
    rw [if_pos hg]
  rw [hd, hr]
  exact ⟨rfl, rfl, fun _ => ⟨rfl, rfl⟩, fun p hp => le_of_lt (lt_of_le_of_lt hp period_bounds.1),
    fun p hp => lt_trans period_bounds.2 hp⟩

/-- C5: over any table, a frame whose lookup gives no row or a row with no bound
handler is answered NOT_SUPPORTED with the controller unchanged; with the table
`comMessages` this is the case of every identifier above the eight supported
ones; and for each of the eight supported identifiers `getComFromHeader` returns
the row registered under that identifier, which has a bound handler. -/
theorem C5_unsupported_fid (c : Consts) (s : Stepper) (data : Frame) (home port : Bool) :
    (∀ table : List ComMessage,
      (Stepper.getComFromHeader table data.header = none ∨
        ∃ com, Stepper.getComFromHeader table data.header = some com ∧ com.replyFunc.isNone = true) →
      Stepper.dispatchTable table c s data home port =
        (s, Stepper.comReturn c data MsgError.MSG_ERROR_NOT_SUPPORTED)) ∧
    (FID_SET_CONFIG < data.header.fid →
      Stepper.getComFromHeader comMessages data.header = none ∧
      (Stepper.dispatch c s data home port).2.hdr.error = MsgError.MSG_ERROR_NOT_SUPPORTED ∧
      (Stepper.dispatch c s data home port).1 = s) ∧
    (data.header.fid ≤ FID_SET_CONFIG →
      ∃ com, Stepper.getComFromHeader comMessages data.header = some com ∧
        com.fid = data.header.fid ∧ com.replyFunc.isSome = true ∧
        comMessages.find? (fun m => m.fid == data.header.fid) = some com) := by
  refine ⟨?_, ?_, ?_⟩
  · intro table h
    rcases h with h | ⟨com, h, hn⟩
    · simp [Stepper.dispatchTable, h]
    · cases hf : com.replyFunc with
      | none => simp [Stepper.dispatchTable, h, hf]
      | some f => rw [hf] at hn; cases hn
  · intro h
    have hlen : comMessages.length = 8 := rfl
    have h8 : 8 ≤ data.header.fid := by
      have : FID_SET_CONFIG = 7 := rfl
      omega
    have hnone : Stepper.getComFromHeader comMessages data.header = none := by
      simp [Stepper.getComFromHeader, hlen, h8]
    refine ⟨hnone, ?_, ?_⟩ <;> simp [Stepper.dispatch, Stepper.dispatchTable, hnone, Stepper.comReturn, Reply.hdr]
  · intro h
    have h7 : data.header.fid ≤ 7 := h
    obtain ⟨n, hn⟩ : ∃ n, data.header.fid = n := ⟨_, rfl⟩
    rw [hn] at h7
    interval_cases n <;>
      simp [Stepper.getComFromHeader, comMessages, FID_GET_STATUS, FID_RUN_STEPPER,
        FID_STOP_STEPPER, FID_RETURN_HOME, FID_RUN_TO_NEXT, FID_RUN_TO_PREVIOUS,
        FID_GET_SYS_INFO, FID_SET_CONFIG, hn]

/-- C7 fails as stated: the period `0.0027f`, the binary32 value 2899103/1073741824,
lies in the range (0.0027, 0.27], and SET_CONFIG with it on the invalid axis 5 is
answered INVALID_PARAMETER, not INVALID_AXIS. -/
theorem C7_counterexample_lower_literal_rejected :
    (27 : ℚ) / 10000 < f32_0_0027 ∧ f32_0_0027 ≤ (27 : ℚ) / 100 ∧
    (Stepper.dispatch demoConsts demoConnected.stepper
      (mkFrame FID_SET_CONFIG 5 (CFloat.val f32_0_0027)) true true).2.hdr.error =
        MsgError.MSG_ERROR_INVALID_PARAMETER := by
  refine ⟨period_bounds.1, ?_, ?_⟩
  · rw [f32_literals.1]
    norm_num
  · decide

/-- C7 as amended: for GET_STATUS, RUN, STOP, RETURN_HOME, RUN_TO_NEXT, RUN_TO_PREVIOUS
and for SET_CONFIG with a period that passes the period check (NaN, or a finite
`p` with `0.0027f < p ≤ 0.27f`, the bounds being the binary32 values of the two
literals), a request whose axis is outside {0,1,2} is answered INVALID_AXIS and
changes none of: the three generators (motion state, step count, period,
configured flag, direction), the board state, and the homing session (target
axis, mode, previous port level, poll ticker). -/
theorem C7_invalid_axis_mutates_nothing (c : Consts) (s : Stepper) (data : Frame)
    (home port : Bool) (haxis : data.axis < 0 ∨ data.axis > 2)
    (hcmd : data.header.fid = FID_GET_STATUS ∨ data.header.fid = FID_RUN_STEPPER ∨
      data.header.fid = FID_STOP_STEPPER ∨ data.header.fid = FID_RETURN_HOME ∨
      data.header.fid = FID_RUN_TO_NEXT ∨ data.header.fid = FID_RUN_TO_PREVIOUS ∨
      (data.header.fid = FID_SET_CONFIG ∧
        (data.stepPeriod = CFloat.nan ∨
          ∃ p : ℚ, data.stepPeriod = CFloat.val p ∧ f32_0_0027 < p ∧ p ≤ f32_0_27))) :
    (Stepper.dispatch c s data home port).2.hdr.error = MsgError.MSG_ERROR_INVALID_AXIS ∧
    (Stepper.dispatch c s data home port).1.AxisX = s.AxisX ∧
    (Stepper.dispatch c s data home port).1.AxisY = s.AxisY ∧
    (Stepper.dispatch c s data home port).1.AxisZ = s.AxisZ ∧
    (Stepper.dispatch c s data home port).1.boardState = s.boardState ∧
    (Stepper.dispatch c s data home port).1.setMotorSelect = s.setMotorSelect ∧
    (Stepper.dispatch c s data home port).1.flag = s.flag ∧
    (Stepper.dispatch c s data home port).1.positionSignal = s.positionSignal ∧
    (Stepper.dispatch c s data home port).1.tickerStepper = s.tickerStepper := by
  obtain ⟨d0, d1, d2, d3, d4, d5, _, d7⟩ := dispatch_supported c s data home port
  rcases hcmd with h | h | h | h | h | h | ⟨h, hper⟩
  · rw [d0 h]; simp [Stepper.getStatus, haxis, Reply.hdr]
  · rw [d1 h]; simp [Stepper.runStepper, haxis, Reply.hdr, Stepper.comReturn]
  · rw [d2 h]; simp [Stepper.stopStepper, haxis, Reply.hdr, Stepper.comReturn]
  · rw [d3 h]; simp [Stepper.returnToHome, haxis, Reply.hdr, Stepper.comReturn]
  · rw [d4 h]; simp [Stepper.runToNext, haxis, Reply.hdr, Stepper.comReturn]
  · rw [d5 h]; simp [Stepper.runToPrevious, haxis, Reply.hdr, Stepper.comReturn]
  · rw [d7 h]
    have hg : ¬ ((CFloat.le data.stepPeriod (CFloat.val f32_0_0027) ||
        CFloat.gt data.stepPeriod (CFloat.val f32_0_27)) = true) := by
      rcases hper with hn | ⟨p, hp, hp1, hp2⟩
      · rw [(setMotorConfig_guard data.stepPeriod).1 hn]
        exact Bool.false_ne_true
      · rw [(setMotorConfig_guard data.stepPeriod).2.2 p hp]
        intro hh
        rcases hh with hh | hh
        · exact absurd hp1 (not_lt.mpr hh)
        · exact absurd hp2 (not_le.mpr hh)
    unfold Stepper.setMotorConfig
    rw [if_neg hg, if_pos haxis]
    simp [Reply.hdr, Stepper.comReturn]

/-! ## Theorems: how one step changes motion states and board state -/

/-- An axis that passes the range check is one of the three axis identifiers. -/
theorem valid_axis (axis : Int) (h : ¬ (axis < 0 ∨ axis > 2)) :
    axis = AXIS_X ∨ axis = AXIS_Y ∨ axis = AXIS_Z := by
  simp only [AXIS_X, AXIS_Y, AXIS_Z]
  omega

/-- Outcome of `runMotor` seen through the returned flag and the motion state. -/
theorem runMotor_summary (m : MotorController) :
    (m.runMotor.1 = false ∧ m.runMotor.2 = m) ∨
    (m.runMotor.1 = true ∧ m.runMotor.2.axisState = AxisState.RUNNING) := by
  cases hc : m.flowConfigured with
  | false => left; rw [runMotor_unconfigured m hc]; exact ⟨rfl, rfl⟩
  | true =>
      right
      rcases axisState_cases m with hs | hs
      · exact ⟨(runMotor_idle m hc hs).1, (runMotor_idle m hc hs).2.2.2.1⟩
      · rw [runMotor_running m hc hs]; exact ⟨rfl, hs⟩

/-- The direction switch leaves motion states and the board state alone. -/
theorem setStepperDirection_states (s : Stepper) (axis direction : Int) :
    (s.setStepperDirection axis direction).axisStates = s.axisStates ∧
    (s.setStepperDirection axis direction).boardState = s.boardState := by
  unfold Stepper.setStepperDirection
  split_ifs <;> exact ⟨rfl, rfl⟩

/-- The run switch on a valid axis: either the generator refused and nothing
changed, or the selected generator is RUNNING and the others are untouched. -/
theorem switchRunMotor_summary (s : Stepper) (axis : Int) (h : ¬ (axis < 0 ∨ axis > 2)) :
    (s.switchRunMotor axis).boardState = s.boardState ∧
    (((s.switchRunMotor axis).flowConfigured = false ∧
        (s.switchRunMotor axis).axisStates = s.axisStates) ∨
      ((s.switchRunMotor axis).flowConfigured = true ∧
        (s.switchRunMotor axis).anyAxisRunning ∧
        (s.AxisX.axisState = AxisState.RUNNING →
          (s.switchRunMotor axis).AxisX.axisState = AxisState.RUNNING) ∧
        (s.AxisY.axisState = AxisState.RUNNING →
          (s.switchRunMotor axis).AxisY.axisState = AxisState.RUNNING) ∧
        (s.AxisZ.axisState = AxisState.RUNNING →
          (s.switchRunMotor axis).AxisZ.axisState = AxisState.RUNNING))) := by
  have hxy : AXIS_Y ≠ AXIS_X := by decide
  have hzx : AXIS_Z ≠ AXIS_X := by decide
  have hzy : AXIS_Z ≠ AXIS_Y := by decide
  rcases valid_axis axis h with ha | ha | ha
  · have e : s.switchRunMotor axis =
        { s with flowConfigured := s.AxisX.runMotor.1, AxisX := s.AxisX.runMotor.2 } := by
      simp [Stepper.switchRunMotor, ha]
    rw [e]
    refine ⟨rfl, ?_⟩
    rcases runMotor_summary s.AxisX with ⟨h1, h2⟩ | ⟨h1, h2⟩
    · left
      exact ⟨h1, by simp [Stepper.axisStates, h2]⟩
    · right
      exact ⟨h1, Or.inl h2, fun _ => h2, fun hh => hh, fun hh => hh⟩
  · have e : s.switchRunMotor axis =
        { s with flowConfigured := s.AxisY.runMotor.1, AxisY := s.AxisY.runMotor.2 } := by
      simp [Stepper.switchRunMotor, ha, hxy]
    rw [e]
    refine ⟨rfl, ?_⟩
    rcases runMotor_summary s.AxisY with ⟨h1, h2⟩ | ⟨h1, h2⟩
    · left
      exact ⟨h1, by simp [Stepper.axisStates, h2]⟩
    · right
      exact ⟨h1, Or.inr (Or.inl h2), fun hh => hh, fun _ => h2, fun hh => hh⟩
  · have e : s.switchRunMotor axis =
        { s with flowConfigured := s.AxisZ.runMotor.1, AxisZ := s.AxisZ.runMotor.2 } := by
      simp [Stepper.switchRunMotor, ha, hzx, hzy]
    rw [e]
    refine ⟨rfl, ?_⟩
    rcases runMotor_summary s.AxisZ with ⟨h1, h2⟩ | ⟨h1, h2⟩
    · left
      exact ⟨h1, by simp [Stepper.axisStates, h2]⟩
    · right
      exact ⟨h1, Or.inr (Or.inr h2), fun hh => hh, fun hh => hh, fun _ => h2⟩

/-- The stop switch on a valid axis starts no axis and keeps the board state. -/
theorem switchStopMotor_summary (s : Stepper) (axis : Int) :
    (s.switchStopMotor axis).boardState = s.boardState ∧
    ((s.switchStopMotor axis).AxisX.axisState = AxisState.RUNNING →
      s.AxisX.axisState = AxisState.RUNNING) ∧
    ((s.switchStopMotor axis).AxisY.axisState = AxisState.RUNNING →
      s.AxisY.axisState = AxisState.RUNNING) ∧
    ((s.switchStopMotor axis).AxisZ.axisState = AxisState.RUNNING →
      s.AxisZ.axisState = AxisState.RUNNING) := by
  have hxy : AXIS_Y ≠ AXIS_X := by decide
  have hzx : AXIS_Z ≠ AXIS_X := by decide
  have hzy : AXIS_Z ≠ AXIS_Y := by decide
  unfold Stepper.switchStopMotor
  split_ifs with h1 h2 h3
  · simp [Stepper.setStepperDirection, h1, MotorController.setMotorDirection,
      MotorController.stopMotor, MotorController.setAxisState]
  · simp [Stepper.setStepperDirection, h2, hxy, MotorController.setMotorDirection,
      MotorController.stopMotor, MotorController.setAxisState]
  · simp [Stepper.setStepperDirection, h3, hzx, hzy, MotorController.setMotorDirection,
      MotorController.stopMotor, MotorController.setAxisState]
  · exact ⟨rfl, fun h => h, fun h => h, fun h => h⟩

/-- What follows a stop switch in `stopStepper` and `detectFallingEdge`. -/
theorem stop_then_board (s s1 : Stepper)
    (hb : s1.boardState = s.boardState)
    (hx : s1.AxisX.axisState = AxisState.RUNNING → s.AxisX.axisState = AxisState.RUNNING)
    (hy : s1.AxisY.axisState = AxisState.RUNNING → s.AxisY.axisState = AxisState.RUNNING)
    (hz : s1.AxisZ.axisState = AxisState.RUNNING → s.AxisZ.axisState = AxisState.RUNNING) :
    Stopped s (if s1.allAxesIdle then s1.setBoardState BoardState.IDLE else s1) := by
  cases hi : s1.allAxesIdle with
  | true =>
      simp only [if_true]
      refine ⟨hx, hy, hz, fun _ => rfl, fun h => ?_⟩
      have : (s1.setBoardState BoardState.IDLE).allAxesIdle = s1.allAxesIdle := rfl
      rw [this, hi] at h
      cases h
  | false =>
      simp only [Bool.false_eq_true, if_false]
      refine ⟨hx, hy, hz, fun h => ?_, fun _ => hb⟩
      rw [hi] at h
      cases h

/-- The handler `getStatus` changes neither a motion state nor the board state. -/
theorem getStatus_summary (c : Consts) (s : Stepper) (data : Frame) (home port : Bool) :
    Neutral s (Stepper.getStatus c s data home port).1 := by
  unfold Stepper.getStatus Stepper.getAxisState
  split_ifs <;> exact ⟨rfl, rfl⟩

/-- The handler `setMotorConfig` changes neither a motion state nor the board state. -/
theorem setMotorConfig_summary (c : Consts) (s : Stepper) (data : Frame) (home port : Bool) :
    Neutral s (Stepper.setMotorConfig c s data home port).1 := by
  unfold Stepper.setMotorConfig
  split_ifs <;> exact ⟨rfl, rfl⟩

/-- The handler `runStepper` either changes no motion or board state, or starts an axis. -/
theorem runStepper_summary (c : Consts) (s : Stepper) (data : Frame) (home port : Bool) :
    Neutral s (Stepper.runStepper c s data home port).1 ∨
    Started s (Stepper.runStepper c s data home port).1 := by
  unfold Stepper.runStepper
  by_cases hax : data.axis < 0 ∨ data.axis > 2
  · rw [if_pos hax]
    exact Or.inl ⟨rfl, rfl⟩
  · rw [if_neg hax]
    obtain ⟨hb, hr⟩ := switchRunMotor_summary s data.axis hax
    rcases hr with ⟨hf, hst⟩ | ⟨hf, hany, hx, hy, hz⟩
    · left
      simp only [hf, Bool.not_false, if_true]
      exact ⟨hst, hb⟩
    · right
      simp only [hf, Bool.not_true, Bool.false_eq_true, if_false]
      exact ⟨rfl, hany, hx, hy, hz⟩

/-- The handler `runToNext` either changes no motion or board state, or starts an axis. -/
theorem runToNext_summary (c : Consts) (s : Stepper) (data : Frame) (home port : Bool) :
    Neutral s (Stepper.runToNext c s data home port).1 ∨
    Started s (Stepper.runToNext c s data home port).1 := by
  unfold Stepper.runToNext
  by_cases hax : data.axis < 0 ∨ data.axis > 2
  · rw [if_pos hax]
    exact Or.inl ⟨rfl, rfl⟩
  · rw [if_neg hax]
    obtain ⟨hb, hr⟩ := switchRunMotor_summary s data.axis hax
    rcases hr with ⟨hf, hst⟩ | ⟨hf, hany, hx, hy, hz⟩
    · left
      simp only [hf, Bool.not_false, if_true]
      exact ⟨hst, hb⟩
    · right
      simp only [hf, Bool.not_true, Bool.false_eq_true, if_false]
      exact ⟨rfl, hany, hx, hy, hz⟩

/-- The common part of `returnToHome` and `runToPrevious`: the axis is
remembered, the direction set to reverse and the run switch taken. -/
theorem reverse_run_summary (s : Stepper) (axis : Int) (hax : ¬ (axis < 0 ∨ axis > 2)) :
    let s3 := (Stepper.setStepperDirection { s with setMotorSelect := axis } axis
      1).switchRunMotor axis
    s3.boardState = s.boardState ∧
    ((s3.flowConfigured = false ∧ s3.axisStates = s.axisStates) ∨
      (s3.flowConfigured = true ∧ s3.anyAxisRunning ∧
        (s.AxisX.axisState = AxisState.RUNNING → s3.AxisX.axisState = AxisState.RUNNING) ∧
        (s.AxisY.axisState = AxisState.RUNNING → s3.AxisY.axisState = AxisState.RUNNING) ∧
        (s.AxisZ.axisState = AxisState.RUNNING → s3.AxisZ.axisState = AxisState.RUNNING))) := by
  intro s3
  obtain ⟨d1, d2⟩ := setStepperDirection_states { s with setMotorSelect := axis } axis 1
  obtain ⟨hb, hr⟩ := switchRunMotor_summary
    (Stepper.setStepperDirection { s with setMotorSelect := axis } axis 1) axis hax
  have d1x : (Stepper.setStepperDirection { s with setMotorSelect := axis } axis 1).AxisX.axisState
      = s.AxisX.axisState := congrArg (fun t => t.1) d1
  have d1y : (Stepper.setStepperDirection { s with setMotorSelect := axis } axis 1).AxisY.axisState
      = s.AxisY.axisState := congrArg (fun t => t.2.1) d1
  have d1z : (Stepper.setStepperDirection { s with setMotorSelect := axis } axis 1).AxisZ.axisState
      = s.AxisZ.axisState := congrArg (fun t => t.2.2) d1
  refine ⟨hb.trans d2, ?_⟩
  rcases hr with ⟨hf, hst⟩ | ⟨hf, hany, hx, hy, hz⟩
  · exact Or.inl ⟨hf, hst.trans d1⟩
  · rw [d1x] at hx
    rw [d1y] at hy
    rw [d1z] at hz
    exact Or.inr ⟨hf, hany, hx, hy, hz⟩

/-- The handler `returnToHome` either changes no motion or board state, or starts an axis. -/
theorem returnToHome_summary (c : Consts) (s : Stepper) (data : Frame) (home port : Bool) :
    Neutral s (Stepper.returnToHome c s data home port).1 ∨
    Started s (Stepper.returnToHome c s data home port).1 := by
  unfold Stepper.returnToHome
  by_cases hax : data.axis < 0 ∨ data.axis > 2
  · rw [if_pos hax]
    exact Or.inl ⟨rfl, rfl⟩
  · rw [if_neg hax]
    by_cases hh : (!(home == false && port == false)) = true
    · rw [if_pos hh]
      obtain ⟨hb, hr⟩ := reverse_run_summary s data.axis hax
      rcases hr with ⟨hf, hst⟩ | ⟨hf, hany, hx, hy, hz⟩
      · left
        simp only [hf, Bool.not_false, if_true]
        obtain ⟨e1, e2⟩ := setStepperDirection_states
          ((Stepper.setStepperDirection { s with setMotorSelect := data.axis } data.axis
            1).switchRunMotor data.axis)
          ((Stepper.setStepperDirection { s with setMotorSelect := data.axis } data.axis
            1).switchRunMotor data.axis).setMotorSelect 0
        exact ⟨e1.trans hst, e2.trans hb⟩
      · right
        simp only [hf, Bool.not_true, Bool.false_eq_true, if_false]
        exact ⟨rfl, hany, hx, hy, hz⟩
    · rw [if_neg hh]
      exact Or.inl ⟨rfl, rfl⟩

/-- The handler `runToPrevious` either changes no motion or board state, or starts an axis. -/
theorem runToPrevious_summary (c : Consts) (s : Stepper) (data : Frame) (home port : Bool) :
    Neutral s (Stepper.runToPrevious c s data home port).1 ∨
    Started s (Stepper.runToPrevious c s data home port).1 := by
  unfold Stepper.runToPrevious
  by_cases hax : data.axis < 0 ∨ data.axis > 2
  · rw [if_pos hax]
    exact Or.inl ⟨rfl, rfl⟩
  · rw [if_neg hax]
    obtain ⟨hb, hr⟩ := reverse_run_summary s data.axis hax
    rcases hr with ⟨hf, hst⟩ | ⟨hf, hany, hx, hy, hz⟩
    · left
      simp only [hf, Bool.not_false, if_true]
      obtain ⟨e1, e2⟩ := setStepperDirection_states
        ((Stepper.setStepperDirection { s with setMotorSelect := data.axis } data.axis
          1).switchRunMotor data.axis)
        ((Stepper.setStepperDirection { s with setMotorSelect := data.axis } data.axis
          1).switchRunMotor data.axis).setMotorSelect 0
      exact ⟨e1.trans hst, e2.trans hb⟩
    · right
      simp only [hf, Bool.not_true, Bool.false_eq_true, if_false]
      exact ⟨rfl, hany, hx, hy, hz⟩

/-- The handler `stopStepper` changes nothing on an invalid axis and stops an axis otherwise. -/
theorem stopStepper_summary (c : Consts) (s : Stepper) (data : Frame) (home port : Bool) :
    Neutral s (Stepper.stopStepper c s data home port).1 ∨
    (¬ (data.axis < 0 ∨ data.axis > 2) ∧ Stopped s (Stepper.stopStepper c s data home port).1) := by
  unfold Stepper.stopStepper
  by_cases hax : data.axis < 0 ∨ data.axis > 2
  · rw [if_pos hax]
    exact Or.inl ⟨rfl, rfl⟩
  · rw [if_neg hax]
    right
    obtain ⟨hb, hx, hy, hz⟩ := switchStopMotor_summary s data.axis
    exact ⟨hax, stop_then_board s _ hb hx hy hz⟩

/-- The tail of `detectFallingEdge` once the cached axis state has been read. -/
theorem detect_core (s s3 : Stepper) (edge : Bool)
    (hX : s3.AxisX.axisState = s.AxisX.axisState)
    (hY : s3.AxisY.axisState = s.AxisY.axisState)
    (hZ : s3.AxisZ.axisState = s.AxisZ.axisState)
    (hB : s3.boardState = s.boardState) :
    Neutral s
      (if edge = true then
        (if (Stepper.switchStopMotor { s3 with tickerStepper := none }
              s3.setMotorSelect).allAxesIdle = true then
          (Stepper.switchStopMotor { s3 with tickerStepper := none }
              s3.setMotorSelect).setBoardState BoardState.IDLE
        else Stepper.switchStopMotor { s3 with tickerStepper := none } s3.setMotorSelect)
      else s3) ∨
    Stopped s
      (if edge = true then
        (if (Stepper.switchStopMotor { s3 with tickerStepper := none }
              s3.setMotorSelect).allAxesIdle = true then
          (Stepper.switchStopMotor { s3 with tickerStepper := none }
              s3.setMotorSelect).setBoardState BoardState.IDLE
        else Stepper.switchStopMotor { s3 with tickerStepper := none } s3.setMotorSelect)
      else s3) := by
  cases edge with
  | false =>
      left
      simp only [Bool.false_eq_true, if_false]
      exact ⟨by simp [Stepper.axisStates, hX, hY, hZ], hB⟩
  | true =>
      right
      simp only [if_true]
      obtain ⟨hb, hx, hy, hz⟩ :=
        switchStopMotor_summary { s3 with tickerStepper := none } s3.setMotorSelect
      refine stop_then_board s _ (hb.trans hB) (fun h => ?_) (fun h => ?_) (fun h => ?_)
      · rw [← hX]; exact hx h
      · rw [← hY]; exact hy h
      · rw [← hZ]; exact hz h

/-- The homing poll either changes no motion or board state, or stops an axis. -/
theorem detectFallingEdge_summary (s : Stepper) (home port port2 : Bool) :
    Neutral s (s.detectFallingEdge home port port2) ∨
    Stopped s (s.detectFallingEdge home port port2) := by
  unfold Stepper.detectFallingEdge
  refine detect_core s _ _ ?_ ?_ ?_ ?_ <;>
    cases s.flag <;> simp only [] <;> unfold Stepper.getAxisState <;> split_ifs <;> rfl

/-- The direction switch keeps the generators within their reachable states. -/
theorem setStepperDirection_reachable (s : Stepper) (axis direction : Int)
    (h : AxesReachable s) : AxesReachable (s.setStepperDirection axis direction) := by
  obtain ⟨hx, hy, hz⟩ := h
  unfold Stepper.setStepperDirection
  split_ifs
  · exact ⟨GenReachable.setMotorDirection _ _ hx, hy, hz⟩
  · exact ⟨hx, GenReachable.setMotorDirection _ _ hy, hz⟩
  · exact ⟨hx, hy, GenReachable.setMotorDirection _ _ hz⟩
  · exact ⟨hx, hy, hz⟩

/-- The run switch keeps the generators within their reachable states. -/
theorem switchRunMotor_reachable (s : Stepper) (axis : Int)
    (h : AxesReachable s) : AxesReachable (s.switchRunMotor axis) := by
  obtain ⟨hx, hy, hz⟩ := h
  unfold Stepper.switchRunMotor
  split_ifs
  · exact ⟨GenReachable.runMotor _ hx, hy, hz⟩
  · exact ⟨hx, GenReachable.runMotor _ hy, hz⟩
  · exact ⟨hx, hy, GenReachable.runMotor _ hz⟩
  · exact ⟨hx, hy, hz⟩

/-- The stop switch keeps the generators within their reachable states. -/
theorem switchStopMotor_reachable (s : Stepper) (axis : Int)
    (h : AxesReachable s) : AxesReachable (s.switchStopMotor axis) := by
  obtain ⟨hx, hy, hz⟩ := h
  unfold Stepper.switchStopMotor
  split_ifs
  · exact setStepperDirection_reachable _ _ _ ⟨GenReachable.stopMotor _ hx, hy, hz⟩
  · exact setStepperDirection_reachable _ _ _ ⟨hx, GenReachable.stopMotor _ hy, hz⟩
  · exact setStepperDirection_reachable _ _ _ ⟨hx, hy, GenReachable.stopMotor _ hz⟩
  · exact ⟨hx, hy, hz⟩

/-- The handler `getStatus` keeps the generators within their reachable states. -/
theorem getStatus_reachable (c : Consts) (s : Stepper) (data : Frame) (home port : Bool)
    (h : AxesReachable s) : AxesReachable (Stepper.getStatus c s data home port).1 := by
  unfold Stepper.getStatus Stepper.getAxisState
  split_ifs <;> exact h

/-- The handler `setMotorConfig` keeps the generators within their reachable states. -/
theorem setMotorConfig_reachable (c : Consts) (s : Stepper) (data : Frame) (home port : Bool)
    (h : AxesReachable s) : AxesReachable (Stepper.setMotorConfig c s data home port).1 := by
  obtain ⟨hx, hy, hz⟩ := h
  unfold Stepper.setMotorConfig
  split_ifs
  · exact ⟨hx, hy, hz⟩
  · exact ⟨hx, hy, hz⟩
  · exact ⟨GenReachable.setFlowConfig _ _ hx, hy, hz⟩
  · exact ⟨hx, GenReachable.setFlowConfig _ _ hy, hz⟩
  · exact ⟨hx, hy, GenReachable.setFlowConfig _ _ hz⟩
  · exact ⟨hx, hy, hz⟩

/-- The handler `runStepper` keeps the generators within their reachable states. -/
theorem runStepper_reachable (c : Consts) (s : Stepper) (data : Frame) (home port : Bool)
    (h : AxesReachable s) : AxesReachable (Stepper.runStepper c s data home port).1 := by
  unfold Stepper.runStepper
  simp only []
  split_ifs <;>
    first
      | exact h
      | exact switchRunMotor_reachable _ _ h

/-- The handler `stopStepper` keeps the generators within their reachable states. -/
theorem stopStepper_reachable (c : Consts) (s : Stepper) (data : Frame) (home port : Bool)
    (h : AxesReachable s) : AxesReachable (Stepper.stopStepper c s data home port).1 := by
  unfold Stepper.stopStepper
  simp only []
  split_ifs <;>
    first
      | exact h
      | exact switchStopMotor_reachable _ _ h

/-- The handler `returnToHome` keeps the generators within their reachable states. -/
theorem returnToHome_reachable (c : Consts) (s : Stepper) (data : Frame) (home port : Bool)
    (h : AxesReachable s) : AxesReachable (Stepper.returnToHome c s data home port).1 := by
  have h3 : AxesReachable ((Stepper.setStepperDirection { s with setMotorSelect := data.axis }
      data.axis 1).switchRunMotor data.axis) :=
    switchRunMotor_reachable _ _ (setStepperDirection_reachable _ _ _ h)
  unfold Stepper.returnToHome
  simp only []
  split_ifs <;>
    first
      | exact h
      | exact h3
      | exact setStepperDirection_reachable _ _ _ h3

/-- The handler `runToNext` keeps the generators within their reachable states. -/
theorem runToNext_reachable (c : Consts) (s : Stepper) (data : Frame) (home port : Bool)
    (h : AxesReachable s) : AxesReachable (Stepper.runToNext c s data home port).1 := by
  unfold Stepper.runToNext
  simp only []
  split_ifs <;>
    first
      | exact h
      | exact switchRunMotor_reachable _ _ h

/-- The handler `runToPrevious` keeps the generators within their reachable states. -/
theorem runToPrevious_reachable (c : Consts) (s : Stepper) (data : Frame) (home port : Bool)
    (h : AxesReachable s) : AxesReachable (Stepper.runToPrevious c s data home port).1 := by
  have h3 : AxesReachable ((Stepper.setStepperDirection { s with setMotorSelect := data.axis }
      data.axis 1).switchRunMotor data.axis) :=
    switchRunMotor_reachable _ _ (setStepperDirection_reachable _ _ _ h)
  unfold Stepper.runToPrevious
  simp only []
  split_ifs <;>
    first
      | exact h
      | exact h3
      | exact setStepperDirection_reachable _ _ _ h3

/-- The homing poll keeps the generators within their reachable states. -/
theorem detectFallingEdge_reachable (s : Stepper) (home port port2 : Bool)
    (h : AxesReachable s) : AxesReachable (s.detectFallingEdge home port port2) := by
  unfold Stepper.detectFallingEdge
  cases s.flag <;> simp only [] <;> unfold Stepper.getAxisState <;> split_ifs <;>
    first
      | exact h
      | exact switchStopMotor_reachable _ _ h

/-! ## Theorems: the main loop -/

/-- The all-idle test of the source holds exactly when no axis is RUNNING. -/
theorem allAxesIdle_true_iff (s : Stepper) : s.allAxesIdle = true ↔ ¬ s.anyAxisRunning := by
  unfold Stepper.allAxesIdle Stepper.anyAxisRunning MotorController.getAxisState
  rcases axisState_cases s.AxisX with hx | hx <;> rcases axisState_cases s.AxisY with hy | hy <;>
    rcases axisState_cases s.AxisZ with hz | hz <;> simp [hx, hy, hz]

/-- The all-idle test of the source fails exactly when some axis is RUNNING. -/
theorem allAxesIdle_false_iff (s : Stepper) : s.allAxesIdle = false ↔ s.anyAxisRunning := by
  rw [← Bool.not_eq_true, allAxesIdle_true_iff, not_not]

/-- Whether some axis is RUNNING depends on the three motion states only. -/
theorem anyAxisRunning_of_axisStates (s s1 : Stepper) (h : s1.axisStates = s.axisStates) :
    s1.anyAxisRunning ↔ s.anyAxisRunning := by
  unfold Stepper.axisStates at h
  simp only [Prod.mk.injEq] at h
  obtain ⟨h1, h2, h3⟩ := h
  unfold Stepper.anyAxisRunning
  rw [h1, h2, h3]

/-- Every dispatched frame changes no motion or board state, starts an axis, or is a
STOP on a valid axis that stops one. -/
theorem dispatch_summary (c : Consts) (s : Stepper) (data : Frame) (home port : Bool) :
    Neutral s (Stepper.dispatch c s data home port).1 ∨
    Started s (Stepper.dispatch c s data home port).1 ∨
    (data.header.fid = FID_STOP_STEPPER ∧ ¬ (data.axis < 0 ∨ data.axis > 2) ∧
      Stopped s (Stepper.dispatch c s data home port).1) := by
  obtain ⟨d0, d1, d2, d3, d4, d5, d6, d7⟩ := dispatch_supported c s data home port
  by_cases h8 : 8 ≤ data.header.fid
  · rw [dispatch_unsupported c s data home port h8]
    exact Or.inl ⟨rfl, rfl⟩
  · have h7 : data.header.fid ≤ 7 := by omega
    obtain ⟨n, hn⟩ : ∃ n, data.header.fid = n := ⟨_, rfl⟩
    rw [hn] at h7
    interval_cases n
    · rw [d0 hn]; exact Or.inl (getStatus_summary c s data home port)
    · rw [d1 hn]
      rcases runStepper_summary c s data home port with h | h
      · exact Or.inl h
      · exact Or.inr (Or.inl h)
    · rw [d2 hn]
      rcases stopStepper_summary c s data home port with h | h
      · exact Or.inl h
      · exact Or.inr (Or.inr ⟨hn, h⟩)
    · rw [d3 hn]
      rcases returnToHome_summary c s data home port with h | h
      · exact Or.inl h
      · exact Or.inr (Or.inl h)
    · rw [d4 hn]
      rcases runToNext_summary c s data home port with h | h
      · exact Or.inl h
      · exact Or.inr (Or.inl h)
    · rw [d5 hn]
      rcases runToPrevious_summary c s data home port with h | h
      · exact Or.inl h
      · exact Or.inr (Or.inl h)
    · rw [d6 hn]; exact Or.inl ⟨rfl, rfl⟩
    · rw [d7 hn]; exact Or.inl (setMotorConfig_summary c s data home port)

/-- Every dispatched frame keeps the generators within their reachable states. -/
theorem dispatch_reachable (c : Consts) (s : Stepper) (data : Frame) (home port : Bool)
    (h : AxesReachable s) : AxesReachable (Stepper.dispatch c s data home port).1 := by
  obtain ⟨d0, d1, d2, d3, d4, d5, d6, d7⟩ := dispatch_supported c s data home port
  by_cases h8 : 8 ≤ data.header.fid
  · rw [dispatch_unsupported c s data home port h8]
    exact h
  · have h7 : data.header.fid ≤ 7 := by omega
    obtain ⟨n, hn⟩ : ∃ n, data.header.fid = n := ⟨_, rfl⟩
    rw [hn] at h7
    interval_cases n
    · rw [d0 hn]; exact getStatus_reachable c s data home port h
    · rw [d1 hn]; exact runStepper_reachable c s data home port h
    · rw [d2 hn]; exact stopStepper_reachable c s data home port h
    · rw [d3 hn]; exact returnToHome_reachable c s data home port h
    · rw [d4 hn]; exact runToNext_reachable c s data home port h
    · rw [d5 hn]; exact runToPrevious_reachable c s data home port h
    · rw [d6 hn]; exact h
    · rw [d7 hn]; exact setMotorConfig_reachable c s data home port h

/-- The five kinds of step of the main loop. -/
theorem runStep_cases (c : Consts) (y y1 : Sys) (e : Event)
    (h : Stepper.runStep c y e = some y1) :
    (e = Event.accept ∧ y.phase = Phase.accepting ∧
      y1 = { stepper := y.stepper.setBoardState BoardState.IDLE, phase := Phase.connected }) ∨
    (∃ data home port, e = Event.frame data home port ∧ y.phase = Phase.connected ∧
      y1 = { y with stepper := (Stepper.dispatch c y.stepper data home port).1 }) ∨
    (e = Event.disconnect ∧ y.phase = Phase.connected ∧
      y1 = { stepper := (y.stepper.setBoardState BoardState.WAIT_FOR_CONNECTION).setBoardState
                BoardState.WAIT_FOR_CONNECTION,
             phase := Phase.accepting }) ∨
    (∃ axis s1, e = Event.stepTick axis ∧ Stepper.stepTick y.stepper axis = some s1 ∧
      y1 = { y with stepper := s1 }) ∨
    (∃ home port port2 n, e = Event.stepperTick home port port2 ∧
      ((y.stepper.tickerStepper = some (TickerCallback.flipRedLED, n) ∧
          y1 = { y with stepper := y.stepper.flipRedLED }) ∨
        (y.stepper.tickerStepper = some (TickerCallback.detectFallingEdge, n) ∧
          y1 = { y with stepper := y.stepper.detectFallingEdge home port port2 }))) := by
  cases e with
  | accept =>
      left
      cases hp : y.phase <;> simp [Stepper.runStep, hp] at h
      exact ⟨rfl, rfl, h.symm⟩
  | frame data home port =>
      right; left
      cases hp : y.phase <;> simp [Stepper.runStep, hp] at h
      exact ⟨data, home, port, rfl, rfl, h.symm⟩
  | disconnect =>
      right; right; left
      cases hp : y.phase <;> simp [Stepper.runStep, hp] at h
      exact ⟨rfl, rfl, h.symm⟩
  | stepTick axis =>
      right; right; right; left
      simp only [Stepper.runStep, Option.map_eq_some'] at h
      obtain ⟨s1, h1, h2⟩ := h
      exact ⟨axis, s1, rfl, h1, h2.symm⟩
  | stepperTick home port port2 =>
      right; right; right; right
      simp only [Stepper.runStep, Option.map_eq_some'] at h
      obtain ⟨s1, h1, h2⟩ := h
      unfold Stepper.stepperTick at h1
      split at h1
      · rename_i n heq
        simp only [Option.some.injEq] at h1
        exact ⟨home, port, port2, n, rfl, Or.inl ⟨heq, by rw [← h2, h1]⟩⟩
      · rename_i n heq
        simp only [Option.some.injEq] at h1
        exact ⟨home, port, port2, n, rfl, Or.inr ⟨heq, by rw [← h2, h1]⟩⟩
      · cases h1

/-- A step-timer callback changes only the line level and step count of its axis. -/
theorem stepTick_summary (s s1 : Stepper) (axis : AxisId) (h : Stepper.stepTick s axis = some s1) :
    Neutral s s1 ∧ s1.tickerStepper = s.tickerStepper ∧
    (AxesReachable s → AxesReachable s1) := by
  cases axis <;> simp only [Stepper.stepTick] at h <;> split_ifs at h with harm <;>
    simp only [Option.some.injEq] at h <;> subst h
  · refine ⟨⟨?_, rfl⟩, rfl, fun hr => ⟨GenReachable.flipStepPin _ hr.1 harm, hr.2.1, hr.2.2⟩⟩
    simp [Stepper.axisStates, (flipStepPin_frame s.AxisX).2.1]
  · refine ⟨⟨?_, rfl⟩, rfl, fun hr => ⟨hr.1, GenReachable.flipStepPin _ hr.2.1 harm, hr.2.2⟩⟩
    simp [Stepper.axisStates, (flipStepPin_frame s.AxisY).2.1]
  · refine ⟨⟨?_, rfl⟩, rfl, fun hr => ⟨hr.1, hr.2.1, GenReachable.flipStepPin _ hr.2.2 harm⟩⟩
    simp [Stepper.axisStates, (flipStepPin_frame s.AxisZ).2.1]

/-- A property kept by every step whose event satisfies `Q` holds at the end
of every run made of such events. -/
theorem runFrom_invariant (c : Consts) (P : Sys → Prop) (Q : Event → Prop)
    (hstep : ∀ y e y1, Q e → P y → Stepper.runStep c y e = some y1 → P y1) :
    ∀ (es : List Event) (y y1 : Sys), (∀ e ∈ es, Q e) → P y →
      Stepper.runFrom c y es = some y1 → P y1 := by
  intro es
  induction es with
  | nil =>
      intro y y1 _ hP h
      simp only [Stepper.runFrom, Option.some.injEq] at h
      rw [← h]; exact hP
  | cons e es ih =>
      intro y y1 hQ hP h
      simp only [Stepper.runFrom] at h
      cases hs : Stepper.runStep c y e with
      | none => rw [hs] at h; cases h
      | some y2 =>
          rw [hs] at h
          exact ih y2 y1 (fun e1 he1 => hQ e1 (List.mem_cons_of_mem _ he1))
            (hstep y e y2 (hQ e (List.mem_cons_self _ _)) hP hs) h

/-- After a stop, a RUNNING axis was RUNNING before. -/
theorem Stopped.anyAxisRunning {s s1 : Stepper} (h : Stopped s s1) (h1 : s1.anyAxisRunning) :
    s.anyAxisRunning := by
  obtain ⟨hx, hy, hz, _, _⟩ := h
  rcases h1 with h1 | h1 | h1
  · exact Or.inl (hx h1)
  · exact Or.inr (Or.inl (hy h1))
  · exact Or.inr (Or.inr (hz h1))

/-- The board invariant holds at startup. -/
theorem boardInv_boot : BoardInv Stepper.boot := by
  constructor
  · intro h; cases h
  · intro _; exact ⟨rfl, rfl⟩

/-- At startup no axis is RUNNING. -/
theorem runningInv_boot : RunningInv Stepper.boot := by
  intro h
  rcases h with h | h | h <;> cases h

/-- The generators are freshly constructed at startup. -/
theorem axesReachable_boot : AxesReachable Stepper.boot.stepper :=
  ⟨GenReachable.new, GenReachable.new, GenReachable.new⟩

/-- Every step of the main loop keeps the board invariant. -/
theorem boardInv_step (c : Consts) (y y1 : Sys) (e : Event) (hP : BoardInv y)
    (h : Stepper.runStep c y e = some y1) : BoardInv y1 := by
  obtain ⟨hp1, hp2⟩ := hP
  rcases runStep_cases c y y1 e h with ⟨_, _, rfl⟩ | ⟨data, home, port, _, hph, rfl⟩ |
    ⟨_, _, rfl⟩ | ⟨axis, s1, _, ht, rfl⟩ | ⟨home, port, port2, n, _, ⟨_, rfl⟩ | ⟨htk, rfl⟩⟩
  · exact ⟨fun hb => (by cases hb), fun hc => (by cases hc)⟩
  · refine ⟨?_, fun hc => ?_⟩
    · rcases dispatch_summary c y.stepper data home port with hn | hs | ⟨_, _, hs⟩
      · intro hb
        rw [hn.2] at hb
        exact (anyAxisRunning_of_axisStates _ _ hn.1).mpr (hp1 hb)
      · intro _
        exact hs.2.1
      · intro hb
        cases hi : (Stepper.dispatch c y.stepper data home port).1.allAxesIdle with
        | true =>
            have := hs.2.2.2.1 hi
            rw [this] at hb
            cases hb
        | false => exact (allAxesIdle_false_iff _).mp hi
    · rw [hph] at hc; cases hc
  · exact ⟨fun hb => (by cases hb), fun _ => ⟨rfl, rfl⟩⟩
  · obtain ⟨hn, htk, _⟩ := stepTick_summary y.stepper s1 axis ht
    refine ⟨fun hb => ?_, fun hc => ?_⟩
    · rw [hn.2] at hb
      exact (anyAxisRunning_of_axisStates _ _ hn.1).mpr (hp1 hb)
    · exact ⟨hn.2.trans (hp2 hc).1, htk.trans (hp2 hc).2⟩
  · exact ⟨hp1, hp2⟩
  · refine ⟨?_, fun hc => ?_⟩
    · rcases detectFallingEdge_summary y.stepper home port port2 with hn | hs
      · intro hb
        rw [hn.2] at hb
        exact (anyAxisRunning_of_axisStates _ _ hn.1).mpr (hp1 hb)
      · intro hb
        cases hi : (y.stepper.detectFallingEdge home port port2).allAxesIdle with
        | true =>
            have := hs.2.2.2.1 hi
            rw [this] at hb
            cases hb
        | false => exact (allAxesIdle_false_iff _).mp hi
    · have := (hp2 hc).2
      rw [this] at htk
      cases htk

/-- Every step of the main loop other than a disconnect with an axis RUNNING
keeps the invariant `RunningInv`. -/
theorem runningInv_step (c : Consts) (y y1 : Sys) (e : Event)
    (he : e = Event.disconnect → ¬ y.stepper.anyAxisRunning)
    (hP : RunningInv y) (h : Stepper.runStep c y e = some y1) : RunningInv y1 := by
  rcases runStep_cases c y y1 e h with ⟨_, hph, rfl⟩ | ⟨data, home, port, _, hph, rfl⟩ |
    ⟨hd, _, rfl⟩ | ⟨axis, s1, _, ht, rfl⟩ | ⟨home, port, port2, n, _, ⟨_, rfl⟩ | ⟨htk, rfl⟩⟩
  · intro hany
    have h0 : y.stepper.anyAxisRunning := hany
    have := (hP h0).2
    rw [hph] at this
    cases this
  · intro hany
    refine ⟨?_, hph⟩
    rcases dispatch_summary c y.stepper data home port with hn | hs | ⟨_, _, hs⟩
    · rw [hn.2]
      exact (hP ((anyAxisRunning_of_axisStates _ _ hn.1).mp hany)).1
    · exact hs.1
    · have hi := (allAxesIdle_false_iff _).mpr hany
      have hb := hs.2.2.2.2 hi
      show (Stepper.dispatch c y.stepper data home port).1.boardState = BoardState.PUMP_RUNNING
      rw [hb]
      exact (hP (hs.anyAxisRunning hany)).1
  · intro hany
    have h0 : y.stepper.anyAxisRunning := hany
    exact absurd h0 (he hd)
  · obtain ⟨hn, _, _⟩ := stepTick_summary y.stepper s1 axis ht
    intro hany
    have h0 := (anyAxisRunning_of_axisStates _ _ hn.1).mp hany
    exact ⟨hn.2.trans (hP h0).1, (hP h0).2⟩
  · exact hP
  · intro hany
    rcases detectFallingEdge_summary y.stepper home port port2 with hn | hs
    · have h0 := (anyAxisRunning_of_axisStates _ _ hn.1).mp hany
      exact ⟨hn.2.trans (hP h0).1, (hP h0).2⟩
    · have hi := (allAxesIdle_false_iff _).mpr hany
      have hb := hs.2.2.2.2 hi
      have h0 := hs.anyAxisRunning hany
      exact ⟨hb.trans (hP h0).1, (hP h0).2⟩

/-- The invariant `RunningInv` holds at the end of every run from a state that
has it in which no axis is RUNNING whenever the client disconnects. -/
theorem runFrom_runningInv (c : Consts) :
    ∀ (es : List Event) (y y1 : Sys), Stepper.quietDisconnects c y es = true → RunningInv y →
      Stepper.runFrom c y es = some y1 → RunningInv y1 := by
  intro es
  induction es with
  | nil =>
      intro y y1 _ hP h
      simp only [Stepper.runFrom, Option.some.injEq] at h
      rw [← h]; exact hP
  | cons e es ih =>
      intro y y1 hq hP h
      simp only [Stepper.runFrom] at h
      simp only [Stepper.quietDisconnects, Bool.and_eq_true] at hq
      cases hs : Stepper.runStep c y e with
      | none => rw [hs] at h; cases h
      | some y2 =>
          rw [hs] at h
          have hq2 := hq.2
          rw [hs] at hq2
          refine ih y2 y1 hq2 (runningInv_step c y y2 e (fun hd => ?_) hP hs) h
          have hidle := hq.1
          rw [hd] at hidle
          exact (allAxesIdle_true_iff _).mp hidle

/-- A run of two lists of events one after the other. -/
theorem runFrom_append (c : Consts) :
    ∀ (es1 es2 : List Event) (y y1 : Sys), Stepper.runFrom c y es1 = some y1 →
      Stepper.runFrom c y (es1 ++ es2) = Stepper.runFrom c y1 es2 := by
  intro es1
  induction es1 with
  | nil =>
      intro es2 y y1 h
      simp only [Stepper.runFrom, Option.some.injEq] at h
      rw [h]; rfl
  | cons e es ih =>
      intro es2 y y1 h
      simp only [Stepper.runFrom, List.cons_append] at h ⊢
      cases hs : Stepper.runStep c y e with
      | none => rw [hs] at h; cases h
      | some y2 =>
          rw [hs] at h
          exact ih es2 y2 y1 h

/-- Every step of the main loop keeps the generators within their reachable states. -/
theorem axesReachable_step (c : Consts) (y y1 : Sys) (e : Event)
    (hP : AxesReachable y.stepper) (h : Stepper.runStep c y e = some y1) :
    AxesReachable y1.stepper := by
  rcases runStep_cases c y y1 e h with ⟨_, _, rfl⟩ | ⟨data, home, port, _, hph, rfl⟩ |
    ⟨_, _, rfl⟩ | ⟨axis, s1, _, ht, rfl⟩ | ⟨home, port, port2, n, _, ⟨_, rfl⟩ | ⟨htk, rfl⟩⟩
  · exact hP
  · exact dispatch_reachable c y.stepper data home port hP
  · exact hP
  · exact (stepTick_summary y.stepper s1 axis ht).2.2 hP
  · exact hP
  · exact detectFallingEdge_reachable y.stepper home port port2 hP

/-- The board invariant holds in every reachable state. -/
theorem reachable_boardInv (c : Consts) (es : List Event) (y : Sys)
    (h : Stepper.run c es = some y) : BoardInv y :=
  runFrom_invariant c BoardInv (fun _ => True)
    (fun y e y1 _ hP hs => boardInv_step c y y1 e hP hs) es Stepper.boot y
    (fun _ _ => trivial) boardInv_boot h

/-- In every reachable state each generator is in a state its own operations reach. -/
theorem reachable_axesReachable (c : Consts) (es : List Event) (y : Sys)
    (h : Stepper.run c es = some y) : AxesReachable y.stepper :=
  runFrom_invariant c (fun y => AxesReachable y.stepper) (fun _ => True)
    (fun y e y1 _ hP hs => axesReachable_step c y y1 e hP hs) es Stepper.boot y
    (fun _ _ => trivial) axesReachable_boot h

/-- C1 (the code at a failing input): after accept, SET_CONFIG(X, `0.01f`), RUN(X), two
step callbacks on X and STOP(X), the step-count accessor of axis X returns 1,
not 0; the motion state is IDLE, and the field that `stopStepper` zeroes is the
controller copy `_stepsPerformed`, which is 0. -/
theorem C1_stop_keeps_axis_step_count :
    (Stepper.run demoConsts demoStopTrace).map
        (fun y => (y.stepper.AxisX.getStepsPerformed, y.stepper.AxisX.getAxisState,
          y.stepper.stepsPerformed)) =
      some (1, AxisState.IDLE, 0) := by
  decide

/-- C3: in every reachable controller state, RUN on a valid axis whose generator is
not configured replies FLOW_NOT_CONFIGURED, leaves the board state and that
generator unchanged, and the generator is IDLE with no step ticker attached. -/
theorem C3_run_unconfigured_refused (c : Consts) (y : Sys) (hreach : Reachable c y)
    (data : Frame) (home port : Bool) (a : AxisId)
    (hfid : data.header.fid = FID_RUN_STEPPER) (haxis : data.axis = a.code)
    (hcfg : (y.stepper.axis a).flowConfigured = false) :
    (Stepper.dispatch c y.stepper data home port).2.hdr.error =
      MsgError.MSG_ERROR_FLOW_NOT_CONFIGURED ∧
    (Stepper.dispatch c y.stepper data home port).1.boardState = y.stepper.boardState ∧
    (Stepper.dispatch c y.stepper data home port).1.axis a = y.stepper.axis a ∧
    ((Stepper.dispatch c y.stepper data home port).1.axis a).axisState = AxisState.IDLE ∧
    ((Stepper.dispatch c y.stepper data home port).1.axis a).tickerMotor = none := by
  obtain ⟨es, hrun⟩ := hreach
  obtain ⟨hx, hy, hz⟩ := reachable_axesReachable c es y hrun
  have hgen : GenReachable (y.stepper.axis a) := by
    cases a
    · exact hx
    · exact hy
    · exact hz
  have hidle : (y.stepper.axis a).axisState = AxisState.IDLE := by
    rcases axisState_cases (y.stepper.axis a) with h | h
    · exact h
    · have := ((gen_reachable_inv _ hgen).2 h).2
      rw [hcfg] at this
      cases this
  have htick := ((gen_reachable_inv _ hgen).1 hidle).1
  rw [(dispatch_supported c y.stepper data home port).2.1 hfid]
  have hsame : (Stepper.runStepper c y.stepper data home port).2.hdr.error =
        MsgError.MSG_ERROR_FLOW_NOT_CONFIGURED ∧
      (Stepper.runStepper c y.stepper data home port).1.boardState = y.stepper.boardState ∧
      (Stepper.runStepper c y.stepper data home port).1.axis a = y.stepper.axis a := by
    cases a <;> simp only [Stepper.axis] at hcfg <;>
      simp [Stepper.runStepper, haxis, AxisId.code, AXIS_X, AXIS_Y, AXIS_Z,
        Stepper.switchRunMotor, runMotor_unconfigured _ hcfg, Stepper.comReturn, Reply.hdr,
        Stepper.axis]
  obtain ⟨h1, h2, h3⟩ := hsame
  refine ⟨h1, h2, h3, ?_, ?_⟩
  · rw [h3]; exact hidle
  · rw [h3]; exact htick

/-- C4 fails as stated: after accept, SET_CONFIG(X, `0.01f`), RUN(X) and a client
disconnect, axis X is RUNNING while the board state is WAIT_FOR_CONNECTION, so
not every reachable state has PUMP_RUNNING iff some axis RUNNING. -/
theorem C4_counterexample_disconnect_keeps_axis_running :
    ¬ (∀ y : Sys, Reachable demoConsts y →
        (y.stepper.boardState = BoardState.PUMP_RUNNING ↔ y.stepper.anyAxisRunning)) := by
  intro h
  have e1 : (Stepper.run demoConsts demoDisconnectTrace).map
      (fun y => (y.stepper.AxisX.axisState, y.stepper.boardState)) =
        some (AxisState.RUNNING, BoardState.WAIT_FOR_CONNECTION) := by
    decide
  cases hr : Stepper.run demoConsts demoDisconnectTrace with
  | none =>
      rw [hr] at e1
      cases e1
  | some y =>
      rw [hr] at e1
      simp only [Option.map_some', Option.some.injEq, Prod.mk.injEq] at e1
      have := (h y ⟨demoDisconnectTrace, hr⟩).mpr (Or.inl e1.1)
      rw [e1.2] at this
      cases this

/-- C4 as amended, for runs in which no timer callback preempts a handler (the
runs of `runStep`): in every reachable state a PUMP_RUNNING board has at least
one RUNNING axis; the converse holds at the end of every stretch of a run that
starts in a state where a RUNNING axis means a PUMP_RUNNING board and a
connected client (startup is such a state, and so is every state with no axis
RUNNING) and in which no axis is RUNNING whenever the client disconnects, so
there the board is PUMP_RUNNING iff some axis is RUNNING. From a reachable
state, every step that takes the axes from some RUNNING to none RUNNING sets
the board IDLE, and a step that takes the board from PUMP_RUNNING to IDLE is a
STOP on a valid axis or a homing poll, with some axis RUNNING before and none
after. -/
theorem C4_board_state_follows_axes (c : Consts) (es1 es2 : List Event) (y1 y : Sys)
    (hrun1 : Stepper.run c es1 = some y1) (hrun2 : Stepper.runFrom c y1 es2 = some y) :
    (y.stepper.boardState = BoardState.PUMP_RUNNING → y.stepper.anyAxisRunning) ∧
    (RunningInv y1 → Stepper.quietDisconnects c y1 es2 = true →
      (y.stepper.boardState = BoardState.PUMP_RUNNING ↔ y.stepper.anyAxisRunning)) ∧
    (∀ (e : Event) (y2 : Sys), Stepper.runStep c y e = some y2 →
      (y.stepper.anyAxisRunning → ¬ y2.stepper.anyAxisRunning →
        y2.stepper.boardState = BoardState.IDLE) ∧
      (y.stepper.boardState = BoardState.PUMP_RUNNING →
        y2.stepper.boardState = BoardState.IDLE →
        y.stepper.anyAxisRunning ∧ ¬ y2.stepper.anyAxisRunning ∧
        ((∃ data home port, e = Event.frame data home port ∧
            data.header.fid = FID_STOP_STEPPER ∧ ¬ (data.axis < 0 ∨ data.axis > 2)) ∨
          (∃ home port port2 n, e = Event.stepperTick home port port2 ∧
            y.stepper.tickerStepper = some (TickerCallback.detectFallingEdge, n))))) := by
  have hrun : Stepper.run c (es1 ++ es2) = some y := by
    unfold Stepper.run at hrun1 ⊢
    rw [runFrom_append c es1 es2 _ _ hrun1]
    exact hrun2
  have hinv := reachable_boardInv c (es1 ++ es2) y hrun
  refine ⟨hinv.1, fun hP hq => ⟨hinv.1, fun h => (runFrom_runningInv c es2 y1 y hq hP hrun2 h).1⟩,
    ?_⟩
  intro e y2 hstep
  have key : ∀ s1 : Stepper, Stopped y.stepper s1 →
      (y.stepper.anyAxisRunning → ¬ s1.anyAxisRunning → s1.boardState = BoardState.IDLE) ∧
      (y.stepper.boardState = BoardState.PUMP_RUNNING → s1.boardState = BoardState.IDLE →
        y.stepper.anyAxisRunning ∧ ¬ s1.anyAxisRunning) := by
    intro s1 hs
    refine ⟨fun _ hn => hs.2.2.2.1 ((allAxesIdle_true_iff _).mpr hn), fun hb hb1 => ?_⟩
    refine ⟨hinv.1 hb, fun hany => ?_⟩
    have := hs.2.2.2.2 ((allAxesIdle_false_iff _).mpr hany)
    rw [hb1, hb] at this
    cases this
  have neutral : ∀ s1 : Stepper, Neutral y.stepper s1 →
      (y.stepper.anyAxisRunning → ¬ s1.anyAxisRunning → s1.boardState = BoardState.IDLE) ∧
      (y.stepper.boardState = BoardState.PUMP_RUNNING → s1.boardState = BoardState.IDLE →
        False) := by
    intro s1 hn
    refine ⟨fun h0 h1 => absurd ((anyAxisRunning_of_axisStates _ _ hn.1).mpr h0) h1,
      fun hb hb1 => ?_⟩
    rw [hn.2, hb] at hb1
    cases hb1
  rcases runStep_cases c y y2 e hstep with ⟨_, hph, rfl⟩ | ⟨data, home, port, he, _, rfl⟩ |
    ⟨_, _, rfl⟩ | ⟨axis, s1, _, ht, rfl⟩ | ⟨home, port, port2, n, he, ⟨_, rfl⟩ | ⟨htk, rfl⟩⟩
  · refine ⟨fun h0 h1 => absurd h0 h1, fun hb _ => ?_⟩
    rw [(hinv.2 hph).1] at hb
    cases hb
  · rcases dispatch_summary c y.stepper data home port with hn | hs | ⟨hfid, hax, hs⟩
    · exact ⟨(neutral _ hn).1, fun hb hb1 => ((neutral _ hn).2 hb hb1).elim⟩
    · refine ⟨fun _ h1 => absurd hs.2.1 h1, fun _ hb1 => ?_⟩
      have : (Stepper.dispatch c y.stepper data home port).1.boardState = BoardState.IDLE := hb1
      rw [hs.1] at this
      cases this
    · refine ⟨(key _ hs).1, fun hb hb1 => ?_⟩
      obtain ⟨k1, k2⟩ := (key _ hs).2 hb hb1
      exact ⟨k1, k2, Or.inl ⟨data, home, port, he, hfid, hax⟩⟩
  · exact ⟨fun h0 h1 => absurd h0 h1, fun _ hb1 => (by cases hb1)⟩
  · have hn := (stepTick_summary y.stepper s1 axis ht).1
    exact ⟨(neutral _ hn).1, fun hb hb1 => ((neutral _ hn).2 hb hb1).elim⟩
  · have hn : Neutral y.stepper y.stepper.flipRedLED := ⟨rfl, rfl⟩
    exact ⟨(neutral _ hn).1, fun hb hb1 => ((neutral _ hn).2 hb hb1).elim⟩
  · rcases detectFallingEdge_summary y.stepper home port port2 with hn | hs
    · exact ⟨(neutral _ hn).1, fun hb hb1 => ((neutral _ hn).2 hb hb1).elim⟩
    · refine ⟨(key _ hs).1, fun hb hb1 => ?_⟩
      obtain ⟨k1, k2⟩ := (key _ hs).2 hb hb1
      exact ⟨k1, k2, Or.inr ⟨home, port, port2, n, he, htk⟩⟩

/-- What the amended C4 leaves out, a poll inside a handler: after accept,
SET_CONFIG(X, `0.01f`) and RETURN_HOME(X), axis X is RUNNING with the poll
attached; when RUN(X) is handled and the poll fires with both sensors low
between `AxisX.runMotor()` and `setBoardState(PUMP_RUNNING)`, the poll stops X
and sets the board IDLE, and the handler then sets it PUMP_RUNNING: the board
is PUMP_RUNNING with every axis IDLE. -/
theorem runStepper_poll_race :
    (Stepper.run demoConsts demoHomeTrace).map
        (fun y => (y.stepper.AxisX.axisState, y.stepper.tickerStepper, y.stepper.flag)) =
      some (AxisState.RUNNING, some (TickerCallback.detectFallingEdge, 100),
        HomingMode.HOME) ∧
    (Stepper.run demoConsts demoHomeTrace).map
        (fun y =>
          ((Stepper.runStepperPollAfterRun demoConsts y.stepper
              (mkFrame FID_RUN_STEPPER 0 (CFloat.val 0)) false false false).1.boardState,
            (Stepper.runStepperPollAfterRun demoConsts y.stepper
              (mkFrame FID_RUN_STEPPER 0 (CFloat.val 0)) false false false).1.allAxesIdle)) =
      some (BoardState.PUMP_RUNNING, true) := by
  refine ⟨?_, ?_⟩ <;> decide

/-! ## The theorems at concrete inputs -/

/-- Witness of C2: the period `0.001f` sent with the invalid axis 5 is answered
INVALID_PARAMETER and changes nothing. -/
theorem C2_set_config_rejects_bad_period_witness :
    (Stepper.dispatch demoConsts demoConnected.stepper
      (mkFrame FID_SET_CONFIG 5 (CFloat.val f32_0_001)) true true).2.hdr.error =
        MsgError.MSG_ERROR_INVALID_PARAMETER ∧
    (Stepper.dispatch demoConsts demoConnected.stepper
      (mkFrame FID_SET_CONFIG 5 (CFloat.val f32_0_001)) true true).1 = demoConnected.stepper :=
  have h := C2_set_config_rejects_bad_period demoConsts demoConnected.stepper
    (mkFrame FID_SET_CONFIG 5 (CFloat.val f32_0_001)) true true rfl
    (Or.inl ⟨f32_0_001, rfl, Or.inl (by decide)⟩)
  ⟨h.1, h.2.1⟩

/-- Witness of C3: right after the first accept, RUN on the unconfigured axis Y
is answered FLOW_NOT_CONFIGURED and the board stays IDLE. -/
theorem C3_run_unconfigured_refused_witness :
    (Stepper.dispatch demoConsts demoConnected.stepper (mkFrame FID_RUN_STEPPER 1 (CFloat.val 0))
      true true).2.hdr.error = MsgError.MSG_ERROR_FLOW_NOT_CONFIGURED ∧
    (Stepper.dispatch demoConsts demoConnected.stepper (mkFrame FID_RUN_STEPPER 1 (CFloat.val 0))
      true true).1.boardState = BoardState.IDLE ∧
    (Stepper.dispatch demoConsts demoConnected.stepper (mkFrame FID_RUN_STEPPER 1 (CFloat.val 0))
      true true).1.AxisY.axisState = AxisState.IDLE :=
  have h := C3_run_unconfigured_refused demoConsts demoConnected ⟨[Event.accept], rfl⟩
    (mkFrame FID_RUN_STEPPER 1 (CFloat.val 0)) true true AxisId.Y rfl rfl rfl
  ⟨h.1, h.2.1, h.2.2.2.1⟩

/-- Witness of C4: after a first client connected and left with every axis idle,
and a second one sent SET_CONFIG(X, `0.01f`) and RUN(X), axis X is RUNNING and
the board is PUMP_RUNNING. -/
theorem C4_board_state_follows_axes_witness :
    ∃ y : Sys, Stepper.run demoConsts demoReconnectTrace = some y ∧
      y.stepper.AxisX.axisState = AxisState.RUNNING ∧
      y.stepper.boardState = BoardState.PUMP_RUNNING := by
  have e1 : (Stepper.run demoConsts demoReconnectTrace).map
      (fun y => y.stepper.AxisX.axisState) = some AxisState.RUNNING := by
    decide
  cases hr : Stepper.run demoConsts demoReconnectTrace with
  | none =>
      rw [hr] at e1
      cases e1
  | some y =>
      rw [hr] at e1
      simp only [Option.map_some', Option.some.injEq] at e1
      exact ⟨y, rfl, e1,
        ((C4_board_state_follows_axes demoConsts [] demoReconnectTrace Stepper.boot y rfl
          hr).2.1 runningInv_boot (by decide)).mpr (Or.inl e1)⟩

/-- Witness of C5: identifier 9 is answered NOT_SUPPORTED with the controller
unchanged, and identifier 3 finds the RETURN_HOME row. -/
theorem C5_unsupported_fid_witness :
    (Stepper.dispatch demoConsts demoConnected.stepper (mkFrame 9 0 (CFloat.val 0)) true true).2.hdr.error =
      MsgError.MSG_ERROR_NOT_SUPPORTED ∧
    (Stepper.dispatch demoConsts demoConnected.stepper (mkFrame 9 0 (CFloat.val 0)) true true).1 =
      demoConnected.stepper ∧
    ∃ com, Stepper.getComFromHeader comMessages (mkFrame FID_RETURN_HOME 0 (CFloat.val 0)).header = some com ∧
      com.fid = FID_RETURN_HOME :=
  have h9 := (C5_unsupported_fid demoConsts demoConnected.stepper (mkFrame 9 0 (CFloat.val 0)) true true).2.1
    (by decide)
  have h3 := (C5_unsupported_fid demoConsts demoConnected.stepper (mkFrame FID_RETURN_HOME 0 (CFloat.val 0))
    true true).2.2 (by decide)
  ⟨h9.2.1, h9.2.2, h3.elim fun com hc => ⟨com, hc.1, hc.2.1⟩⟩

/-- Witness of C7: RUN with axis 7 is answered INVALID_AXIS and leaves the three
generators and the board state as they were. -/
theorem C7_invalid_axis_mutates_nothing_witness :
    (Stepper.dispatch demoConsts demoPumpingStepper (mkFrame FID_RUN_STEPPER 7 (CFloat.val 0))
      true true).2.hdr.error = MsgError.MSG_ERROR_INVALID_AXIS ∧
    (Stepper.dispatch demoConsts demoPumpingStepper (mkFrame FID_RUN_STEPPER 7 (CFloat.val 0))
      true true).1.AxisX = demoPumpingStepper.AxisX ∧
    (Stepper.dispatch demoConsts demoPumpingStepper (mkFrame FID_RUN_STEPPER 7 (CFloat.val 0))
      true true).1.boardState = BoardState.PUMP_RUNNING :=
  have h := C7_invalid_axis_mutates_nothing demoConsts demoPumpingStepper
    (mkFrame FID_RUN_STEPPER 7 (CFloat.val 0)) true true (Or.inr (by decide)) (Or.inr (Or.inl rfl))
  ⟨h.1, h.2.1, h.2.2.2.2.1⟩

/-! ## Theorems: the homing poll, the ticker interval and the stored configuration -/

/-- The direction switch on each of the three axis identifiers. -/
theorem setStepperDirection_eq (s : Stepper) (d : Int) :
    s.setStepperDirection AXIS_X d = { s with AxisX := s.AxisX.setMotorDirection d } ∧
    s.setStepperDirection AXIS_Y d = { s with AxisY := s.AxisY.setMotorDirection d } ∧
    s.setStepperDirection AXIS_Z d = { s with AxisZ := s.AxisZ.setMotorDirection d } := by
  refine ⟨?_, ?_, ?_⟩ <;> simp [Stepper.setStepperDirection, AXIS_X, AXIS_Y, AXIS_Z]

/-- The run switch on each of the three axis identifiers. -/
theorem switchRunMotor_eq (s : Stepper) :
    s.switchRunMotor AXIS_X =
      { s with flowConfigured := s.AxisX.runMotor.1, AxisX := s.AxisX.runMotor.2 } ∧
    s.switchRunMotor AXIS_Y =
      { s with flowConfigured := s.AxisY.runMotor.1, AxisY := s.AxisY.runMotor.2 } ∧
    s.switchRunMotor AXIS_Z =
      { s with flowConfigured := s.AxisZ.runMotor.1, AxisZ := s.AxisZ.runMotor.2 } := by
  refine ⟨?_, ?_, ?_⟩ <;> simp [Stepper.switchRunMotor, AXIS_X, AXIS_Y, AXIS_Z]

/-- The stop switch on each of the three axis identifiers. -/
theorem switchStopMotor_eq (s : Stepper) :
    s.switchStopMotor AXIS_X =
      { s with AxisX := s.AxisX.stopMotor.setMotorDirection 0 } ∧
    s.switchStopMotor AXIS_Y =
      { s with AxisY := s.AxisY.stopMotor.setMotorDirection 0 } ∧
    s.switchStopMotor AXIS_Z =
      { s with AxisZ := s.AxisZ.stopMotor.setMotorDirection 0 } := by
  refine ⟨?_, ?_, ?_⟩ <;>
    simp [Stepper.switchStopMotor, Stepper.setStepperDirection, AXIS_X, AXIS_Y, AXIS_Z]

/-- The cached axis state on each of the three axis identifiers. -/
theorem getAxisState_eq (s : Stepper) :
    s.getAxisState AXIS_X = { s with axisState := s.AxisX.axisState } ∧
    s.getAxisState AXIS_Y = { s with axisState := s.AxisY.axisState } ∧
    s.getAxisState AXIS_Z = { s with axisState := s.AxisZ.axisState } := by
  refine ⟨?_, ?_, ?_⟩ <;>
    simp [Stepper.getAxisState, MotorController.getAxisState, AXIS_X, AXIS_Y, AXIS_Z]

/-- A stopped generator with its direction reset. -/
theorem stopMotor_dir0 (m : MotorController) :
    (m.stopMotor.setMotorDirection 0).axisState = AxisState.IDLE ∧
    (m.stopMotor.setMotorDirection 0).step = false ∧
    (m.stopMotor.setMotorDirection 0).dir = false ∧
    (m.stopMotor.setMotorDirection 0).tickerMotor = none ∧
    (m.stopMotor.setMotorDirection 0).stepsPerformed = m.stepsPerformed ∧
    (m.stopMotor.setMotorDirection 0).flowConfigured = m.flowConfigured ∧
    (m.stopMotor.setMotorDirection 0).stepPeriod = m.stepPeriod := by
  simp [MotorController.stopMotor, MotorController.setMotorDirection,
    MotorController.setAxisState]

/-- C11: for every valid axis, configured or not, RETURN_HOME handled while the home
sensor and the port sensor both read low replies OK and leaves the controller
unchanged: no motion state, direction or step count changes, nor the board
state, the homing session or the poll ticker. -/
theorem C11_return_home_at_home_is_noop (c : Consts) (s : Stepper) (data : Frame)
    (a : AxisId) (hfid : data.header.fid = FID_RETURN_HOME) (haxis : data.axis = a.code) :
    (Stepper.dispatch c s data false false).2.hdr.error = MsgError.MSG_OK ∧
    (Stepper.dispatch c s data false false).1 = s ∧
    (∀ b : AxisId,
      ((Stepper.dispatch c s data false false).1.axis b).axisState = (s.axis b).axisState ∧
      ((Stepper.dispatch c s data false false).1.axis b).dir = (s.axis b).dir ∧
      ((Stepper.dispatch c s data false false).1.axis b).stepsPerformed =
        (s.axis b).stepsPerformed) ∧
    (Stepper.dispatch c s data false false).1.boardState = s.boardState ∧
    (Stepper.dispatch c s data false false).1.setMotorSelect = s.setMotorSelect ∧
    (Stepper.dispatch c s data false false).1.flag = s.flag ∧
    (Stepper.dispatch c s data false false).1.positionSignal = s.positionSignal ∧
    (Stepper.dispatch c s data false false).1.tickerStepper = s.tickerStepper := by
  have hv : ¬ (data.axis < 0 ∨ data.axis > 2) := by
    rw [haxis]
    cases a <;> decide
  have hr : Stepper.dispatch c s data false false =
      (s, Stepper.comReturn c data MsgError.MSG_OK) := by
    rw [(dispatch_supported c s data false false).2.2.2.1 hfid]
    unfold Stepper.returnToHome
    rw [if_neg hv]
    rfl
  rw [hr]
  exact ⟨rfl, rfl, fun _ => ⟨rfl, rfl, rfl⟩, rfl, rfl, rfl, rfl, rfl⟩

/-- C12: with a homing session in mode HOME whose target axis is RUNNING, a poll at
which both sensors read low leaves the target axis IDLE with its step line low
and its direction forward, leaves the other axes alone, detaches the poll, and
sets the board state IDLE when all three axes are then IDLE and keeps it
otherwise; a poll at which one of the two sensors reads high changes no
generator, nor the board state or the session, and leaves the poll attached.
In mode HOME each pin is read once, so the level `port2` of a further read of
the port pin plays no part. -/
theorem C12_home_poll (s : Stepper) (a : AxisId) (n : Nat) (port2 : Bool)
    (hflag : s.flag = HomingMode.HOME) (hsel : s.setMotorSelect = a.code)
    (hrun : (s.axis a).axisState = AxisState.RUNNING)
    (htk : s.tickerStepper = some (TickerCallback.detectFallingEdge, n)) :
    (((s.detectFallingEdge false false port2).axis a).axisState = AxisState.IDLE ∧
      ((s.detectFallingEdge false false port2).axis a).step = false ∧
      ((s.detectFallingEdge false false port2).axis a).dir = false ∧
      ((s.detectFallingEdge false false port2).axis a).tickerMotor = none ∧
      (∀ b : AxisId, b ≠ a → (s.detectFallingEdge false false port2).axis b = s.axis b) ∧
      (s.detectFallingEdge false false port2).tickerStepper = none ∧
      ((s.detectFallingEdge false false port2).allAxesIdle = true →
        (s.detectFallingEdge false false port2).boardState = BoardState.IDLE) ∧
      ((s.detectFallingEdge false false port2).allAxesIdle = false →
        (s.detectFallingEdge false false port2).boardState = s.boardState)) ∧
    (∀ home port : Bool, (home = true ∨ port = true) →
      (s.detectFallingEdge home port port2).AxisX = s.AxisX ∧
      (s.detectFallingEdge home port port2).AxisY = s.AxisY ∧
      (s.detectFallingEdge home port port2).AxisZ = s.AxisZ ∧
      (s.detectFallingEdge home port port2).boardState = s.boardState ∧
      (s.detectFallingEdge home port port2).flag = HomingMode.HOME ∧
      (s.detectFallingEdge home port port2).setMotorSelect = s.setMotorSelect ∧
      (s.detectFallingEdge home port port2).tickerStepper =
        some (TickerCallback.detectFallingEdge, n)) := by
  constructor
  · cases a <;> simp only [AxisId.code] at hsel <;> simp only [Stepper.axis] at hrun <;>
      (refine ⟨?_, ?_, ?_, ?_, ?_, ?_, ?_, ?_⟩) <;>
      simp [Stepper.detectFallingEdge, hflag, hsel, hrun, AXIS_RUNNING, Stepper.getAxisState,
        MotorController.getAxisState, Stepper.switchStopMotor, Stepper.setStepperDirection,
        Stepper.allAxesIdle, Stepper.setBoardState, MotorController.stopMotor,
        MotorController.setMotorDirection, MotorController.setAxisState, AXIS_X, AXIS_Y, AXIS_Z,
        Stepper.axis] <;>
      (try split_ifs) <;> (try simp_all [Stepper.axis]) <;>
      (try (intro b hb; cases b <;> simp_all [Stepper.axis]))
  · intro home port hp
    have he : ¬ (home = false ∧ port = false) := by
      rcases hp with h | h <;> simp [h]
    cases a <;> simp only [AxisId.code] at hsel <;> simp only [Stepper.axis] at hrun <;>
      simp [Stepper.detectFallingEdge, hflag, hsel, Stepper.getAxisState,
        MotorController.getAxisState, hrun, AXIS_RUNNING, he, htk, AXIS_X, AXIS_Y, AXIS_Z]

/-- A successful RUN_TO_NEXT arms the poll in mode PORT for its axis and seeds
the previous port level with the level read while the command is handled. -/
theorem runToNext_ok (c : Consts) (s : Stepper) (data : Frame) (home port : Bool)
    (hok : (Stepper.runToNext c s data home port).2.hdr.error = MsgError.MSG_OK) :
    (Stepper.runToNext c s data home port).1.positionSignal = port ∧
    (Stepper.runToNext c s data home port).1.flag = HomingMode.PORT ∧
    (Stepper.runToNext c s data home port).1.setMotorSelect = data.axis ∧
    (Stepper.runToNext c s data home port).1.tickerStepper =
      some (TickerCallback.detectFallingEdge, 100) := by
  unfold Stepper.runToNext at hok ⊢
  by_cases hax : data.axis < 0 ∨ data.axis > 2
  · rw [if_pos hax] at hok
    cases hok
  · rw [if_neg hax] at hok ⊢
    by_cases hf : (!(s.switchRunMotor data.axis).flowConfigured) = true
    · simp only [hf, if_true] at hok
      cases hok
    · simp only [hf, if_false]
      exact ⟨rfl, rfl, rfl, rfl⟩

/-- A successful RUN_TO_PREVIOUS arms the poll in mode PORT for its axis and
seeds the previous port level with the level read while the command is handled. -/
theorem runToPrevious_ok (c : Consts) (s : Stepper) (data : Frame) (home port : Bool)
    (hok : (Stepper.runToPrevious c s data home port).2.hdr.error = MsgError.MSG_OK) :
    (Stepper.runToPrevious c s data home port).1.positionSignal = port ∧
    (Stepper.runToPrevious c s data home port).1.flag = HomingMode.PORT ∧
    (Stepper.runToPrevious c s data home port).1.setMotorSelect = data.axis ∧
    (Stepper.runToPrevious c s data home port).1.tickerStepper =
      some (TickerCallback.detectFallingEdge, 100) := by
  unfold Stepper.runToPrevious at hok ⊢
  by_cases hax : data.axis < 0 ∨ data.axis > 2
  · rw [if_pos hax] at hok
    cases hok
  · rw [if_neg hax] at hok ⊢
    by_cases hf : (!((Stepper.setStepperDirection { s with setMotorSelect := data.axis }
        data.axis 1).switchRunMotor data.axis).flowConfigured) = true
    · simp only [hf, if_true] at hok
      cases hok
    · simp only [hf, if_false]
      refine ⟨rfl, rfl, ?_, rfl⟩
      show ((Stepper.setStepperDirection { s with setMotorSelect := data.axis }
        data.axis 1).switchRunMotor data.axis).setMotorSelect = data.axis
      unfold Stepper.switchRunMotor Stepper.setStepperDirection
      split_ifs <;> rfl

/-- The poll in mode PORT with a RUNNING target axis: it stops the axis (and
detaches) if and only if the previous port level was high and the first read of
the port pin returns low, and it stores what the second read returns. -/
theorem port_poll (s : Stepper) (a : AxisId) (home port port2 : Bool) (n : Nat)
    (hflag : s.flag = HomingMode.PORT) (hsel : s.setMotorSelect = a.code)
    (hrun : (s.axis a).axisState = AxisState.RUNNING)
    (htk : s.tickerStepper = some (TickerCallback.detectFallingEdge, n)) :
    (((s.detectFallingEdge home port port2).axis a).axisState = AxisState.IDLE ↔
      (s.positionSignal = true ∧ port = false)) ∧
    ((s.detectFallingEdge home port port2).tickerStepper = none ↔
      (s.positionSignal = true ∧ port = false)) ∧
    (s.detectFallingEdge home port port2).positionSignal = port2 := by
  refine ⟨?_, ?_, ?_⟩
  · cases a <;> simp only [AxisId.code] at hsel <;> simp only [Stepper.axis] at hrun <;>
      by_cases hc : s.positionSignal = true ∧ port = false <;>
      simp [Stepper.detectFallingEdge, hflag, hsel, hrun, hc, AXIS_RUNNING,
        Stepper.getAxisState, MotorController.getAxisState, Stepper.switchStopMotor,
        Stepper.setStepperDirection, Stepper.allAxesIdle, Stepper.setBoardState,
        MotorController.stopMotor, MotorController.setMotorDirection,
        MotorController.setAxisState, AXIS_X, AXIS_Y, AXIS_Z, Stepper.axis] <;>
      (try split_ifs) <;> (try simp_all [Stepper.axis])
  · cases a <;> simp only [AxisId.code] at hsel <;> simp only [Stepper.axis] at hrun <;>
      by_cases hc : s.positionSignal = true ∧ port = false <;>
      simp [Stepper.detectFallingEdge, hflag, hsel, hrun, hc, htk, AXIS_RUNNING,
        Stepper.getAxisState, MotorController.getAxisState, Stepper.switchStopMotor,
        Stepper.setStepperDirection, Stepper.allAxesIdle, Stepper.setBoardState,
        MotorController.stopMotor, MotorController.setMotorDirection,
        MotorController.setAxisState, AXIS_X, AXIS_Y, AXIS_Z, Stepper.axis] <;>
      (try split_ifs) <;> (try simp_all [Stepper.axis])
  · cases a <;> simp only [AxisId.code] at hsel <;> simp only [Stepper.axis] at hrun <;>
      by_cases hc : s.positionSignal = true ∧ port = false <;>
      simp [Stepper.detectFallingEdge, hflag, hsel, hrun, hc, AXIS_RUNNING,
        Stepper.getAxisState, MotorController.getAxisState, Stepper.switchStopMotor,
        Stepper.setStepperDirection, Stepper.allAxesIdle, Stepper.setBoardState,
        MotorController.stopMotor, MotorController.setMotorDirection,
        MotorController.setAxisState, AXIS_X, AXIS_Y, AXIS_Z, Stepper.axis] <;>
      (try split_ifs) <;> (try simp_all [Stepper.axis])

/-- RUN_TO_NEXT and RUN_TO_PREVIOUS on a valid axis whose generator is configured
reply OK, set mode PORT for the axis, seed the previous port level with the
level read while the command is handled and attach the poll. -/
theorem port_seed (c : Consts) (s : Stepper) (data : Frame) (home port : Bool) (a : AxisId)
    (haxis : data.axis = a.code) (hcfg : (s.axis a).flowConfigured = true)
    (hfid : data.header.fid = FID_RUN_TO_NEXT ∨ data.header.fid = FID_RUN_TO_PREVIOUS) :
    (Stepper.dispatch c s data home port).2.hdr.error = MsgError.MSG_OK ∧
    (Stepper.dispatch c s data home port).1.positionSignal = port ∧
    (Stepper.dispatch c s data home port).1.flag = HomingMode.PORT ∧
    (Stepper.dispatch c s data home port).1.setMotorSelect = data.axis ∧
    (Stepper.dispatch c s data home port).1.tickerStepper =
      some (TickerCallback.detectFallingEdge, 100) := by
  rcases hfid with h | h
  · rw [(dispatch_supported c s data home port).2.2.2.2.1 h]
    have hok : (Stepper.runToNext c s data home port).2.hdr.error = MsgError.MSG_OK := by
      cases a <;> simp only [Stepper.axis] at hcfg <;>
        simp [Stepper.runToNext, haxis, AxisId.code, AXIS_X, AXIS_Y, AXIS_Z,
          Stepper.switchRunMotor, (runMotor_config _).1, hcfg, Stepper.comReturn, Reply.hdr,
          Stepper.setBoardState]
    exact ⟨hok, runToNext_ok c s data home port hok⟩
  · rw [(dispatch_supported c s data home port).2.2.2.2.2.1 h]
    have hok : (Stepper.runToPrevious c s data home port).2.hdr.error = MsgError.MSG_OK := by
      cases a <;> simp only [Stepper.axis] at hcfg <;>
        simp [Stepper.runToPrevious, haxis, AxisId.code, AXIS_X, AXIS_Y, AXIS_Z,
          Stepper.switchRunMotor, Stepper.setStepperDirection, (runMotor_config _).1, hcfg,
          MotorController.setMotorDirection, Stepper.comReturn, Reply.hdr,
          Stepper.setBoardState]
    exact ⟨hok, runToPrevious_ok c s data home port hok⟩

/-- C13 (the code at a failing input): after accept, SET_CONFIG(X, `0.01f`) and
RUN_TO_NEXT(X) with the port pin high, the session is in mode PORT on X with the
previous port level high. At a poll whose first read of the port pin returns
high and whose second read returns low no edge is detected and the low level is
stored, so the level stored is not the level tested; at the next poll the pin
reads low both times and no edge is detected either: axis X is still RUNNING
with the poll attached, the fall of the pin having gone unseen. -/
theorem C13_port_pin_read_twice :
    (Stepper.run demoConsts demoHomingTrace).map
        (fun y => (y.stepper.flag, y.stepper.positionSignal, y.stepper.AxisX.axisState)) =
      some (HomingMode.PORT, true, AxisState.RUNNING) ∧
    (Stepper.run demoConsts (demoHomingTrace ++ [Event.stepperTick true true false])).map
        (fun y => (y.stepper.positionSignal, y.stepper.AxisX.axisState,
          y.stepper.tickerStepper)) =
      some (false, AxisState.RUNNING, some (TickerCallback.detectFallingEdge, 100)) ∧
    (Stepper.run demoConsts
        (demoHomingTrace ++
          [Event.stepperTick true true false, Event.stepperTick true false false])).map
        (fun y => (y.stepper.positionSignal, y.stepper.AxisX.axisState,
          y.stepper.tickerStepper)) =
      some (false, AxisState.RUNNING, some (TickerCallback.detectFallingEdge, 100)) := by
  refine ⟨?_, ?_, ?_⟩ <;> decide

/-- In every generator state reached through the constructor, configure,
set-direction, run, stop and the timer callback, each running to its end before
the next, the step ticker is attached if and only if the motion state is
RUNNING, and the output line is low whenever the motion state is IDLE. -/
theorem gen_ticker_iff_running (m : MotorController) (h : GenReachable m) :
    (m.tickerMotor.isSome = true ↔ m.axisState = AxisState.RUNNING) ∧
    (m.axisState = AxisState.IDLE → m.step = false) := by
  obtain ⟨h1, h2⟩ := gen_reachable_inv m h
  refine ⟨⟨fun ht => ?_, fun hr => (h2 hr).1⟩, fun hi => (h1 hi).2⟩
  rcases axisState_cases m with hs | hs
  · rw [(h1 hs).1] at ht
    cases ht
  · exact hs

/-- On a configured IDLE generator `runMotor` is `runMotorAttach` followed by
`setAxisState(RUNNING)`. -/
theorem runMotor_split (m : MotorController) (hc : m.flowConfigured = true)
    (hi : m.axisState = AxisState.IDLE) :
    m.runMotor = (true, m.runMotorAttach.setAxisState AxisState.RUNNING) := by
  simp [MotorController.runMotor, MotorController.runMotorAttach, hc, hi]

/-- With axis X configured and IDLE, `runStepper` on axis 0 is
`runStepperXPreempted` without the poll in the middle: `runMotorAttach`,
`setAxisState(RUNNING)`, then the rest of the handler. -/
theorem runStepper_split (c : Consts) (s : Stepper) (data : Frame) (home port : Bool)
    (hax : data.axis = 0) (hc : s.AxisX.flowConfigured = true)
    (hi : s.AxisX.axisState = AxisState.IDLE) :
    Stepper.runStepper c s data home port =
      ({ (Stepper.setBoardState
            { s with
              flowConfigured := true
              AxisX := s.AxisX.runMotorAttach.setAxisState AxisState.RUNNING }
            BoardState.PUMP_RUNNING) with axisStarted := true },
        Stepper.comReturn c data MsgError.MSG_OK) := by
  simp [Stepper.runStepper, hax, Stepper.switchRunMotor, AXIS_X, runMotor_split _ hc hi]

/-- C16 (the code at a failing input): after accept, SET_CONFIG(X), SET_CONFIG(Y),
RUN(Y), RETURN_HOME(X) and STOP(X), axis X is configured and IDLE, Y is RUNNING and
the homing poll is still attached for X in mode HOME. When RUN(X) is then handled
and the poll fires inside `AxisX.runMotor()`, between the `attach` and the
`setAxisState(RUNNING)`, with both sensors low, the poll detaches the step
ticker of X and the handler goes on to set X RUNNING: X is RUNNING with its
step ticker detached. Handled without the poll in between, the same command
leaves X RUNNING with its ticker attached. -/
theorem C16_running_with_ticker_detached :
    (Stepper.run demoConsts demoRaceTrace).map
        (fun y => (y.stepper.AxisX.flowConfigured, y.stepper.AxisX.axisState,
          y.stepper.AxisY.axisState)) =
      some (true, AxisState.IDLE, AxisState.RUNNING) ∧
    (Stepper.run demoConsts demoRaceTrace).map
        (fun y => (y.stepper.tickerStepper, y.stepper.setMotorSelect, y.stepper.flag)) =
      some (some (TickerCallback.detectFallingEdge, 100), 0, HomingMode.HOME) ∧
    (Stepper.run demoConsts demoRaceTrace).map
        (fun y =>
          ((Stepper.runStepperXPreempted demoConsts y.stepper
              (mkFrame FID_RUN_STEPPER 0 (CFloat.val 0)) false false false).1.AxisX.axisState,
            (Stepper.runStepperXPreempted demoConsts y.stepper
              (mkFrame FID_RUN_STEPPER 0 (CFloat.val 0)) false false false).1.AxisX.tickerMotor,
            (Stepper.runStepperXPreempted demoConsts y.stepper
              (mkFrame FID_RUN_STEPPER 0 (CFloat.val 0)) false false false).2.hdr.error)) =
      some (AxisState.RUNNING, none, MsgError.MSG_OK) ∧
    (Stepper.run demoConsts demoRaceTrace).map
        (fun y =>
          ((Stepper.runStepper demoConsts y.stepper
              (mkFrame FID_RUN_STEPPER 0 (CFloat.val 0)) false false).1.AxisX.axisState,
            (Stepper.runStepper demoConsts y.stepper
              (mkFrame FID_RUN_STEPPER 0 (CFloat.val 0)) false false).1.AxisX.tickerMotor.isSome)) =
      some (AxisState.RUNNING, true) := by
  refine ⟨?_, ?_, ?_, ?_⟩ <;> decide

/-- C15 fails as stated: a generator configured with the period `0.005f` is run
with its ticker attached at 2 ms, and 2 ms is half of neither `0.005f` nor
0.005 s. -/
theorem C15_counterexample_interval_truncated :
    (MotorController.new.setFlowConfig (CFloat.val f32_0_005)).runMotor.2.tickerMotor =
      some (some 2) ∧
    ((2 : ℚ) / 1000 ≠ f32_0_005 / 2) ∧ ((2 : ℚ) / 1000 ≠ (5 / 1000) / 2) := by
  refine ⟨?_, ?_, ?_⟩
  · have h := (runMotor_idle (MotorController.new.setFlowConfig (CFloat.val f32_0_005))
      rfl rfl).2.2.1
    rw [h]
    have e : (MotorController.new.setFlowConfig (CFloat.val f32_0_005)).stepPeriod =
        CFloat.val f32_0_005 := rfl
    rw [e, interval_0_005]
  · rw [f32_literals.2.2.2.1]
    norm_num
  · norm_num

/-- C15 as amended: for a configured period `p` with `0.0027f < p ≤ 0.27f` (the
bounds being the binary32 values of the two literals), `runMotor` on an IDLE
generator attaches the step callback at a whole number of milliseconds: the
binary32 value of `p * 1000 / 2.0f`, each operation rounded, truncated to an
`int`. The conversion is defined, the interval is between 1 and 135 ms, and the
float it truncates is within a relative `2 ^ -22` of `p * 500`, so the interval
is less than 1 ms below that float and not above it. -/
theorem C15_interval_is_whole_milliseconds (m : MotorController) (p : ℚ)
    (hc : m.flowConfigured = true) (hi : m.axisState = AxisState.IDLE)
    (hper : m.stepPeriod = CFloat.val p) (hlo : f32_0_0027 < p) (hhi : p ≤ f32_0_27) :
    m.runMotor.2.tickerMotor =
      some (CFloat.toInt
        (CFloat.div (CFloat.mul (CFloat.val p) (CFloat.val 1000)) (CFloat.val 2))) ∧
    ∃ r : ℚ,
      CFloat.div (CFloat.mul (CFloat.val p) (CFloat.val 1000)) (CFloat.val 2) = CFloat.val r ∧
      p * 500 * (1 - 1 / 2 ^ 22) ≤ r ∧ r ≤ p * 500 * (1 + 1 / 2 ^ 22) ∧
      m.runMotor.2.tickerMotor = some (some ⌊r⌋) ∧
      1 ≤ ⌊r⌋ ∧ ⌊r⌋ ≤ 135 ∧ ((⌊r⌋ : ℤ) : ℚ) ≤ r ∧ r < ((⌊r⌋ : ℤ) : ℚ) + 1 := by
  have ht := (runMotor_idle m hc hi).2.2.1
  rw [hper] at ht
  obtain ⟨r, e, l, u, t, f1, f2⟩ := interval_in_range p hlo hhi
  refine ⟨ht, r, e, l, u, ?_, f1, f2, Int.floor_le r, Int.lt_floor_add_one r⟩
  rw [ht, e, t]

/-- A generator keeps its own configuration. -/
theorem axisKeep_refl (m : MotorController) : AxisKeep m m :=
  ⟨rfl, rfl, Or.inl rfl⟩

/-- A controller keeps the configuration of its generators. -/
theorem axesKeep_refl (s : Stepper) : AxesKeep s s :=
  ⟨axisKeep_refl _, axisKeep_refl _, axisKeep_refl _⟩

/-- Keeping the configuration composes. -/
theorem axisKeep_trans {m m1 m2 : MotorController} (h1 : AxisKeep m m1) (h2 : AxisKeep m1 m2) :
    AxisKeep m m2 := by
  obtain ⟨a1, a2, a3⟩ := h1
  obtain ⟨b1, b2, b3⟩ := h2
  refine ⟨b1.trans a1, b2.trans a2, ?_⟩
  rcases b3 with b3 | b3 | b3
  · rcases a3 with a3 | a3 | a3
    · exact Or.inl (b3.trans a3)
    · exact Or.inr (Or.inl (b3.trans a3))
    · exact Or.inr (Or.inr (b1.trans a3))
  · exact Or.inr (Or.inl b3)
  · exact Or.inr (Or.inr b3)

/-- Keeping the configuration of the three generators composes. -/
theorem axesKeep_trans {s s1 s2 : Stepper} (h1 : AxesKeep s s1) (h2 : AxesKeep s1 s2) :
    AxesKeep s s2 :=
  ⟨axisKeep_trans h1.1 h2.1, axisKeep_trans h1.2.1 h2.2.1, axisKeep_trans h1.2.2 h2.2.2⟩

/-- The configuration invariant survives a step that keeps the configuration. -/
theorem axisKeep_inv {m m1 : MotorController} (h : AxisKeep m m1) (hi : AxisCfgInv m) :
    AxisCfgInv m1 := by
  obtain ⟨a1, a2, a3⟩ := h
  obtain ⟨i1, i2⟩ := hi
  constructor
  · intro hc
    rcases a3 with a3 | a3 | a3
    · rw [a3]; exact i1 (a1 ▸ hc)
    · exact a3
    · rw [hc] at a3; cases a3
  · intro hc
    rw [a2]
    exact i2 (a1 ▸ hc)

/-- The configuration invariant of the three generators survives a step that keeps their configuration. -/
theorem axesKeep_inv {s s1 : Stepper} (h : AxesKeep s s1) (hi : AxesCfgInv s) :
    AxesCfgInv s1 :=
  ⟨axisKeep_inv h.1 hi.1, axisKeep_inv h.2.1 hi.2.1, axisKeep_inv h.2.2 hi.2.2⟩

/-- Running a generator keeps its configuration. -/
theorem runMotor_keep (m : MotorController) : AxisKeep m m.runMotor.2 :=
  ⟨(runMotor_config m).2.1, (runMotor_config m).2.2.1, Or.inl (runMotor_config m).2.2.2⟩

/-- Stopping a generator and turning it forward keeps its configuration. -/
theorem stopMotor_keep (m : MotorController) : AxisKeep m (m.stopMotor.setMotorDirection 0) :=
  ⟨rfl, rfl, Or.inr (Or.inl (by simp [MotorController.setMotorDirection]))⟩

/-- Turning a generator forward keeps its configuration. -/
theorem setMotorDirection0_keep (m : MotorController) : AxisKeep m (m.setMotorDirection 0) :=
  ⟨rfl, rfl, Or.inr (Or.inl (by simp [MotorController.setMotorDirection]))⟩

/-- The step callback keeps the configuration. -/
theorem flipStepPin_keep (m : MotorController) : AxisKeep m m.flipStepPin :=
  ⟨(flipStepPin_frame m).2.2.2.1, (flipStepPin_frame m).2.2.1, Or.inl (flipStepPin_frame m).2.2.2.2⟩

/-- The direction switch to forward keeps the configuration of the generators. -/
theorem setStepperDirection0_keep (s : Stepper) (axis : Int) :
    AxesKeep s (s.setStepperDirection axis 0) := by
  unfold Stepper.setStepperDirection
  split_ifs
  · exact ⟨setMotorDirection0_keep _, axisKeep_refl _, axisKeep_refl _⟩
  · exact ⟨axisKeep_refl _, setMotorDirection0_keep _, axisKeep_refl _⟩
  · exact ⟨axisKeep_refl _, axisKeep_refl _, setMotorDirection0_keep _⟩
  · exact axesKeep_refl _

/-- The run switch keeps the configuration of the generators. -/
theorem switchRunMotor_keep (s : Stepper) (axis : Int) :
    AxesKeep s (s.switchRunMotor axis) := by
  unfold Stepper.switchRunMotor
  split_ifs
  · exact ⟨runMotor_keep _, axisKeep_refl _, axisKeep_refl _⟩
  · exact ⟨axisKeep_refl _, runMotor_keep _, axisKeep_refl _⟩
  · exact ⟨axisKeep_refl _, axisKeep_refl _, runMotor_keep _⟩
  · exact axesKeep_refl _

/-- The stop switch keeps the configuration of the generators. -/
theorem switchStopMotor_keep (s : Stepper) (axis : Int) :
    AxesKeep s (s.switchStopMotor axis) := by
  unfold Stepper.switchStopMotor Stepper.setStepperDirection
  split_ifs <;>
    first
      | exact ⟨stopMotor_keep _, axisKeep_refl _, axisKeep_refl _⟩
      | exact ⟨axisKeep_refl _, stopMotor_keep _, axisKeep_refl _⟩
      | exact ⟨axisKeep_refl _, axisKeep_refl _, stopMotor_keep _⟩
      | exact axesKeep_refl _

/-- A reversed generator that is then run: refused and turned forward again, or
running and configured. -/
theorem reverse_run_axis (m : MotorController) :
    ((m.setMotorDirection 1).runMotor.1 = false →
      AxisKeep m ((m.setMotorDirection 1).runMotor.2.setMotorDirection 0)) ∧
    ((m.setMotorDirection 1).runMotor.1 = true →
      AxisKeep m (m.setMotorDirection 1).runMotor.2) := by
  obtain ⟨c1, c2, c3, _⟩ := runMotor_config (m.setMotorDirection 1)
  constructor
  · intro _
    exact ⟨c2, c3, Or.inr (Or.inl (by simp [MotorController.setMotorDirection]))⟩
  · intro h
    refine ⟨c2, c3, Or.inr (Or.inr ?_)⟩
    rw [c2, ← c1]
    exact h

/-- The common part of `returnToHome` and `runToPrevious` on a valid axis, seen
through the configuration of the generators. -/
theorem reverse_run_keep (s : Stepper) (axis : Int) (hax : ¬ (axis < 0 ∨ axis > 2)) :
    (((Stepper.setStepperDirection { s with setMotorSelect := axis } axis
        1).switchRunMotor axis).flowConfigured = false →
      AxesKeep s
        (Stepper.setStepperDirection
          ((Stepper.setStepperDirection { s with setMotorSelect := axis } axis
            1).switchRunMotor axis)
          ((Stepper.setStepperDirection { s with setMotorSelect := axis } axis
            1).switchRunMotor axis).setMotorSelect 0)) ∧
    (((Stepper.setStepperDirection { s with setMotorSelect := axis } axis
        1).switchRunMotor axis).flowConfigured = true →
      AxesKeep s
        ((Stepper.setStepperDirection { s with setMotorSelect := axis } axis
          1).switchRunMotor axis)) := by
  rcases valid_axis axis hax with ha | ha | ha <;> subst ha
  · obtain ⟨r1, r2⟩ := reverse_run_axis s.AxisX
    constructor <;> intro h <;>
      simp only [Stepper.setStepperDirection, Stepper.switchRunMotor, AXIS_X, AXIS_Y, AXIS_Z,
        if_true] at h ⊢
    · exact ⟨r1 h, axisKeep_refl _, axisKeep_refl _⟩
    · exact ⟨r2 h, axisKeep_refl _, axisKeep_refl _⟩
  · obtain ⟨r1, r2⟩ := reverse_run_axis s.AxisY
    constructor <;> intro h <;>
      simp [Stepper.setStepperDirection, Stepper.switchRunMotor, AXIS_X, AXIS_Y, AXIS_Z] at h ⊢
    · exact ⟨axisKeep_refl _, r1 h, axisKeep_refl _⟩
    · exact ⟨axisKeep_refl _, r2 h, axisKeep_refl _⟩
  · obtain ⟨r1, r2⟩ := reverse_run_axis s.AxisZ
    constructor <;> intro h <;>
      simp [Stepper.setStepperDirection, Stepper.switchRunMotor, AXIS_X, AXIS_Y, AXIS_Z] at h ⊢
    · exact ⟨axisKeep_refl _, axisKeep_refl _, r1 h⟩
    · exact ⟨axisKeep_refl _, axisKeep_refl _, r2 h⟩

/-- The handler `getStatus` keeps the configuration of the generators. -/
theorem getStatus_keep (c : Consts) (s : Stepper) (data : Frame) (home port : Bool) :
    AxesKeep s (Stepper.getStatus c s data home port).1 := by
  unfold Stepper.getStatus Stepper.getAxisState
  split_ifs <;> exact axesKeep_refl _

/-- The handler `runStepper` keeps the configuration of the generators. -/
theorem runStepper_keep (c : Consts) (s : Stepper) (data : Frame) (home port : Bool) :
    AxesKeep s (Stepper.runStepper c s data home port).1 := by
  unfold Stepper.runStepper
  simp only []
  split_ifs <;>
    first
      | exact axesKeep_refl _
      | exact switchRunMotor_keep _ _

/-- The handler `runToNext` keeps the configuration of the generators. -/
theorem runToNext_keep (c : Consts) (s : Stepper) (data : Frame) (home port : Bool) :
    AxesKeep s (Stepper.runToNext c s data home port).1 := by
  unfold Stepper.runToNext
  simp only []
  split_ifs <;>
    first
      | exact axesKeep_refl _
      | exact switchRunMotor_keep _ _

/-- The handler `stopStepper` keeps the configuration of the generators. -/
theorem stopStepper_keep (c : Consts) (s : Stepper) (data : Frame) (home port : Bool) :
    AxesKeep s (Stepper.stopStepper c s data home port).1 := by
  unfold Stepper.stopStepper
  simp only []
  split_ifs <;>
    first
      | exact axesKeep_refl _
      | exact switchStopMotor_keep _ _

/-- The handler `returnToHome` keeps the configuration of the generators. -/
theorem returnToHome_keep (c : Consts) (s : Stepper) (data : Frame) (home port : Bool) :
    AxesKeep s (Stepper.returnToHome c s data home port).1 := by
  unfold Stepper.returnToHome
  by_cases hax : data.axis < 0 ∨ data.axis > 2
  · rw [if_pos hax]
    exact axesKeep_refl _
  · rw [if_neg hax]
    by_cases hh : (!(home == false && port == false)) = true
    · rw [if_pos hh]
      obtain ⟨r1, r2⟩ := reverse_run_keep s data.axis hax
      cases hf : ((Stepper.setStepperDirection { s with setMotorSelect := data.axis } data.axis
          1).switchRunMotor data.axis).flowConfigured with
      | false =>
          simp only [hf, Bool.not_false, if_true]
          exact r1 hf
      | true =>
          simp only [hf, Bool.not_true, Bool.false_eq_true, if_false]
          exact r2 hf
    · rw [if_neg hh]
      exact axesKeep_refl _

/-- The handler `runToPrevious` keeps the configuration of the generators. -/
theorem runToPrevious_keep (c : Consts) (s : Stepper) (data : Frame) (home port : Bool) :
    AxesKeep s (Stepper.runToPrevious c s data home port).1 := by
  unfold Stepper.runToPrevious
  by_cases hax : data.axis < 0 ∨ data.axis > 2
  · rw [if_pos hax]
    exact axesKeep_refl _
  · rw [if_neg hax]
    obtain ⟨r1, r2⟩ := reverse_run_keep s data.axis hax
    cases hf : ((Stepper.setStepperDirection { s with setMotorSelect := data.axis } data.axis
        1).switchRunMotor data.axis).flowConfigured with
    | false =>
        simp only [hf, Bool.not_false, if_true]
        exact r1 hf
    | true =>
        simp only [hf, Bool.not_true, Bool.false_eq_true, if_false]
        exact r2 hf

/-- The homing poll keeps the configuration of the generators. -/
theorem detectFallingEdge_keep (s : Stepper) (home port port2 : Bool) :
    AxesKeep s (s.detectFallingEdge home port port2) := by
  unfold Stepper.detectFallingEdge
  cases s.flag <;> simp only [] <;> unfold Stepper.getAxisState <;> split_ifs <;>
    first
      | exact axesKeep_refl _
      | exact switchStopMotor_keep _ _

/-- A period that passes the guard of `setMotorConfig` is NaN or in range. -/
theorem guard_passed (x : CFloat)
    (h : ¬ ((CFloat.le x (CFloat.val f32_0_0027) ||
        CFloat.gt x (CFloat.val f32_0_27)) = true)) :
    x = CFloat.nan ∨ ∃ p : ℚ, x = CFloat.val p ∧ f32_0_0027 < p ∧ p ≤ f32_0_27 := by
  cases x with
  | nan => exact Or.inl rfl
  | inf neg => exact absurd ((setMotorConfig_guard (CFloat.inf neg)).2.1 neg rfl) h
  | val p =>
      right
      have := (setMotorConfig_guard (CFloat.val p)).2.2 p rfl
      rw [this] at h
      push_neg at h
      exact ⟨p, rfl, h.1, h.2⟩

/-- A generator configured with a period that passed the guard satisfies the invariant. -/
theorem setFlowConfig_inv (m : MotorController) (x : CFloat)
    (h : x = CFloat.nan ∨ ∃ p : ℚ, x = CFloat.val p ∧ f32_0_0027 < p ∧ p ≤ f32_0_27) :
    AxisCfgInv (m.setFlowConfig x) :=
  ⟨fun hc => (by cases hc), fun _ => h⟩

/-- The handler `setMotorConfig` keeps the configuration invariant. -/
theorem setMotorConfig_inv (c : Consts) (s : Stepper) (data : Frame) (home port : Bool)
    (hi : AxesCfgInv s) : AxesCfgInv (Stepper.setMotorConfig c s data home port).1 := by
  obtain ⟨hx, hy, hz⟩ := hi
  unfold Stepper.setMotorConfig
  split_ifs with hg hax h1 h2 h3
  · exact ⟨hx, hy, hz⟩
  · exact ⟨hx, hy, hz⟩
  · exact ⟨setFlowConfig_inv _ _ (guard_passed _ hg), hy, hz⟩
  · exact ⟨hx, setFlowConfig_inv _ _ (guard_passed _ hg), hz⟩
  · exact ⟨hx, hy, setFlowConfig_inv _ _ (guard_passed _ hg)⟩
  · exact ⟨hx, hy, hz⟩

/-- Every dispatched frame keeps the configuration invariant. -/
theorem dispatch_inv (c : Consts) (s : Stepper) (data : Frame) (home port : Bool)
    (hi : AxesCfgInv s) : AxesCfgInv (Stepper.dispatch c s data home port).1 := by
  obtain ⟨d0, d1, d2, d3, d4, d5, d6, d7⟩ := dispatch_supported c s data home port
  by_cases h8 : 8 ≤ data.header.fid
  · rw [dispatch_unsupported c s data home port h8]
    exact hi
  · have h7 : data.header.fid ≤ 7 := by omega
    obtain ⟨n, hn⟩ : ∃ n, data.header.fid = n := ⟨_, rfl⟩
    rw [hn] at h7
    interval_cases n
    · rw [d0 hn]; exact axesKeep_inv (getStatus_keep c s data home port) hi
    · rw [d1 hn]; exact axesKeep_inv (runStepper_keep c s data home port) hi
    · rw [d2 hn]; exact axesKeep_inv (stopStepper_keep c s data home port) hi
    · rw [d3 hn]; exact axesKeep_inv (returnToHome_keep c s data home port) hi
    · rw [d4 hn]; exact axesKeep_inv (runToNext_keep c s data home port) hi
    · rw [d5 hn]; exact axesKeep_inv (runToPrevious_keep c s data home port) hi
    · rw [d6 hn]; exact hi
    · rw [d7 hn]; exact setMotorConfig_inv c s data home port hi

/-- A step-timer callback keeps the configuration invariant. -/
theorem stepTick_inv (s s1 : Stepper) (axis : AxisId) (h : Stepper.stepTick s axis = some s1)
    (hi : AxesCfgInv s) : AxesCfgInv s1 := by
  cases axis <;> simp only [Stepper.stepTick] at h <;> split_ifs at h <;>
    simp only [Option.some.injEq] at h <;> subst h
  · exact ⟨axisKeep_inv (flipStepPin_keep _) hi.1, hi.2.1, hi.2.2⟩
  · exact ⟨hi.1, axisKeep_inv (flipStepPin_keep _) hi.2.1, hi.2.2⟩
  · exact ⟨hi.1, hi.2.1, axisKeep_inv (flipStepPin_keep _) hi.2.2⟩

/-- Every step of the main loop keeps the configuration invariant. -/
theorem axesCfgInv_step (c : Consts) (y y1 : Sys) (e : Event)
    (hP : AxesCfgInv y.stepper) (h : Stepper.runStep c y e = some y1) :
    AxesCfgInv y1.stepper := by
  rcases runStep_cases c y y1 e h with ⟨_, _, rfl⟩ | ⟨data, home, port, _, hph, rfl⟩ |
    ⟨_, _, rfl⟩ | ⟨axis, s1, _, ht, rfl⟩ | ⟨home, port, port2, n, _, ⟨_, rfl⟩ | ⟨htk, rfl⟩⟩
  · exact hP
  · exact dispatch_inv c y.stepper data home port hP
  · exact hP
  · exact stepTick_inv y.stepper s1 axis ht hP
  · exact hP
  · exact axesKeep_inv (detectFallingEdge_keep y.stepper home port port2) hP

/-- The configuration invariant holds at startup. -/
theorem axesCfgInv_boot : AxesCfgInv Stepper.boot.stepper := by
  refine ⟨⟨fun _ => rfl, fun h => ?_⟩, ⟨fun _ => rfl, fun h => ?_⟩, ⟨fun _ => rfl, fun h => ?_⟩⟩ <;>
    cases h

/-- In every reachable state an unconfigured generator points forward and a
configured one holds NaN or a period above `0.0027f` and at most `0.27f`. -/
theorem reachable_axesCfgInv (c : Consts) (es : List Event) (y : Sys)
    (h : Stepper.run c es = some y) : AxesCfgInv y.stepper :=
  runFrom_invariant c (fun y => AxesCfgInv y.stepper) (fun _ => True)
    (fun y e y1 _ hP hs => axesCfgInv_step c y y1 e hP hs) es Stepper.boot y
    (fun _ _ => trivial) axesCfgInv_boot h

/-! ## Theorems: refused homing commands and the code at failing inputs -/

/-- An unconfigured generator that points forward comes back unchanged from
being reversed, run and turned forward again. -/
theorem reverse_run_unconfigured (m : MotorController) (hc : m.flowConfigured = false)
    (hd : m.dir = false) :
    (m.setMotorDirection 1).runMotor.1 = false ∧
    (m.setMotorDirection 1).runMotor.2.setMotorDirection 0 = m := by
  have h : (m.setMotorDirection 1).runMotor = (false, m.setMotorDirection 1) :=
    runMotor_unconfigured _ hc
  rw [h]
  refine ⟨rfl, ?_⟩
  cases m
  simp only [MotorController.setMotorDirection] at hd ⊢
  simp [hd]

/-- C14: in every reachable controller state, for a valid axis that is not
configured, RETURN_HOME (when not already at home) and RUN_TO_PREVIOUS reply
FLOW_NOT_CONFIGURED and leave the generator of the axis as it was: its
direction is forward as before the command, its motion state is IDLE, and the
board state is unchanged. -/
theorem C14_unconfigured_homing_refused (c : Consts) (y : Sys) (hreach : Reachable c y)
    (data : Frame) (home port : Bool) (a : AxisId) (haxis : data.axis = a.code)
    (hcfg : (y.stepper.axis a).flowConfigured = false)
    (hcmd : (data.header.fid = FID_RETURN_HOME ∧ ¬ (home = false ∧ port = false)) ∨
      data.header.fid = FID_RUN_TO_PREVIOUS) :
    (Stepper.dispatch c y.stepper data home port).2.hdr.error =
      MsgError.MSG_ERROR_FLOW_NOT_CONFIGURED ∧
    ((Stepper.dispatch c y.stepper data home port).1.axis a).dir = (y.stepper.axis a).dir ∧
    ((Stepper.dispatch c y.stepper data home port).1.axis a).dir = false ∧
    ((Stepper.dispatch c y.stepper data home port).1.axis a).axisState = AxisState.IDLE ∧
    (Stepper.dispatch c y.stepper data home port).1.axis a = y.stepper.axis a ∧
    (Stepper.dispatch c y.stepper data home port).1.boardState = y.stepper.boardState := by
  obtain ⟨es, hrun⟩ := hreach
  obtain ⟨hx, hy, hz⟩ := reachable_axesReachable c es y hrun
  obtain ⟨ix, iy, iz⟩ := reachable_axesCfgInv c es y hrun
  have hgen : GenReachable (y.stepper.axis a) := by
    cases a
    · exact hx
    · exact hy
    · exact hz
  have hdir : (y.stepper.axis a).dir = false := by
    cases a
    · exact ix.1 hcfg
    · exact iy.1 hcfg
    · exact iz.1 hcfg
  have hidle : (y.stepper.axis a).axisState = AxisState.IDLE := by
    rcases axisState_cases (y.stepper.axis a) with h | h
    · exact h
    · have := ((gen_reachable_inv _ hgen).2 h).2
      rw [hcfg] at this
      cases this
  obtain ⟨r1, r2⟩ := reverse_run_unconfigured _ hcfg hdir
  have key : (Stepper.dispatch c y.stepper data home port).2.hdr.error =
        MsgError.MSG_ERROR_FLOW_NOT_CONFIGURED ∧
      (Stepper.dispatch c y.stepper data home port).1.axis a = y.stepper.axis a ∧
      (Stepper.dispatch c y.stepper data home port).1.boardState = y.stepper.boardState := by
    rcases hcmd with ⟨hfid, hne⟩ | hfid
    · rw [(dispatch_supported c y.stepper data home port).2.2.2.1 hfid]
      have hhi : home = true ∨ port = true := by
        cases home <;> cases port <;> simp at hne ⊢
      cases a <;> simp only [Stepper.axis] at r1 r2 ⊢ <;>
        simp [Stepper.returnToHome, haxis, AxisId.code, AXIS_X, AXIS_Y, AXIS_Z, hhi,
          Stepper.setStepperDirection, Stepper.switchRunMotor, r1, r2, Stepper.comReturn,
          Reply.hdr]
    · rw [(dispatch_supported c y.stepper data home port).2.2.2.2.2.1 hfid]
      cases a <;> simp only [Stepper.axis] at r1 r2 ⊢ <;>
        simp [Stepper.runToPrevious, haxis, AxisId.code, AXIS_X, AXIS_Y, AXIS_Z,
          Stepper.setStepperDirection, Stepper.switchRunMotor, r1, r2, Stepper.comReturn,
          Reply.hdr]
  obtain ⟨k1, k2, k3⟩ := key
  refine ⟨k1, by rw [k2], by rw [k2]; exact hdir, by rw [k2]; exact hidle, k2, k3⟩

/-- C17 (the code at a failing input): SET_CONFIG for axis X with a NaN period is
answered OK, and afterwards axis X is configured with the stored period NaN,
which is not in the range (0.0027, 0.27]. -/
theorem C17_nan_period_is_stored :
    (Stepper.dispatch demoConsts demoConnected.stepper (mkFrame FID_SET_CONFIG 0 CFloat.nan)
      true true).2.hdr.error = MsgError.MSG_OK ∧
    (Stepper.dispatch demoConsts demoConnected.stepper (mkFrame FID_SET_CONFIG 0 CFloat.nan)
      true true).1.AxisX.flowConfigured = true ∧
    (Stepper.dispatch demoConsts demoConnected.stepper (mkFrame FID_SET_CONFIG 0 CFloat.nan)
      true true).1.AxisX.stepPeriod = CFloat.nan := by
  decide

/-- C18 (the code at a failing input): after accept, SET_CONFIG(X, `0.01f`) and
RUN_TO_NEXT(X) the poll is attached for axis X; a client disconnect re-attaches
the same ticker to the indicator blink and the next accept detaches it, while
axis X is RUNNING throughout. -/
theorem C18_disconnect_replaces_homing_poll :
    (Stepper.run demoConsts demoHomingTrace).map
        (fun y => (y.stepper.tickerStepper, y.stepper.setMotorSelect,
          y.stepper.AxisX.axisState)) =
      some (some (TickerCallback.detectFallingEdge, 100), 0, AxisState.RUNNING) ∧
    (Stepper.run demoConsts (demoHomingTrace ++ [Event.disconnect])).map
        (fun y => (y.stepper.tickerStepper, y.stepper.setMotorSelect,
          y.stepper.AxisX.axisState)) =
      some (some (TickerCallback.flipRedLED, 500), 0, AxisState.RUNNING) ∧
    (Stepper.run demoConsts (demoHomingTrace ++ [Event.disconnect, Event.accept])).map
        (fun y => (y.stepper.tickerStepper, y.stepper.setMotorSelect,
          y.stepper.AxisX.axisState)) =
      some (none, 0, AxisState.RUNNING) := by
  decide

/-- C19 (the code at a failing input): a first GET_STATUS on axis 0 replies with
error OK, but after a GET_STATUS on the invalid axis 5 the reply to GET_STATUS on
axis 0 still carries INVALID_AXIS, with the identifier and the length as claimed. -/
theorem C19_status_error_is_stale :
    (Stepper.dispatch demoConsts demoConnected.stepper (mkFrame FID_GET_STATUS 0 (CFloat.val 0))
      true true).2.hdr.error = MsgError.MSG_OK ∧
    (Stepper.dispatch demoConsts
      (Stepper.dispatch demoConsts demoConnected.stepper
        (mkFrame FID_GET_STATUS 5 (CFloat.val 0)) true true).1
      (mkFrame FID_GET_STATUS 0 (CFloat.val 0)) true true).2.hdr =
      { packetLength := demoConsts.sizeofSystemStatus
        fid := FID_GET_STATUS
        error := MsgError.MSG_ERROR_INVALID_AXIS } := by
  decide

/-- C20 (the code at a failing input): with a session in mode PORT armed on axis X,
RETURN_HOME and RUN_TO_PREVIOUS on the unconfigured axis Y reply
FLOW_NOT_CONFIGURED and leave the session targeting Y, whereas RUN_TO_NEXT leaves
it on X; after the failed RETURN_HOME the next poll finds Y idle and detaches,
with axis X still RUNNING. -/
theorem C20_failed_homing_retargets_session :
    (Stepper.run demoConsts demoHomingTrace).map
        (fun y => (y.stepper.setMotorSelect, y.stepper.flag, y.stepper.positionSignal,
          y.stepper.tickerStepper)) =
      some (0, HomingMode.PORT, true, some (TickerCallback.detectFallingEdge, 100)) ∧
    (Stepper.run demoConsts demoHomingTrace).map
        (fun y =>
          ((Stepper.dispatch demoConsts y.stepper (mkFrame FID_RETURN_HOME 1 (CFloat.val 0))
              true true).2.hdr.error,
            (Stepper.dispatch demoConsts y.stepper (mkFrame FID_RETURN_HOME 1 (CFloat.val 0))
              true true).1.setMotorSelect)) =
      some (MsgError.MSG_ERROR_FLOW_NOT_CONFIGURED, 1) ∧
    (Stepper.run demoConsts demoHomingTrace).map
        (fun y =>
          ((Stepper.dispatch demoConsts y.stepper
              (mkFrame FID_RUN_TO_PREVIOUS 1 (CFloat.val 0)) true true).2.hdr.error,
            (Stepper.dispatch demoConsts y.stepper
              (mkFrame FID_RUN_TO_PREVIOUS 1 (CFloat.val 0)) true true).1.setMotorSelect)) =
      some (MsgError.MSG_ERROR_FLOW_NOT_CONFIGURED, 1) ∧
    (Stepper.run demoConsts demoHomingTrace).map
        (fun y =>
          ((Stepper.dispatch demoConsts y.stepper (mkFrame FID_RUN_TO_NEXT 1 (CFloat.val 0))
              true true).2.hdr.error,
            (Stepper.dispatch demoConsts y.stepper (mkFrame FID_RUN_TO_NEXT 1 (CFloat.val 0))
              true true).1.setMotorSelect)) =
      some (MsgError.MSG_ERROR_FLOW_NOT_CONFIGURED, 0) ∧
    (Stepper.run demoConsts
        (demoHomingTrace ++
          [ Event.frame (mkFrame FID_RETURN_HOME 1 (CFloat.val 0)) true true,
            Event.stepperTick true false false ])).map
        (fun y => (y.stepper.tickerStepper, y.stepper.AxisX.axisState)) =
      some (none, AxisState.RUNNING) := by
  refine ⟨?_, ?_, ?_, ?_, ?_⟩ <;> decide

/-- Witness of C11: at home, RETURN_HOME on the unconfigured axis Z is answered
OK and changes nothing. -/
theorem C11_return_home_at_home_is_noop_witness :
    (Stepper.dispatch demoConsts demoConnected.stepper (mkFrame FID_RETURN_HOME 2 (CFloat.val 0))
      false false).2.hdr.error = MsgError.MSG_OK ∧
    (Stepper.dispatch demoConsts demoConnected.stepper (mkFrame FID_RETURN_HOME 2 (CFloat.val 0))
      false false).1 = demoConnected.stepper :=
  have h := C11_return_home_at_home_is_noop demoConsts demoConnected.stepper
    (mkFrame FID_RETURN_HOME 2 (CFloat.val 0)) AxisId.Z rfl rfl
  ⟨h.1, h.2.1⟩

/-- Witness of C12: with the session on the reversed axis X and axis Y idle, a
poll with both sensors low stops X, turns it forward, detaches the poll and
sets the board IDLE; a poll with the port sensor high changes nothing. -/
theorem C12_home_poll_witness :
    (demoHomeSession.detectFallingEdge false false false).AxisX.axisState = AxisState.IDLE ∧
    (demoHomeSession.detectFallingEdge false false false).AxisX.dir = false ∧
    (demoHomeSession.detectFallingEdge false false false).tickerStepper = none ∧
    (demoHomeSession.detectFallingEdge false false false).boardState = BoardState.IDLE ∧
    (demoHomeSession.detectFallingEdge false true false).AxisX = demoHomeSession.AxisX ∧
    (demoHomeSession.detectFallingEdge false true false).tickerStepper =
      some (TickerCallback.detectFallingEdge, 100) :=
  have h := C12_home_poll demoHomeSession AxisId.X 100 false rfl rfl rfl rfl
  ⟨h.1.1, h.1.2.2.1, h.1.2.2.2.2.2.1, h.1.2.2.2.2.2.2.1 (by decide),
    (h.2 false true (Or.inr rfl)).1, (h.2 false true (Or.inr rfl)).2.2.2.2.2.2⟩

/-- Witness of C14: right after the first accept, RUN_TO_PREVIOUS on the
unconfigured axis Y is answered FLOW_NOT_CONFIGURED and Y still points forward. -/
theorem C14_unconfigured_homing_refused_witness :
    (Stepper.dispatch demoConsts demoConnected.stepper
      (mkFrame FID_RUN_TO_PREVIOUS 1 (CFloat.val 0)) true true).2.hdr.error =
      MsgError.MSG_ERROR_FLOW_NOT_CONFIGURED ∧
    (Stepper.dispatch demoConsts demoConnected.stepper
      (mkFrame FID_RUN_TO_PREVIOUS 1 (CFloat.val 0)) true true).1.AxisY.dir = false ∧
    (Stepper.dispatch demoConsts demoConnected.stepper
      (mkFrame FID_RUN_TO_PREVIOUS 1 (CFloat.val 0)) true true).1.boardState = BoardState.IDLE :=
  have h := C14_unconfigured_homing_refused demoConsts demoConnected ⟨[Event.accept], rfl⟩
    (mkFrame FID_RUN_TO_PREVIOUS 1 (CFloat.val 0)) true true AxisId.Y rfl rfl (Or.inr rfl)
  ⟨h.1, h.2.2.1, h.2.2.2.2.2⟩

/-- Witness of C15: the period `0.01f` lies in the accepted range and gives an
interval of 5 ms, its product with 1000 rounding to `10.0f`. -/
theorem C15_interval_is_whole_milliseconds_witness :
    f32_0_0027 < f32_0_01 ∧ f32_0_01 ≤ f32_0_27 ∧
    (MotorController.new.setFlowConfig (CFloat.val f32_0_01)).runMotor.2.tickerMotor =
      some (some 5) :=
  ⟨by decide, by decide,
    ((C15_interval_is_whole_milliseconds
      (MotorController.new.setFlowConfig (CFloat.val f32_0_01)) f32_0_01 rfl rfl rfl
      (by decide) (by decide)).1).trans (congrArg some interval_0_01)⟩

end UStepper
